import Mathlib

/-!
BookBazar client: the cart state engine.

A shallow embedding of the cart slice (`src/store/cartSlice.js`), of the
wishlist slice (`src/store/wishlistSlice.js`), of the handlers of the cart page
and of the wishlist page (`src/pages/CartPage.jsx`, `src/pages/WishlistPage.jsx`)
and of the synchronisation hooks (`src/hooks/useBackendSync.js`).

Modelling conventions:

* JavaScript numbers are exact rationals (`ℚ`); quantities are integers. The
  bounds on the coupon amounts are the exception: there a number is a `Double`
  (NaN, an infinity, or a finite rational) and `roundToDouble` rounds the exact
  result of every operation to the nearest double, ties to even, with gradual
  underflow and overflow to infinity; the sign of zero is left out.
* A value that is a string or `undefined` is an `Option String`; strict
  equality `===` on such values is equality of options.
* An optional property of the state (`discount`, `couponCode`, `finalTotal`)
  is an `Option`; `delete state.x` and `state.x = undefined` both give `none`.
* A reducer is a pure function from the state and its payload to the next
  state (the mutation of the Immer draft, made explicit). Toast notifications
  do not touch the state and are left out.
* The clock read by `addToWishlist` is an argument of the reducer.
* An asynchronous function of the hooks is the list of its effects (remote
  calls, dispatched actions, notifications, console logs) in the order in which
  one run produces them, given what the remote service answers; actions
  dispatched by other code between two effects are outside the model.
-/

namespace BookBazar

/-! ## JavaScript helpers -/

/-- Truthiness of a value that is a string or `undefined`: a non-empty string. -/
def truthy : Option String → Bool
  | some s => s != ""
  | none => false

/-- The operator `a || b` on values that are strings or `undefined`. -/
def jsOr (a b : Option String) : Option String :=
  if truthy a then a else b

/-- The upper case of one character, as `String.prototype.toUpperCase` maps it,
for every character whose upper case is written in ASCII: the letters a to z,
and the ten other characters that have such an upper case (sharp s, dotless i,
long s and the seven Latin ligatures). A character whose upper case is not
ASCII is left as it is. -/
def upperCaseOfChar (c : Char) : List Char :=
  if c = Char.ofNat 0xDF then ['S', 'S']
  else if c = Char.ofNat 0x131 then ['I']
  else if c = Char.ofNat 0x17F then ['S']
  else if c = Char.ofNat 0xFB00 then ['F', 'F']
  else if c = Char.ofNat 0xFB01 then ['F', 'I']
  else if c = Char.ofNat 0xFB02 then ['F', 'L']
  else if c = Char.ofNat 0xFB03 then ['F', 'F', 'I']
  else if c = Char.ofNat 0xFB04 then ['F', 'F', 'L']
  else if c = Char.ofNat 0xFB05 then ['S', 'T']
  else if c = Char.ofNat 0xFB06 then ['S', 'T']
  else [c.toUpper]

/-- The upper case of a list of characters, character by character. -/
def upperCaseOfChars : List Char → List Char
  | [] => []
  | c :: rest => upperCaseOfChar c ++ upperCaseOfChars rest

/-- `String.prototype.toUpperCase` on the strings of the scenarios. It is exact
on every string whose upper case is ASCII text, so its result is one of the
ASCII keys of the coupon table exactly when the result of the engine is. The
handler below takes the upper-casing function as an argument, and what is
proved of it holds for every such function. -/
def toUpperCase (s : String) : String :=
  String.mk (upperCaseOfChars s.data)

/-! ## Data model -/

/-- A book object as the views pass it to the stores. -/
structure Book where
  _id : Option String
  id : Option String
  title : String
  author : String
  price : ℚ
  coverImageUrl : String
  category : Option String
  averageRating : Option ℚ := none
  reviewCount : Option Nat := none
  deriving DecidableEq, Repr

/-- One line of the cart, as built by `addToCart`. -/
structure CartItem where
  id : Option String
  title : String
  author : String
  price : ℚ
  coverImageUrl : String
  category : Option String
  quantity : Int
  deriving DecidableEq, Repr

/-- The state of the cart slice: `initialState` plus the optional coupon fields. -/
structure CartState where
  items : List CartItem
  total : ℚ
  itemCount : Int
  loading : Bool
  error : Option String
  discount : Option ℚ
  couponCode : Option String
  finalTotal : Option ℚ
  deriving DecidableEq, Repr

/-- The constant `initialState` of the cart slice. -/
def initialState : CartState :=
  { items := [], total := 0, itemCount := 0, loading := false, error := none,
    discount := none, couponCode := none, finalTotal := none }

/-- The pair returned by `calculateTotals`. -/
structure Totals where
  itemCount : Int
  total : ℚ
  deriving DecidableEq, Repr

/-- The function `calculateTotals`: two left folds over the item list. -/
def calculateTotals (items : List CartItem) : Totals :=
  { itemCount := items.foldl (fun total item => total + item.quantity) 0
    total := items.foldl (fun total item => total + item.price * item.quantity) 0 }

/-- Mutation of the first element satisfying `p`: what writing through the
reference returned by `Array.prototype.find` does to the array. -/
def mutateFirst (p : CartItem → Bool) (f : CartItem → CartItem) :
    List CartItem → List CartItem
  | [] => []
  | x :: xs => if p x then f x :: xs else x :: mutateFirst p f xs

/-! ## Payloads -/

/-- Payload of `addToCart`: `{ book, quantity = 1 }`. -/
structure AddToCartPayload where
  book : Book
  quantity : Option Int
  deriving DecidableEq, Repr

/-- Payload of `removeFromCart`: `{ bookId }`. -/
structure RemoveFromCartPayload where
  bookId : Option String
  deriving DecidableEq, Repr

/-- Payload of `updateQuantity`: `{ id, quantity }`. -/
structure UpdateQuantityPayload where
  id : Option String
  quantity : Int
  deriving DecidableEq, Repr

/-- Payload of `applyCoupon`: `{ couponCode, discountPercent }`. -/
structure ApplyCouponPayload where
  couponCode : String
  discountPercent : ℚ
  deriving DecidableEq, Repr

/-- Payload of `loadCartFromBackend`: the cart snapshot sent by the server.
Every property is optional; `total` stands for a server-sent total, which the
reducer never reads. -/
structure CartSnapshot where
  items : Option (List CartItem)
  discount : Option ℚ
  couponCode : Option String
  finalTotal : Option ℚ
  total : Option ℚ
  deriving DecidableEq, Repr

/-! ## Reducers of the cart slice -/

/-- The predicate of the `find` call in `addToCart`. -/
def matchesBook (book : Book) (item : CartItem) : Bool :=
  item.id == book._id || item.id == book.id

/-- The object literal `cartItem` built by `addToCart`. -/
def newCartItem (book : Book) (quantity : Int) : CartItem :=
  { id := jsOr book._id book.id
    title := book.title
    author := book.author
    price := book.price
    coverImageUrl := book.coverImageUrl
    category := book.category
    quantity := quantity }

/-- Reducer `addToCart`. -/
def addToCart (state : CartState) (payload : AddToCartPayload) : CartState :=
  let book := payload.book
  let quantity := payload.quantity.getD 1
  let existingItem := state.items.find? (matchesBook book)
  let items :=
    match existingItem with
    | some _ =>
      mutateFirst (matchesBook book)
        (fun item => { item with quantity := item.quantity + quantity }) state.items
    | none => state.items ++ [newCartItem book quantity]
  let totals := calculateTotals items
  { state with items := items, itemCount := totals.itemCount, total := totals.total }

/-- Reducer `removeFromCart`. -/
def removeFromCart (state : CartState) (payload : RemoveFromCartPayload) : CartState :=
  let bookId := payload.bookId
  match state.items.find? (fun item => item.id == bookId) with
  | some _ =>
    let items := state.items.filter (fun item => item.id != bookId)
    let totals := calculateTotals items
    { state with items := items, itemCount := totals.itemCount, total := totals.total }
  | none => state

/-- Reducer `updateQuantity`. -/
def updateQuantity (state : CartState) (payload : UpdateQuantityPayload) : CartState :=
  let id := payload.id
  let quantity := payload.quantity
  match state.items.find? (fun item => item.id == id) with
  | some _ =>
    if quantity > 0 then
      let items :=
        mutateFirst (fun item => item.id == id)
          (fun item => { item with quantity := quantity }) state.items
      let totals := calculateTotals items
      { state with items := items, itemCount := totals.itemCount, total := totals.total }
    else if quantity ≤ 0 then
      let items := state.items.filter (fun item => item.id != id)
      let totals := calculateTotals items
      { state with items := items, itemCount := totals.itemCount, total := totals.total }
    else state
  | none => state

/-- Reducer `clearCart`. -/
def clearCart (state : CartState) : CartState :=
  { state with items := [], itemCount := 0, total := 0 }

/-- Reducer `applyCoupon`. -/
def applyCoupon (state : CartState) (payload : ApplyCouponPayload) : CartState :=
  let couponCode := payload.couponCode
  let discountPercent := payload.discountPercent
  if state.total > 0 then
    let discountAmount := (state.total * discountPercent) / 100
    { state with
      discount := some discountAmount
      couponCode := some couponCode
      finalTotal := some (state.total - discountAmount) }
  else state

/-- Reducer `removeCoupon`. -/
def removeCoupon (state : CartState) : CartState :=
  { state with discount := none, couponCode := none, finalTotal := none }

/-- Reducer `loadCartFromBackend`. -/
def loadCartFromBackend (state : CartState) (cartData : CartSnapshot) : CartState :=
  let items := cartData.items.getD []
  let totals := calculateTotals items
  { state with
    items := items
    itemCount := totals.itemCount
    total := totals.total
    discount := cartData.discount
    couponCode := cartData.couponCode
    finalTotal := cartData.finalTotal }

/-- Reducer `setCartLoading`. -/
def setCartLoading (state : CartState) (payload : Bool) : CartState :=
  { state with loading := payload }

/-- Reducer `setCartError`. -/
def setCartError (state : CartState) (payload : Option String) : CartState :=
  { state with error := payload }

/-- The actions exported by the cart slice. -/
inductive CartAction where
  | addToCart (payload : AddToCartPayload)
  | removeFromCart (payload : RemoveFromCartPayload)
  | updateQuantity (payload : UpdateQuantityPayload)
  | clearCart
  | applyCoupon (payload : ApplyCouponPayload)
  | removeCoupon
  | loadCartFromBackend (cartData : CartSnapshot)
  | setCartLoading (payload : Bool)
  | setCartError (payload : Option String)
  deriving DecidableEq, Repr

/-- The reducer of the cart slice: one action applied to the state. -/
def cartReducer (state : CartState) : CartAction → CartState
  | .addToCart payload => addToCart state payload
  | .removeFromCart payload => removeFromCart state payload
  | .updateQuantity payload => updateQuantity state payload
  | .clearCart => clearCart state
  | .applyCoupon payload => applyCoupon state payload
  | .removeCoupon => removeCoupon state
  | .loadCartFromBackend cartData => loadCartFromBackend state cartData
  | .setCartLoading payload => setCartLoading state payload
  | .setCartError payload => setCartError state payload

/-- A sequence of actions dispatched to the store, one after the other. -/
def dispatchAll (state : CartState) (actions : List CartAction) : CartState :=
  actions.foldl cartReducer state

/-! ## The coupon handler of the cart page -/

/-- The local state of `CartPage` that the coupon handler reads and writes. -/
structure CartPageState where
  couponInput : String
  couponMessage : String
  deriving DecidableEq, Repr

/-- The object literal `validCoupons` of `handleApplyCoupon`. -/
def validCoupons : List (String × ℚ) :=
  [("NAFIU", 20), ("WELCOME10", 10), ("SAVE15", 15), ("BOOKBAZAR", 25)]

/-- What one call of a handler does: the actions it dispatches to the store,
in order, and the page state it leaves. -/
structure HandlerResult where
  dispatched : List CartAction
  page : CartPageState
  deriving DecidableEq, Repr

/-- The handler `handleApplyCoupon` of `CartPage`. The built-in
`String.prototype.toUpperCase` is the argument `upper`. The property read
`validCoupons[upperCoupon]` is a lookup in the table (every property inherited
from `Object.prototype` has a lower-case letter in its name, so an upper-cased
key never reaches one), and its truthiness is being a number other than zero.
The timer that blanks the message three seconds later is left out. -/
def handleApplyCoupon (upper : String → String) (page : CartPageState) : HandlerResult :=
  let upperCoupon := upper page.couponInput
  match validCoupons.lookup upperCoupon with
  | some discountPercent =>
    if discountPercent ≠ 0 then
      { dispatched :=
          [CartAction.applyCoupon
            { couponCode := upperCoupon, discountPercent := discountPercent }]
        page :=
          { page with
            couponMessage := "Coupon applied! " ++ toString discountPercent ++ "% off" } }
    else
      { dispatched := [], page := { page with couponMessage := "Invalid coupon code" } }
  | none =>
    { dispatched := [], page := { page with couponMessage := "Invalid coupon code" } }

/-! ## The wishlist slice -/

/-- One saved book, as built by `addToWishlist`. -/
structure WishlistItem where
  id : Option String
  title : String
  author : String
  price : ℚ
  coverImageUrl : String
  category : Option String
  averageRating : Option ℚ
  reviewCount : Option Nat
  dateAdded : String
  deriving DecidableEq, Repr

/-- The state of the wishlist slice. -/
structure WishlistState where
  items : List WishlistItem
  loading : Bool
  error : Option String
  deriving DecidableEq, Repr

/-- The constant `initialState` of the wishlist slice. -/
def wishlistInitialState : WishlistState :=
  { items := [], loading := false, error := none }

/-- Payload of `addToWishlist`: `{ book }`. -/
structure AddToWishlistPayload where
  book : Book
  deriving DecidableEq, Repr

/-- Payload of `removeFromWishlist`: `{ bookId }`. -/
structure RemoveFromWishlistPayload where
  bookId : Option String
  deriving DecidableEq, Repr

/-- Payload of `loadWishlistFromBackend`: the wishlist snapshot sent by the server. -/
structure WishlistSnapshot where
  items : Option (List WishlistItem)
  deriving DecidableEq, Repr

/-- The predicate of the `find` call in `addToWishlist`. -/
def matchesWishlistBook (book : Book) (item : WishlistItem) : Bool :=
  item.id == book._id || item.id == book.id

/-- The object literal `wishlistItem` built by `addToWishlist`; `now` is the
value of `new Date().toISOString()` at the call. -/
def newWishlistItem (book : Book) (now : String) : WishlistItem :=
  { id := jsOr book._id book.id
    title := book.title
    author := book.author
    price := book.price
    coverImageUrl := book.coverImageUrl
    category := book.category
    averageRating := book.averageRating
    reviewCount := book.reviewCount
    dateAdded := now }

/-- Reducer `addToWishlist`. The clock read by the reducer is the argument `now`. -/
def addToWishlist (state : WishlistState) (payload : AddToWishlistPayload) (now : String) :
    WishlistState :=
  let book := payload.book
  let existingItem := state.items.find? (matchesWishlistBook book)
  match existingItem with
  | none => { state with items := state.items ++ [newWishlistItem book now] }
  | some _ => state

/-- Reducer `removeFromWishlist`. -/
def removeFromWishlist (state : WishlistState) (payload : RemoveFromWishlistPayload) :
    WishlistState :=
  let bookId := payload.bookId
  match state.items.find? (fun item => item.id == bookId) with
  | some _ => { state with items := state.items.filter (fun item => item.id != bookId) }
  | none => state

/-- Reducer `clearWishlist`. -/
def clearWishlist (state : WishlistState) : WishlistState :=
  { state with items := [] }

/-- Reducer `loadWishlistFromBackend`. -/
def loadWishlistFromBackend (state : WishlistState) (wishlistData : WishlistSnapshot) :
    WishlistState :=
  { state with items := wishlistData.items.getD [] }

/-- Reducer `setWishlistLoading`. -/
def setWishlistLoading (state : WishlistState) (payload : Bool) : WishlistState :=
  { state with loading := payload }

/-- Reducer `setWishlistError`. -/
def setWishlistError (state : WishlistState) (payload : Option String) : WishlistState :=
  { state with error := payload }

/-- The actions of the wishlist slice whose reducers edit the draft. The action
`isInWishlist`, whose reducer returns a value and edits nothing, is not one of
them. -/
inductive WishlistAction where
  | addToWishlist (payload : AddToWishlistPayload) (now : String)
  | removeFromWishlist (payload : RemoveFromWishlistPayload)
  | clearWishlist
  | loadWishlistFromBackend (wishlistData : WishlistSnapshot)
  | setWishlistLoading (payload : Bool)
  | setWishlistError (payload : Option String)
  deriving DecidableEq, Repr

/-- The reducer of the wishlist slice on these actions. -/
def wishlistReducer (state : WishlistState) : WishlistAction → WishlistState
  | .addToWishlist payload now => addToWishlist state payload now
  | .removeFromWishlist payload => removeFromWishlist state payload
  | .clearWishlist => clearWishlist state
  | .loadWishlistFromBackend wishlistData => loadWishlistFromBackend state wishlistData
  | .setWishlistLoading payload => setWishlistLoading state payload
  | .setWishlistError payload => setWishlistError state payload

/-- A sequence of wishlist actions dispatched to the store, one after the other. -/
def dispatchAllWishlist (state : WishlistState) (actions : List WishlistAction) :
    WishlistState :=
  actions.foldl wishlistReducer state

/-- The case reducer `isInWishlist`: it edits nothing and returns a boolean. -/
def isInWishlist (state : WishlistState) (payload : Option String) : Bool :=
  state.items.any (fun item => item.id == payload)

/-- What the wishlist slice may hold once a case reducer has returned a value:
its state object, or the boolean that `isInWishlist` returns. -/
inductive WishlistSliceValue where
  | state (value : WishlistState)
  | boolean (value : Bool)
  deriving DecidableEq, Repr

/-- The next value of the slice after one run of a case reducer under
`createSlice`, whose reducers run inside Immer's `produce`: a reducer that
returns `undefined` (here `none`) leaves the edited draft as the next state,
and a reducer that returns another value without editing the draft makes that
value the next state. -/
def nextSliceValue (draft : WishlistState) (returned : Option Bool) : WishlistSliceValue :=
  match returned with
  | none => WishlistSliceValue.state draft
  | some value => WishlistSliceValue.boolean value

/-- Dispatching the action `isInWishlist(bookId)` to the wishlist slice. -/
def dispatchIsInWishlist (state : WishlistState) (bookId : Option String) :
    WishlistSliceValue :=
  nextSliceValue state (some (isInWishlist state bookId))

/-! ## The store and the selectors -/

/-- Modelled from the spec: the store configuration is not among the sources.
The two state containers of the system overview sit side by side, under the
keys `cart` and `wishlist` that the selectors and the pages read. -/
structure RootState where
  cart : CartState
  wishlist : WishlistState
  deriving DecidableEq, Repr

/-- Selector `selectWishlistItems`. -/
def selectWishlistItems (state : RootState) : List WishlistItem :=
  state.wishlist.items

/-- Selector `selectWishlistCount`. -/
def selectWishlistCount (state : RootState) : Nat :=
  state.wishlist.items.length

/-- Selector `selectIsInWishlist`. -/
def selectIsInWishlist (state : RootState) (bookId : Option String) : Bool :=
  state.wishlist.items.any (fun item => item.id == bookId)

/-- What a hook or a handler does to the outside, one step at a time. -/
inductive Effect where
  | remoteCall (name : String)
  | dispatchCart (action : CartAction)
  | dispatchWishlist (action : WishlistAction)
  | toastSuccess (message : String)
  | toastError (message : String)
  | consoleError (message : String)
  deriving DecidableEq, Repr

/-- Modelled from the spec: the store configuration is not among the sources.
Each action reaches the slice that declares it; the other effects leave the
store alone. -/
def applyEffect (store : RootState) : Effect → RootState
  | .dispatchCart action => { store with cart := cartReducer store.cart action }
  | .dispatchWishlist action => { store with wishlist := wishlistReducer store.wishlist action }
  | _ => store

/-- The store after a sequence of effects. -/
def applyEffects (store : RootState) (effects : List Effect) : RootState :=
  effects.foldl applyEffect store

/-! ## The handler of the wishlist page -/

/-- A wishlist item read as a book, as `handleMoveAllToCart` passes it to
`addToCart`: the object has an `id` and no `_id`. -/
def wishlistItemAsBook (item : WishlistItem) : Book :=
  { _id := none
    id := item.id
    title := item.title
    author := item.author
    price := item.price
    coverImageUrl := item.coverImageUrl
    category := item.category
    averageRating := item.averageRating
    reviewCount := item.reviewCount }

/-- The handler `handleMoveAllToCart` of `WishlistPage`, on the items that
`selectWishlistItems` gave the page. -/
def handleMoveAllToCart (wishlistItems : List WishlistItem) : List Effect :=
  if wishlistItems.length > 0 then
    wishlistItems.map
        (fun book =>
          Effect.dispatchCart
            (CartAction.addToCart { book := wishlistItemAsBook book, quantity := some 1 }))
      ++ [Effect.dispatchWishlist WishlistAction.clearWishlist,
          Effect.toastSuccess "All items moved to cart!"]
  else []

/-! ## The synchronisation hooks -/

/-- What the remote service answers to the calls of one run of a hook: a call
of `cartAPI` or `wishlistAPI` resolves (`ok`) or rejects (`error`). A write
resolves with a body that the hooks never read. -/
structure Remote where
  cartWrite : Except String Unit
  getCart : Except String CartSnapshot
  wishlistWrite : Except String Unit
  getWishlist : Except String WishlistSnapshot

/-- One run of an asynchronous function of the hooks: its effects in order,
and the error it rejects with, if it does. -/
structure Run where
  effects : List Effect
  thrown : Option String
  deriving DecidableEq, Repr

/-- The function `loadCartFromBackendAPI` of `useCartSync`. -/
def loadCartFromBackendAPI (remote : Remote) : Run :=
  match remote.getCart with
  | .ok cartData =>
    { effects :=
        [Effect.remoteCall "cartAPI.getCart",
         Effect.dispatchCart (CartAction.loadCartFromBackend cartData)]
      thrown := none }
  | .error _ =>
    { effects :=
        [Effect.remoteCall "cartAPI.getCart",
         Effect.consoleError "Failed to load cart from backend:"]
      thrown := none }

/-- The `switch` of `syncCart`: the remote write that an action name issues. -/
def syncCartWrite (action : String) : Option String :=
  if action = "add" then some "cartAPI.addToCart"
  else if action = "update" then some "cartAPI.updateCartItem"
  else if action = "remove" then some "cartAPI.removeFromCart"
  else if action = "clear" then some "cartAPI.clearCart"
  else if action = "applyCoupon" then some "cartAPI.applyCoupon"
  else if action = "removeCoupon" then some "cartAPI.removeCoupon"
  else none

/-- The function `syncCart` of `useCartSync`, for the user id `user?.id`. The
data forwarded to the remote call is left out. The reload that follows a
successful write is started and not awaited: its effects come last. -/
def syncCart (userId : Option String) (action : String) (remote : Remote) : Run :=
  if !truthy userId then { effects := [], thrown := none }
  else
    match syncCartWrite action with
    | some call =>
      match remote.cartWrite with
      | .ok _ =>
        { effects := Effect.remoteCall call :: (loadCartFromBackendAPI remote).effects
          thrown := none }
      | .error _ =>
        { effects :=
            [Effect.remoteCall call,
             Effect.consoleError "Failed to sync cart:",
             Effect.toastError "Failed to sync with server"]
          thrown := none }
    | none => { effects := (loadCartFromBackendAPI remote).effects, thrown := none }

/-- The function `loadWishlistFromBackendAPI` of `useWishlistSync`. -/
def loadWishlistFromBackendAPI (remote : Remote) : Run :=
  match remote.getWishlist with
  | .ok wishlistData =>
    { effects :=
        [Effect.remoteCall "wishlistAPI.getWishlist",
         Effect.dispatchWishlist (WishlistAction.loadWishlistFromBackend wishlistData)]
      thrown := none }
  | .error _ =>
    { effects :=
        [Effect.remoteCall "wishlistAPI.getWishlist",
         Effect.consoleError "Failed to load wishlist from backend:"]
      thrown := none }

/-- The `switch` of `syncWishlist`: the remote write that an action name issues. -/
def syncWishlistWrite (action : String) : Option String :=
  if action = "add" then some "wishlistAPI.addToWishlist"
  else if action = "remove" then some "wishlistAPI.removeFromWishlist"
  else if action = "clear" then some "wishlistAPI.clearWishlist"
  else none

/-- The function `syncWishlist` of `useWishlistSync`. -/
def syncWishlist (userId : Option String) (action : String) (remote : Remote) : Run :=
  if !truthy userId then { effects := [], thrown := none }
  else
    match syncWishlistWrite action with
    | some call =>
      match remote.wishlistWrite with
      | .ok _ =>
        { effects := Effect.remoteCall call :: (loadWishlistFromBackendAPI remote).effects
          thrown := none }
      | .error _ =>
        { effects :=
            [Effect.remoteCall call,
             Effect.consoleError "Failed to sync wishlist:",
             Effect.toastError "Failed to sync with server"]
          thrown := none }
    | none => { effects := (loadWishlistFromBackendAPI remote).effects, thrown := none }

/-- The effect of `useCartSync`, run when `user?.id` changes. -/
def useCartSync (userId : Option String) (remote : Remote) : Run :=
  if truthy userId then loadCartFromBackendAPI remote
  else { effects := [], thrown := none }

/-- The effect of `useWishlistSync`, run when `user?.id` changes. -/
def useWishlistSync (userId : Option String) (remote : Remote) : Run :=
  if truthy userId then loadWishlistFromBackendAPI remote
  else { effects := [], thrown := none }

/-- The function `loadUserCart` of `useInitializeUserData`. -/
def loadUserCart (remote : Remote) : Run :=
  match remote.getCart with
  | .ok cartData =>
    { effects :=
        [Effect.remoteCall "cartAPI.getCart",
         Effect.dispatchCart (CartAction.loadCartFromBackend cartData)]
      thrown := none }
  | .error _ =>
    { effects :=
        [Effect.remoteCall "cartAPI.getCart", Effect.consoleError "Failed to load cart:"]
      thrown := none }

/-- The function `loadUserWishlist` of `useInitializeUserData`. -/
def loadUserWishlist (remote : Remote) : Run :=
  match remote.getWishlist with
  | .ok wishlistData =>
    { effects :=
        [Effect.remoteCall "wishlistAPI.getWishlist",
         Effect.dispatchWishlist (WishlistAction.loadWishlistFromBackend wishlistData)]
      thrown := none }
  | .error _ =>
    { effects :=
        [Effect.remoteCall "wishlistAPI.getWishlist",
         Effect.consoleError "Failed to load wishlist:"]
      thrown := none }

/-- The effect of `useInitializeUserData`, run when `isLoaded` or `user?.id`
changes. The two loads are started one after the other and neither is awaited;
they write to different slices, so the effects of the first are listed first. -/
def useInitializeUserData (isLoaded : Bool) (userId : Option String) (remote : Remote) : Run :=
  if isLoaded && truthy userId then
    { effects := (loadUserCart remote).effects ++ (loadUserWishlist remote).effects
      thrown := none }
  else { effects := [], thrown := none }

/-! ## The coupon arithmetic in double precision -/

/-- A JavaScript number in the binary64 format: NaN, an infinity with its sign,
or a finite value, held as the rational it denotes. The sign of zero is left
out. -/
inductive Double where
  | nan
  | infinity (negative : Bool)
  | finite (value : ℚ)
  deriving DecidableEq, Repr

/-- The integer nearest to a rational, a tie going to the even one. -/
def roundHalfEven (q : ℚ) : Int :=
  if q - ⌊q⌋ < 1 / 2 then ⌊q⌋
  else if 1 / 2 < q - ⌊q⌋ then ⌊q⌋ + 1
  else if ⌊q⌋ % 2 = 0 then ⌊q⌋
  else ⌊q⌋ + 1

/-- The spacing of the doubles around a rational: 2^(e − 52) where e is the
binary exponent of the rational, and 2^(-1074) throughout the subnormal range. -/
def quantum (x : ℚ) : ℚ :=
  (2 : ℚ) ^ (max (Int.log 2 |x|) (-1022) - 52)

/-- The double nearest to a rational (round to nearest, ties to even, gradual
underflow); the infinity of its sign when the rounded value reaches 2^1024. -/
def roundToDouble (x : ℚ) : Double :=
  if |(roundHalfEven (x / quantum x) : ℚ) * quantum x| < 2 ^ 1024 then
    Double.finite ((roundHalfEven (x / quantum x) : ℚ) * quantum x)
  else Double.infinity (decide (x < 0))

/-- The operator `a * b` on doubles. -/
def Double.mul : Double → Double → Double
  | .finite a, .finite b => roundToDouble (a * b)
  | .finite a, .infinity s => if a = 0 then .nan else .infinity (xor s (decide (a < 0)))
  | .infinity s, .finite b => if b = 0 then .nan else .infinity (xor s (decide (b < 0)))
  | .infinity s, .infinity t => .infinity (xor s t)
  | _, _ => .nan

/-- The operator `a / b` on doubles. -/
def Double.div : Double → Double → Double
  | .finite a, .finite b =>
    if b = 0 then (if a = 0 then .nan else .infinity (decide (a < 0)))
    else roundToDouble (a / b)
  | .finite _, .infinity _ => .finite 0
  | .infinity s, .finite b => .infinity (xor s (decide (b < 0)))
  | _, _ => .nan

/-- The operator `a - b` on doubles. -/
def Double.sub : Double → Double → Double
  | .finite a, .finite b => roundToDouble (a - b)
  | .finite _, .infinity s => .infinity (!s)
  | .infinity s, .finite _ => .infinity s
  | .infinity s, .infinity t => if s = t then .nan else .infinity s
  | _, _ => .nan

/-- The comparison `a > b` on doubles. -/
def Double.gt : Double → Double → Bool
  | .finite a, .finite b => decide (a > b)
  | .finite _, .infinity s => s
  | .infinity s, .finite _ => !s
  | .infinity s, .infinity t => !s && t
  | _, _ => false

/-- Truthiness of a double: neither zero nor NaN. -/
def Double.truthy : Double → Bool
  | .finite a => decide (a ≠ 0)
  | .infinity _ => true
  | .nan => false

/-- The operator `a || b` on doubles. -/
def Double.or (a b : Double) : Double :=
  if a.truthy then a else b

/-- The numeric fields of the cart state (`total`, `discount`, `finalTotal`) as
the engine holds them, in doubles. -/
structure CartAmounts where
  total : Double
  discount : Option Double
  finalTotal : Option Double
  deriving DecidableEq, Repr

/-- Reducer `applyCoupon` on the numeric fields, every operation rounded as the
engine rounds it; `couponCode` is not a number and is left to `applyCoupon`. -/
def applyCouponDouble (state : CartAmounts) (discountPercent : Double) : CartAmounts :=
  if Double.gt state.total (Double.finite 0) then
    let discountAmount :=
      Double.div (Double.mul state.total discountPercent) (Double.finite 100)
    { state with
      discount := some discountAmount
      finalTotal := some (Double.sub state.total discountAmount) }
  else state

/-- The expression `finalTotal || total` of the cart page and of
`handleCheckout`, where `finalTotal` may be `undefined`. -/
def finalTotalOrTotal (state : CartAmounts) : Double :=
  match state.finalTotal with
  | some finalTotal => Double.or finalTotal state.total
  | none => state.total

/-! ## Sample data of the scenarios -/

/-- The book of scenarios A and B: id `b1`, unit price 10. -/
def bookB1 : Book :=
  { _id := none, id := some "b1", title := "Book One", author := "Author One",
    price := 10, coverImageUrl := "", category := none }

/-- A second book, known by its `_id`: id `b2`, unit price 15. -/
def bookB2 : Book :=
  { _id := some "b2", id := none, title := "Book Two", author := "Author Two",
    price := 15, coverImageUrl := "", category := some "Fiction" }

/-- The cart of scenario B: two copies of `b1`. -/
def cartB1 : CartState :=
  addToCart initialState { book := bookB1, quantity := some 2 }

/-- A cart of two lines: two copies of `b1`, one copy of `b2`. -/
def cartB1B2 : CartState :=
  addToCart cartB1 { book := bookB2, quantity := some 1 }

/-- A free book: id `b0`, unit price 0. -/
def bookFree : Book :=
  { _id := some "b0", id := none, title := "Free Sample", author := "Author Zero",
    price := 0, coverImageUrl := "", category := none }

/-- A cart that is not empty and whose total is 0: one copy of the free book. -/
def cartFree : CartState :=
  addToCart initialState { book := bookFree, quantity := some 1 }

/-- The cart of scenario C, of total 100: ten copies of `b1`. -/
def cartHundred : CartState :=
  addToCart initialState { book := bookB1, quantity := some 10 }

/-- The cart of scenario C once the coupon `nafiu` went through the handler. -/
def cartHundredNafiu : CartState :=
  dispatchAll cartHundred
    (handleApplyCoupon toUpperCase { couponInput := "nafiu", couponMessage := "" }).dispatched

/-- A snapshot that carries a discount and no coupon code. -/
def snapshotDiscountOnly : CartSnapshot :=
  { items := none, discount := some 5, couponCode := none, finalTotal := none, total := none }

/-- A snapshot that carries a discount together with its coupon code. -/
def snapshotWithCoupon : CartSnapshot :=
  { items := some [], discount := some 3, couponCode := some "SAVE15", finalTotal := some 17,
    total := some 20 }

/-- A run that ends with an edit of the cart made while a coupon is active. -/
def actionsEditAfterCoupon : List CartAction :=
  [CartAction.addToCart { book := bookB1, quantity := some 2 },
   CartAction.applyCoupon { couponCode := "NAFIU", discountPercent := 20 },
   CartAction.addToCart { book := bookB1, quantity := some 1 }]

/-- A run in which the coupon is removed before the cart is edited again. -/
def actionsCouponRemovedBeforeEdit : List CartAction :=
  [CartAction.addToCart { book := bookB1, quantity := some 2 },
   CartAction.applyCoupon { couponCode := "NAFIU", discountPercent := 20 },
   CartAction.removeCoupon,
   CartAction.addToCart { book := bookB1, quantity := some 1 },
   CartAction.applyCoupon { couponCode := "WELCOME10", discountPercent := 10 }]

/-- A run over all seven actions whose snapshot carries a discount with its code. -/
def actionsWithPairedSnapshot : List CartAction :=
  [CartAction.addToCart { book := bookB1, quantity := some 2 },
   CartAction.applyCoupon { couponCode := "NAFIU", discountPercent := 20 },
   CartAction.updateQuantity { id := some "b1", quantity := 1 },
   CartAction.removeCoupon,
   CartAction.loadCartFromBackend snapshotWithCoupon,
   CartAction.removeFromCart { bookId := some "b1" },
   CartAction.clearCart]

/-- A book whose `_id` and `id` differ: `_id` is `b2`, `id` is `b1`. -/
def bookDual : Book :=
  { _id := some "b2", id := some "b1", title := "Book Dual", author := "Author Dual",
    price := 7, coverImageUrl := "", category := none }

/-- A run of the four actions that edit the cart, on books of all three kinds,
with a quantity left out on an add, and a quantity set to 0 and to −2. -/
def actionsEditsOnly : List CartAction :=
  [CartAction.addToCart { book := bookB1, quantity := some 2 },
   CartAction.addToCart { book := bookB2, quantity := none },
   CartAction.addToCart { book := bookDual, quantity := some 1 },
   CartAction.updateQuantity { id := some "b2", quantity := 4 },
   CartAction.removeFromCart { bookId := some "b9" },
   CartAction.clearCart,
   CartAction.addToCart { book := bookDual, quantity := some 3 },
   CartAction.addToCart { book := bookB1, quantity := some 1 },
   CartAction.addToCart { book := bookFree, quantity := some 1 },
   CartAction.updateQuantity { id := some "b0", quantity := 0 },
   CartAction.updateQuantity { id := some "b1", quantity := -2 }]

/-- The book of scenario E as the second add passes it: `{ id: "b2" }`. -/
def bookB2ById : Book :=
  { _id := none, id := some "b2", title := "Book Two", author := "Author Two",
    price := 15, coverImageUrl := "", category := some "Fiction" }

/-- The wishlist of scenario E: it holds `b2`. -/
def wishlistB2 : WishlistState :=
  addToWishlist wishlistInitialState { book := bookB2 } "2024-05-01T10:00:00.000Z"

/-- A wishlist of two books: `b2`, then `b1`. -/
def wishlistB2B1 : WishlistState :=
  addToWishlist wishlistB2 { book := bookB1 } "2024-05-02T10:00:00.000Z"

/-- A run of addToWishlist, removeFromWishlist and clearWishlist actions, with
repeated adds and a book whose `_id` and `id` differ. -/
def wishlistActions : List WishlistAction :=
  [WishlistAction.addToWishlist { book := bookB2 } "2024-05-01T10:00:00.000Z",
   WishlistAction.addToWishlist { book := bookB1 } "2024-05-02T10:00:00.000Z",
   WishlistAction.addToWishlist { book := bookDual } "2024-05-03T10:00:00.000Z",
   WishlistAction.addToWishlist { book := bookB2ById } "2024-05-04T10:00:00.000Z",
   WishlistAction.removeFromWishlist { bookId := some "b1" },
   WishlistAction.clearWishlist,
   WishlistAction.addToWishlist { book := bookDual } "2024-05-05T10:00:00.000Z",
   WishlistAction.addToWishlist { book := bookB1 } "2024-05-06T10:00:00.000Z",
   WishlistAction.removeFromWishlist { bookId := some "b9" }]

/-- A remote service that rejects every call. -/
def remoteDown : Remote :=
  { cartWrite := Except.error "API Error: 500 Internal Server Error"
    getCart := Except.error "API Error: 500 Internal Server Error"
    wishlistWrite := Except.error "API Error: 500 Internal Server Error"
    getWishlist := Except.error "API Error: 500 Internal Server Error" }

/-- A remote service that accepts every write and answers the pulls with the
snapshot of the coupon SAVE15 and with an empty wishlist. -/
def remoteUp : Remote :=
  { cartWrite := Except.ok ()
    getCart := Except.ok snapshotWithCoupon
    wishlistWrite := Except.ok ()
    getWishlist := Except.ok { items := some [] } }

/-- A store with two lines in the cart (`b1` twice, `b2` once) and two books in
the wishlist (`b2`, then `b1`). -/
def storeB1B2 : RootState :=
  { cart := cartB1B2, wishlist := wishlistB2B1 }

/-- A store with two copies of `b1` in the cart and two books in the wishlist
(`b2`, then `b1`). -/
def storeB1W : RootState :=
  { cart := cartB1, wishlist := wishlistB2B1 }

/-- A book object that has neither `_id` nor `id`. -/
def bookNoId : Book :=
  { _id := none, id := none, title := "Untitled", author := "Unknown",
    price := 5, coverImageUrl := "", category := none }

/-- The cart that `addToCart` builds from the empty cart and the book without
an id: one line whose id is `undefined`. -/
def cartNoId : CartState :=
  addToCart initialState { book := bookNoId, quantity := some 1 }

/-- A store with the line without an id in the cart and `b2` in the wishlist. -/
def storeNoId : RootState :=
  { cart := cartNoId, wishlist := wishlistB2 }

/-! ## Specification vocabulary -/

/-- The runs of addToCart, removeFromCart, updateQuantity, clearCart, applyCoupon
and removeCoupon actions, started in `state`, in which the four actions that
edit the cart are dispatched only while no discount is recorded. -/
def editsOnlyWithoutDiscount : CartState → List CartAction → Bool
  | _, [] => true
  | state, action :: rest =>
    (match action with
      | .addToCart _ => state.discount.isNone
      | .removeFromCart _ => state.discount.isNone
      | .updateQuantity _ => state.discount.isNone
      | .clearCart => state.discount.isNone
      | .applyCoupon _ => true
      | .removeCoupon => true
      | _ => false)
    && editsOnlyWithoutDiscount (cartReducer state action) rest

/-- The sum of the quantities of all items. -/
def sumQuantity (items : List CartItem) : Int :=
  (items.map (fun item => item.quantity)).sum

/-- The quantity of the line of the cart that has the id (the first one, when
several have it), 0 when no line has it. -/
def quantityOf (items : List CartItem) (id : Option String) : Int :=
  match items.find? (fun item => item.id == id) with
  | some item => item.quantity
  | none => 0

/-- The `addToCart` that `handleMoveAllToCart` dispatches for one wishlist item. -/
def moveToCart (cart : CartState) (item : WishlistItem) : CartState :=
  addToCart cart { book := wishlistItemAsBook item, quantity := some 1 }

/-- One more copy of the first line that has the id, or the line `fresh` at the
end of the list when no line has the id. -/
def addOne (id : Option String) (fresh : CartItem) : List CartItem → List CartItem
  | [] => [fresh]
  | x :: xs =>
    if x.id = id then { x with quantity := x.quantity + 1 } :: xs
    else x :: addOne id fresh xs

/-- The sum over all items of price × quantity. -/
def sumPriceQuantity (items : List CartItem) : ℚ :=
  (items.map (fun item => item.price * (item.quantity : ℚ))).sum

/-- The value `total × (100 − pct)/100`, evaluated in doubles. -/
def discountedTotal (total pct : Double) : Double :=
  Double.div (Double.mul total (Double.sub (Double.finite 100) pct)) (Double.finite 100)

/-! ## Lemmas on the helpers -/

theorem foldl_total_eq (items : List CartItem) (acc : ℚ) :
    items.foldl
        (fun (total : ℚ) (item : CartItem) => total + item.price * (item.quantity : ℚ)) acc
      = acc + sumPriceQuantity items := by
  induction items generalizing acc with
  | nil => simp [sumPriceQuantity]
  | cons x xs ih =>
    rw [List.foldl_cons, ih]
    simp [sumPriceQuantity, add_assoc]

theorem calculateTotals_total (items : List CartItem) :
    (calculateTotals items).total = sumPriceQuantity items := by
  simp [calculateTotals, foldl_total_eq]

/-- Every reducer of the slice keeps `total` equal to the sum of price × quantity. -/
theorem cartReducer_total (s : CartState) (a : CartAction)
    (h : s.total = sumPriceQuantity s.items) :
    (cartReducer s a).total = sumPriceQuantity (cartReducer s a).items := by
  cases a with
  | addToCart payload => exact calculateTotals_total _
  | removeFromCart payload =>
    simp only [cartReducer, removeFromCart]
    split
    · exact calculateTotals_total _
    · exact h
  | updateQuantity payload =>
    simp only [cartReducer, updateQuantity]
    split
    · split
      · exact calculateTotals_total _
      · split
        · exact calculateTotals_total _
        · exact h
    · exact h
  | clearCart => simp [cartReducer, clearCart, sumPriceQuantity]
  | applyCoupon payload =>
    simp only [cartReducer, applyCoupon]
    split
    · exact h
    · exact h
  | removeCoupon => exact h
  | loadCartFromBackend cartData => exact calculateTotals_total _
  | setCartLoading payload => exact h
  | setCartError payload => exact h

theorem dispatchAll_total (actions : List CartAction) (s : CartState)
    (h : s.total = sumPriceQuantity s.items) :
    (dispatchAll s actions).total = sumPriceQuantity (dispatchAll s actions).items := by
  induction actions generalizing s with
  | nil => exact h
  | cons a rest ih => exact ih (cartReducer s a) (cartReducer_total s a h)

theorem matchesBook_iff (book : Book) (item : CartItem) :
    matchesBook book item = true ↔ (item.id = book._id ∨ item.id = book.id) := by
  simp [matchesBook]

/-- Writing through the first match changes that element and nothing else. -/
theorem mutateFirst_split (p : CartItem → Bool) (f : CartItem → CartItem)
    (l : List CartItem) (h : ∃ x ∈ l, p x = true) :
    ∃ pre x post, l = pre ++ x :: post ∧ (∀ y ∈ pre, p y = false) ∧ p x = true ∧
      mutateFirst p f l = pre ++ f x :: post := by
  induction l with
  | nil => simp at h
  | cons a rest ih =>
    by_cases hp : p a = true
    · exact ⟨[], a, rest, rfl, by simp, hp, by simp [mutateFirst, hp]⟩
    · have hrest : ∃ x ∈ rest, p x = true := by
        obtain ⟨x, hx, hpx⟩ := h
        rcases List.mem_cons.mp hx with hxa | hx'
        · exact absurd (hxa ▸ hpx) hp
        · exact ⟨x, hx', hpx⟩
      obtain ⟨pre, x, post, hl, hpre, hx, hm⟩ := ih hrest
      refine ⟨a :: pre, x, post, by simp [hl], ?_, hx, by simp [mutateFirst, hp, hm]⟩
      intro y hy
      rcases List.mem_cons.mp hy with hya | hy'
      · rw [hya]; simpa using hp
      · exact hpre y hy'

theorem find?_some_of_exists (p : CartItem → Bool) (l : List CartItem)
    (h : ∃ x ∈ l, p x = true) : ∃ y, l.find? p = some y := by
  cases hf : l.find? p with
  | some y => exact ⟨y, rfl⟩
  | none =>
    obtain ⟨x, hx, hpx⟩ := h
    have := List.find?_eq_none.mp hf x hx
    exact absurd hpx this

theorem find?_none_of_forall (p : CartItem → Bool) (l : List CartItem)
    (h : ∀ x ∈ l, p x = false) : l.find? p = none := by
  apply List.find?_eq_none.mpr
  intro x hx
  simp [h x hx]

theorem filter_ne_id (l : List CartItem) (id : Option String) :
    l.filter (fun item => item.id != id) = l.filter (fun item => decide (item.id ≠ id)) := by
  congr 1
  funext item
  by_cases h : item.id = id <;> simp [h]

theorem find?_id_none_iff (l : List CartItem) (id : Option String) :
    l.find? (fun item => item.id == id) = none ↔ ∀ item ∈ l, item.id ≠ id := by
  rw [List.find?_eq_none]
  simp

theorem filter_ne_id_self (l : List CartItem) (id : Option String)
    (h : ∀ item ∈ l, item.id ≠ id) :
    l.filter (fun item => decide (item.id ≠ id)) = l := by
  apply List.filter_eq_self.mpr
  intro item hitem
  simp [h item hitem]

/-- What `removeFromCart` returns when some item has the id. -/
theorem removeFromCart_present (state : CartState) (id : Option String)
    (h : ∃ item ∈ state.items, item.id = id) :
    removeFromCart state { bookId := id }
      = { state with
          items := state.items.filter (fun item => decide (item.id ≠ id))
          itemCount :=
            (calculateTotals
              (state.items.filter (fun item => decide (item.id ≠ id)))).itemCount
          total :=
            sumPriceQuantity (state.items.filter (fun item => decide (item.id ≠ id))) } := by
  have hex : ∃ x ∈ state.items, (fun item : CartItem => item.id == id) x = true := by
    obtain ⟨x, hx, hid⟩ := h
    exact ⟨x, hx, by simp [hid]⟩
  obtain ⟨y, hy⟩ := find?_some_of_exists _ _ hex
  simp only [removeFromCart, hy, filter_ne_id, calculateTotals_total]

/-- What `removeFromCart` returns when no item has the id. -/
theorem removeFromCart_absent (state : CartState) (id : Option String)
    (h : ∀ item ∈ state.items, item.id ≠ id) :
    removeFromCart state { bookId := id } = state := by
  have hnone := (find?_id_none_iff state.items id).mpr h
  simp only [removeFromCart, hnone]

/-! ## The sample carts, evaluated -/

theorem cartB1_eq :
    cartB1 =
      { items := [{ id := some "b1", title := "Book One", author := "Author One", price := 10,
                    coverImageUrl := "", category := none, quantity := 2 }]
        total := 20, itemCount := 2, loading := false, error := none
        discount := none, couponCode := none, finalTotal := none } := by
  simp [cartB1, addToCart, initialState, bookB1, newCartItem, matchesBook, jsOr, truthy,
    calculateTotals]
  norm_num

theorem cartB1B2_eq :
    cartB1B2 =
      { items := [{ id := some "b1", title := "Book One", author := "Author One", price := 10,
                    coverImageUrl := "", category := none, quantity := 2 },
                  { id := some "b2", title := "Book Two", author := "Author Two", price := 15,
                    coverImageUrl := "", category := some "Fiction", quantity := 1 }]
        total := 35, itemCount := 3, loading := false, error := none
        discount := none, couponCode := none, finalTotal := none } := by
  rw [cartB1B2, cartB1_eq]
  simp [addToCart, bookB2, newCartItem, matchesBook, jsOr, truthy, calculateTotals]
  norm_num

theorem cartFree_eq :
    cartFree =
      { items := [{ id := some "b0", title := "Free Sample", author := "Author Zero",
                    price := 0, coverImageUrl := "", category := none, quantity := 1 }]
        total := 0, itemCount := 1, loading := false, error := none
        discount := none, couponCode := none, finalTotal := none } := by
  simp [cartFree, addToCart, initialState, bookFree, newCartItem, matchesBook, jsOr, truthy,
    calculateTotals]

theorem cartHundred_eq :
    cartHundred =
      { items := [{ id := some "b1", title := "Book One", author := "Author One", price := 10,
                    coverImageUrl := "", category := none, quantity := 10 }]
        total := 100, itemCount := 10, loading := false, error := none
        discount := none, couponCode := none, finalTotal := none } := by
  simp [cartHundred, addToCart, initialState, bookB1, newCartItem, matchesBook, jsOr, truthy,
    calculateTotals]
  norm_num

theorem handleApplyCoupon_nafiu :
    (handleApplyCoupon toUpperCase { couponInput := "nafiu", couponMessage := "" }).dispatched
      = [CartAction.applyCoupon { couponCode := "NAFIU", discountPercent := 20 }] := by
  have hup : toUpperCase "nafiu" = "NAFIU" := by decide
  simp [handleApplyCoupon, hup, validCoupons, List.lookup]

theorem cartHundredNafiu_eq :
    cartHundredNafiu =
      { items := [{ id := some "b1", title := "Book One", author := "Author One", price := 10,
                    coverImageUrl := "", category := none, quantity := 10 }]
        total := 100, itemCount := 10, loading := false, error := none
        discount := some 20, couponCode := some "NAFIU", finalTotal := some 80 } := by
  rw [cartHundredNafiu, handleApplyCoupon_nafiu, cartHundred_eq]
  simp [dispatchAll, cartReducer, applyCoupon]
  norm_num

/-- A code outside the table, or a falsy entry, makes the handler dispatch nothing. -/
theorem handleApplyCoupon_of_lookup_none (upper : String → String) (page : CartPageState)
    (h : validCoupons.lookup (upper page.couponInput) = none) :
    handleApplyCoupon upper page
      = { dispatched := [], page := { page with couponMessage := "Invalid coupon code" } } := by
  simp only [handleApplyCoupon, h]

/-- A code of the table makes the handler dispatch `applyCoupon` with its percentage. -/
theorem handleApplyCoupon_of_lookup_some (upper : String → String) (page : CartPageState)
    (pct : ℚ)
    (h : validCoupons.lookup (upper page.couponInput) = some pct) (hpct : pct ≠ 0) :
    (handleApplyCoupon upper page).dispatched
      = [CartAction.applyCoupon
          { couponCode := upper page.couponInput, discountPercent := pct }] := by
  simp only [handleApplyCoupon, h, hpct, ne_eq, not_false_eq_true, if_true]

/-! ## The coupon fields along a run -/

theorem removeFromCart_discount (state : CartState) (payload : RemoveFromCartPayload) :
    (removeFromCart state payload).discount = state.discount ∧
    (removeFromCart state payload).couponCode = state.couponCode := by
  simp only [removeFromCart]
  split <;> exact ⟨rfl, rfl⟩

theorem updateQuantity_discount (state : CartState) (payload : UpdateQuantityPayload) :
    (updateQuantity state payload).discount = state.discount ∧
    (updateQuantity state payload).couponCode = state.couponCode := by
  simp only [updateQuantity]
  split
  · split
    · exact ⟨rfl, rfl⟩
    · split <;> exact ⟨rfl, rfl⟩
  · exact ⟨rfl, rfl⟩

/-- One action keeps the pairing of discount and coupon code, when the
snapshot it may load is itself paired. -/
theorem cartReducer_paired (s : CartState) (a : CartAction)
    (hs : s.discount ≠ none ↔ s.couponCode ≠ none)
    (ha : ∀ cartData, a = CartAction.loadCartFromBackend cartData →
      (cartData.discount ≠ none ↔ cartData.couponCode ≠ none)) :
    (cartReducer s a).discount ≠ none ↔ (cartReducer s a).couponCode ≠ none := by
  cases a with
  | addToCart payload => exact hs
  | removeFromCart payload =>
    simp only [cartReducer]
    rw [(removeFromCart_discount s payload).1, (removeFromCart_discount s payload).2]
    exact hs
  | updateQuantity payload =>
    simp only [cartReducer]
    rw [(updateQuantity_discount s payload).1, (updateQuantity_discount s payload).2]
    exact hs
  | clearCart => exact hs
  | applyCoupon payload =>
    simp only [cartReducer, applyCoupon]
    split
    · simp
    · exact hs
  | removeCoupon => simp [cartReducer, removeCoupon]
  | loadCartFromBackend cartData => exact ha cartData rfl
  | setCartLoading payload => exact hs
  | setCartError payload => exact hs

theorem dispatchAll_paired (actions : List CartAction) (s : CartState)
    (hs : s.discount ≠ none ↔ s.couponCode ≠ none)
    (hload : ∀ cartData, CartAction.loadCartFromBackend cartData ∈ actions →
      (cartData.discount ≠ none ↔ cartData.couponCode ≠ none)) :
    (dispatchAll s actions).discount ≠ none ↔ (dispatchAll s actions).couponCode ≠ none := by
  induction actions generalizing s with
  | nil => exact hs
  | cons a rest ih =>
    apply ih (cartReducer s a)
    · apply cartReducer_paired s a hs
      intro cartData hEq
      exact hload cartData (by rw [hEq]; exact List.mem_cons_self _ _)
    · intro cartData hmem
      exact hload cartData (List.mem_cons_of_mem _ hmem)

/-- One step of a run that edits the cart only without a discount keeps
`finalTotal = total − discount` whenever a discount is recorded. -/
theorem cartReducer_finalTotal (s : CartState) (a : CartAction)
    (hs : ∀ d, s.discount = some d → s.finalTotal = some (s.total - d))
    (ha : editsOnlyWithoutDiscount s [a] = true) :
    ∀ d, (cartReducer s a).discount = some d →
      (cartReducer s a).finalTotal = some ((cartReducer s a).total - d) := by
  cases a with
  | addToCart payload =>
    intro d hd
    have hnone : s.discount = none := by simpa [editsOnlyWithoutDiscount] using ha
    have hd' : s.discount = some d := hd
    rw [hnone] at hd'
    exact Option.noConfusion hd'
  | removeFromCart payload =>
    intro d hd
    have hnone : s.discount = none := by simpa [editsOnlyWithoutDiscount] using ha
    simp only [cartReducer] at hd
    rw [(removeFromCart_discount s payload).1, hnone] at hd
    exact Option.noConfusion hd
  | updateQuantity payload =>
    intro d hd
    have hnone : s.discount = none := by simpa [editsOnlyWithoutDiscount] using ha
    simp only [cartReducer] at hd
    rw [(updateQuantity_discount s payload).1, hnone] at hd
    exact Option.noConfusion hd
  | clearCart =>
    intro d hd
    have hnone : s.discount = none := by simpa [editsOnlyWithoutDiscount] using ha
    have hd' : s.discount = some d := hd
    rw [hnone] at hd'
    exact Option.noConfusion hd'
  | applyCoupon payload =>
    intro d hd
    simp only [cartReducer, applyCoupon] at hd ⊢
    split at hd
    · rename_i hpos
      simp only [hpos, if_true]
      simp only [Option.some.injEq] at hd
      rw [← hd]
    · rename_i hpos
      simp only [hpos, if_false]
      exact hs d hd
  | removeCoupon =>
    intro d hd
    simp [cartReducer, removeCoupon] at hd
  | loadCartFromBackend cartData => simp [editsOnlyWithoutDiscount] at ha
  | setCartLoading payload => simp [editsOnlyWithoutDiscount] at ha
  | setCartError payload => simp [editsOnlyWithoutDiscount] at ha

theorem editsOnlyWithoutDiscount_cons (s : CartState) (a : CartAction)
    (rest : List CartAction) (h : editsOnlyWithoutDiscount s (a :: rest) = true) :
    editsOnlyWithoutDiscount s [a] = true ∧
      editsOnlyWithoutDiscount (cartReducer s a) rest = true := by
  simp only [editsOnlyWithoutDiscount, Bool.and_eq_true, Bool.and_true] at h ⊢
  exact h

theorem dispatchAll_finalTotal (actions : List CartAction) (s : CartState)
    (hs : ∀ d, s.discount = some d → s.finalTotal = some (s.total - d))
    (hrun : editsOnlyWithoutDiscount s actions = true) :
    ∀ d, (dispatchAll s actions).discount = some d →
      (dispatchAll s actions).finalTotal = some ((dispatchAll s actions).total - d) := by
  induction actions generalizing s with
  | nil => exact hs
  | cons a rest ih =>
    obtain ⟨hhead, htail⟩ := editsOnlyWithoutDiscount_cons s a rest hrun
    exact ih (cartReducer s a) (cartReducer_finalTotal s a hs hhead) htail

theorem dispatchAll_actionsEditAfterCoupon :
    dispatchAll initialState actionsEditAfterCoupon =
      { items := [{ id := some "b1", title := "Book One", author := "Author One", price := 10,
                    coverImageUrl := "", category := none, quantity := 3 }]
        total := 30, itemCount := 3, loading := false, error := none
        discount := some 4, couponCode := some "NAFIU", finalTotal := some 16 } := by
  simp [actionsEditAfterCoupon, dispatchAll, cartReducer, addToCart, applyCoupon, initialState,
    bookB1, newCartItem, matchesBook, jsOr, truthy, calculateTotals, mutateFirst]
  norm_num

theorem dispatchAll_actionsCouponRemovedBeforeEdit :
    dispatchAll initialState actionsCouponRemovedBeforeEdit =
      { items := [{ id := some "b1", title := "Book One", author := "Author One", price := 10,
                    coverImageUrl := "", category := none, quantity := 3 }]
        total := 30, itemCount := 3, loading := false, error := none
        discount := some 3, couponCode := some "WELCOME10", finalTotal := some 27 } := by
  simp [actionsCouponRemovedBeforeEdit, dispatchAll, cartReducer, addToCart, applyCoupon,
    removeCoupon, initialState, bookB1, newCartItem, matchesBook, jsOr, truthy,
    calculateTotals, mutateFirst]
  norm_num

theorem clearCart_cartHundredNafiu :
    clearCart cartHundredNafiu =
      { items := [], total := 0, itemCount := 0, loading := false, error := none
        discount := some 20, couponCode := some "NAFIU", finalTotal := some 80 } := by
  rw [cartHundredNafiu_eq]
  rfl

theorem addToCart_cartHundredNafiu :
    addToCart cartHundredNafiu { book := bookB1, quantity := some 1 } =
      { items := [{ id := some "b1", title := "Book One", author := "Author One", price := 10,
                    coverImageUrl := "", category := none, quantity := 11 }]
        total := 110, itemCount := 11, loading := false, error := none
        discount := some 20, couponCode := some "NAFIU", finalTotal := some 80 } := by
  rw [cartHundredNafiu_eq]
  simp [addToCart, bookB1, matchesBook, mutateFirst, calculateTotals]
  norm_num

/-! ## Ids and quantities along a run -/

theorem jsOr_eq (a b : Option String) : jsOr a b = a ∨ jsOr a b = b := by
  unfold jsOr
  split
  · exact Or.inl rfl
  · exact Or.inr rfl

/-- Writing through the first match keeps the ids when the write does. -/
theorem mutateFirst_map_id (p : CartItem → Bool) (f : CartItem → CartItem)
    (hf : ∀ x, (f x).id = x.id) (l : List CartItem) :
    (mutateFirst p f l).map (fun item => item.id) = l.map (fun item => item.id) := by
  induction l with
  | nil => rfl
  | cons a rest ih =>
    by_cases hp : p a = true
    · simp [mutateFirst, hp, hf]
    · simp [mutateFirst, hp, ih]

theorem mem_mutateFirst (p : CartItem → Bool) (f : CartItem → CartItem)
    (l : List CartItem) (y : CartItem) (hy : y ∈ mutateFirst p f l) :
    y ∈ l ∨ ∃ x ∈ l, y = f x := by
  induction l with
  | nil => simp [mutateFirst] at hy
  | cons a rest ih =>
    by_cases hp : p a = true
    · have hm : mutateFirst p f (a :: rest) = f a :: rest := by simp [mutateFirst, hp]
      rw [hm] at hy
      rcases List.mem_cons.mp hy with hya | hyr
      · exact Or.inr ⟨a, List.mem_cons_self _ _, hya⟩
      · exact Or.inl (List.mem_cons_of_mem _ hyr)
    · have hm : mutateFirst p f (a :: rest) = a :: mutateFirst p f rest := by
        simp [mutateFirst, hp]
      rw [hm] at hy
      rcases List.mem_cons.mp hy with hya | hyr
      · exact Or.inl (hya ▸ List.mem_cons_self _ _)
      · rcases ih hyr with h | ⟨x, hx, hxy⟩
        · exact Or.inl (List.mem_cons_of_mem _ h)
        · exact Or.inr ⟨x, List.mem_cons_of_mem _ hx, hxy⟩

theorem nodup_ids_filter (l : List CartItem) (q : CartItem → Bool)
    (h : (l.map (fun item => item.id)).Nodup) :
    ((l.filter q).map (fun item => item.id)).Nodup :=
  List.Nodup.sublist (List.Sublist.map _ (List.filter_sublist l)) h

/-- The item list that `addToCart` leaves when some item matches the book. -/
theorem addToCart_items_of_match (state : CartState) (payload : AddToCartPayload)
    (h : ∃ x ∈ state.items, matchesBook payload.book x = true) :
    (addToCart state payload).items
      = mutateFirst (matchesBook payload.book)
          (fun item => { item with quantity := item.quantity + payload.quantity.getD 1 })
          state.items := by
  obtain ⟨y, hy⟩ := find?_some_of_exists _ _ h
  simp only [addToCart, hy]

/-- The item list that `addToCart` leaves when no item matches the book. -/
theorem addToCart_items_of_no_match (state : CartState) (payload : AddToCartPayload)
    (h : ∀ x ∈ state.items, matchesBook payload.book x = false) :
    (addToCart state payload).items
      = state.items ++ [newCartItem payload.book (payload.quantity.getD 1)] := by
  have hnone := find?_none_of_forall _ _ h
  simp only [addToCart, hnone]

theorem exists_or_forall_matchesBook (book : Book) (items : List CartItem) :
    (∃ x ∈ items, matchesBook book x = true) ∨
      (∀ x ∈ items, matchesBook book x = false) := by
  by_cases h : ∃ x ∈ items, matchesBook book x = true
  · exact Or.inl h
  · right
    intro x hx
    cases hb : matchesBook book x with
    | false => rfl
    | true => exact absurd ⟨x, hx, hb⟩ h

/-- The item list after `updateQuantity` is the old one, or the old one written
through its first match, or the old one filtered. -/
theorem updateQuantity_items_cases (state : CartState) (payload : UpdateQuantityPayload) :
    (updateQuantity state payload).items = state.items ∨
    (payload.quantity > 0 ∧
      (updateQuantity state payload).items
        = mutateFirst (fun item => item.id == payload.id)
            (fun item => { item with quantity := payload.quantity }) state.items) ∨
    (updateQuantity state payload).items
      = state.items.filter (fun item => item.id != payload.id) := by
  simp only [updateQuantity]
  split
  · split
    · rename_i hpos
      exact Or.inr (Or.inl ⟨hpos, rfl⟩)
    · split
      · exact Or.inr (Or.inr rfl)
      · exact Or.inl rfl
  · exact Or.inl rfl

/-- The item list after `removeFromCart` is the old one, or the old one filtered. -/
theorem removeFromCart_items_cases (state : CartState) (payload : RemoveFromCartPayload) :
    (removeFromCart state payload).items = state.items ∨
    (removeFromCart state payload).items
      = state.items.filter (fun item => item.id != payload.bookId) := by
  simp only [removeFromCart]
  split
  · exact Or.inr rfl
  · exact Or.inl rfl

/-- One action other than a snapshot load keeps the ids of the items distinct. -/
theorem cartReducer_nodup (s : CartState) (a : CartAction)
    (hs : (s.items.map (fun item => item.id)).Nodup)
    (ha : ∀ cartData, a ≠ CartAction.loadCartFromBackend cartData) :
    ((cartReducer s a).items.map (fun item => item.id)).Nodup := by
  cases a with
  | addToCart payload =>
    simp only [cartReducer]
    rcases exists_or_forall_matchesBook payload.book s.items with h | h
    · rw [addToCart_items_of_match s payload h, mutateFirst_map_id]
      · exact hs
      · intro x; rfl
    · rw [addToCart_items_of_no_match s payload h, List.map_append]
      apply List.Nodup.append hs (List.nodup_singleton _)
      intro i hi hnew
      simp only [List.map_cons, List.map_nil, List.mem_singleton, newCartItem] at hnew
      obtain ⟨x, hx, hxi⟩ := List.mem_map.mp hi
      have hno := h x hx
      have hxid : x.id = jsOr payload.book._id payload.book.id := by
        rw [← hnew]; exact hxi
      rcases jsOr_eq payload.book._id payload.book.id with hj | hj
      · rw [hj] at hxid
        simp [matchesBook, hxid] at hno
      · rw [hj] at hxid
        simp [matchesBook, hxid] at hno
  | removeFromCart payload =>
    simp only [cartReducer]
    rcases removeFromCart_items_cases s payload with h | h
    · rw [h]; exact hs
    · rw [h]; exact nodup_ids_filter _ _ hs
  | updateQuantity payload =>
    simp only [cartReducer]
    rcases updateQuantity_items_cases s payload with h | ⟨_, h⟩ | h
    · rw [h]; exact hs
    · rw [h, mutateFirst_map_id]
      · exact hs
      · intro x; rfl
    · rw [h]; exact nodup_ids_filter _ _ hs
  | clearCart => simp [cartReducer, clearCart]
  | applyCoupon payload =>
    simp only [cartReducer, applyCoupon]
    split <;> exact hs
  | removeCoupon => exact hs
  | loadCartFromBackend cartData => exact absurd rfl (ha cartData)
  | setCartLoading payload => exact hs
  | setCartError payload => exact hs

theorem dispatchAll_nodup (actions : List CartAction) (s : CartState)
    (hs : (s.items.map (fun item => item.id)).Nodup)
    (hload : ∀ cartData, CartAction.loadCartFromBackend cartData ∉ actions) :
    ((dispatchAll s actions).items.map (fun item => item.id)).Nodup := by
  induction actions generalizing s with
  | nil => exact hs
  | cons a rest ih =>
    apply ih (cartReducer s a)
    · apply cartReducer_nodup s a hs
      intro cartData hEq
      exact hload cartData (by rw [hEq]; exact List.mem_cons_self _ _)
    · intro cartData hmem
      exact hload cartData (List.mem_cons_of_mem _ hmem)

/-- One action other than a snapshot load keeps every quantity at 1 or more,
when the quantity it adds is 1 or more. -/
theorem cartReducer_quantity (s : CartState) (a : CartAction)
    (hs : ∀ item ∈ s.items, item.quantity ≥ 1)
    (ha : ∀ cartData, a ≠ CartAction.loadCartFromBackend cartData)
    (hadd : ∀ payload, a = CartAction.addToCart payload → payload.quantity.getD 1 ≥ 1) :
    ∀ item ∈ (cartReducer s a).items, item.quantity ≥ 1 := by
  cases a with
  | addToCart payload =>
    have hq := hadd payload rfl
    simp only [cartReducer]
    intro item hitem
    rcases exists_or_forall_matchesBook payload.book s.items with h | h
    · rw [addToCart_items_of_match s payload h] at hitem
      rcases mem_mutateFirst _ _ _ _ hitem with hmem | ⟨x, hx, hxy⟩
      · exact hs item hmem
      · have := hs x hx
        rw [hxy]
        show x.quantity + payload.quantity.getD 1 ≥ 1
        omega
    · rw [addToCart_items_of_no_match s payload h] at hitem
      rcases List.mem_append.mp hitem with hmem | hnew
      · exact hs item hmem
      · rw [List.mem_singleton.mp hnew]
        exact hq
  | removeFromCart payload =>
    simp only [cartReducer]
    intro item hitem
    rcases removeFromCart_items_cases s payload with h | h
    · rw [h] at hitem; exact hs item hitem
    · rw [h] at hitem; exact hs item (List.mem_filter.mp hitem).1
  | updateQuantity payload =>
    simp only [cartReducer]
    intro item hitem
    rcases updateQuantity_items_cases s payload with h | ⟨hpos, h⟩ | h
    · rw [h] at hitem; exact hs item hitem
    · rw [h] at hitem
      rcases mem_mutateFirst _ _ _ _ hitem with hmem | ⟨x, _, hxy⟩
      · exact hs item hmem
      · rw [hxy]
        show payload.quantity ≥ 1
        omega
    · rw [h] at hitem; exact hs item (List.mem_filter.mp hitem).1
  | clearCart => simp [cartReducer, clearCart]
  | applyCoupon payload =>
    simp only [cartReducer, applyCoupon]
    split <;> exact hs
  | removeCoupon => exact hs
  | loadCartFromBackend cartData => exact absurd rfl (ha cartData)
  | setCartLoading payload => exact hs
  | setCartError payload => exact hs

theorem dispatchAll_quantity (actions : List CartAction) (s : CartState)
    (hs : ∀ item ∈ s.items, item.quantity ≥ 1)
    (hload : ∀ cartData, CartAction.loadCartFromBackend cartData ∉ actions)
    (hadd : ∀ payload, CartAction.addToCart payload ∈ actions →
      payload.quantity.getD 1 ≥ 1) :
    ∀ item ∈ (dispatchAll s actions).items, item.quantity ≥ 1 := by
  induction actions generalizing s with
  | nil => exact hs
  | cons a rest ih =>
    apply ih (cartReducer s a)
    · apply cartReducer_quantity s a hs
      · intro cartData hEq
        exact hload cartData (by rw [hEq]; exact List.mem_cons_self _ _)
      · intro payload hEq
        exact hadd payload (by rw [hEq]; exact List.mem_cons_self _ _)
    · intro cartData hmem
      exact hload cartData (List.mem_cons_of_mem _ hmem)
    · intro payload hmem
      exact hadd payload (List.mem_cons_of_mem _ hmem)

/-- Writing through the first match, given where the first match is. -/
theorem mutateFirst_of_split (p : CartItem → Bool) (f : CartItem → CartItem)
    (pre : List CartItem) (x : CartItem) (post : List CartItem)
    (hpre : ∀ y ∈ pre, p y = false) (hx : p x = true) :
    mutateFirst p f (pre ++ x :: post) = pre ++ f x :: post := by
  induction pre with
  | nil => simp [mutateFirst, hx]
  | cons a rest ih =>
    have ha : p a = false := hpre a (List.mem_cons_self _ _)
    have hrest : ∀ y ∈ rest, p y = false := fun y hy => hpre y (List.mem_cons_of_mem _ hy)
    simp [mutateFirst, ha, ih hrest]

theorem dispatchAll_actionsEditsOnly :
    dispatchAll initialState actionsEditsOnly =
      { items := [{ id := some "b2", title := "Book Dual", author := "Author Dual",
                    price := 7, coverImageUrl := "", category := none, quantity := 3 }]
        total := 21, itemCount := 3, loading := false, error := none
        discount := none, couponCode := none, finalTotal := none } := by
  simp [actionsEditsOnly, dispatchAll, cartReducer, addToCart, updateQuantity, removeFromCart,
    clearCart, initialState, bookB1, bookB2, bookDual, bookFree, newCartItem, matchesBook,
    jsOr, truthy, calculateTotals, mutateFirst]
  norm_num

theorem actionsEditsOnly_no_load (cartData : CartSnapshot) :
    CartAction.loadCartFromBackend cartData ∉ actionsEditsOnly := by
  simp [actionsEditsOnly]

/-! ## Lemmas on the wishlist slice -/

theorem list_find?_some_of_exists {α : Type} (p : α → Bool) (l : List α)
    (h : ∃ x ∈ l, p x = true) : ∃ y, l.find? p = some y := by
  cases hf : l.find? p with
  | some y => exact ⟨y, rfl⟩
  | none =>
    obtain ⟨x, hx, hpx⟩ := h
    have := List.find?_eq_none.mp hf x hx
    exact absurd hpx this

theorem list_find?_none_of_forall {α : Type} (p : α → Bool) (l : List α)
    (h : ∀ x ∈ l, p x = false) : l.find? p = none := by
  apply List.find?_eq_none.mpr
  intro x hx
  simp [h x hx]

theorem matchesWishlistBook_iff (book : Book) (item : WishlistItem) :
    matchesWishlistBook book item = true ↔ (item.id = book._id ∨ item.id = book.id) := by
  simp [matchesWishlistBook]

theorem matchesWishlistBook_false_iff (book : Book) (item : WishlistItem) :
    matchesWishlistBook book item = false ↔ ¬ (item.id = book._id ∨ item.id = book.id) := by
  rw [← matchesWishlistBook_iff]
  simp

/-- What `addToWishlist` returns when some item matches the book. -/
theorem addToWishlist_of_match (state : WishlistState) (payload : AddToWishlistPayload)
    (now : String) (h : ∃ x ∈ state.items, matchesWishlistBook payload.book x = true) :
    addToWishlist state payload now = state := by
  obtain ⟨y, hy⟩ := list_find?_some_of_exists _ _ h
  simp only [addToWishlist, hy]

/-- What `addToWishlist` returns when no item matches the book. -/
theorem addToWishlist_of_no_match (state : WishlistState) (payload : AddToWishlistPayload)
    (now : String) (h : ∀ x ∈ state.items, matchesWishlistBook payload.book x = false) :
    addToWishlist state payload now
      = { state with items := state.items ++ [newWishlistItem payload.book now] } := by
  have hnone := list_find?_none_of_forall _ _ h
  simp only [addToWishlist, hnone]

theorem wishlist_filter_ne_id (l : List WishlistItem) (id : Option String) :
    l.filter (fun item => item.id != id) = l.filter (fun item => decide (item.id ≠ id)) := by
  congr 1
  funext item
  by_cases h : item.id = id <;> simp [h]

/-- What `removeFromWishlist` returns when some item has the id. -/
theorem removeFromWishlist_present (state : WishlistState) (id : Option String)
    (h : ∃ item ∈ state.items, item.id = id) :
    removeFromWishlist state { bookId := id }
      = { state with items := state.items.filter (fun item => decide (item.id ≠ id)) } := by
  have hex : ∃ x ∈ state.items, (fun item : WishlistItem => item.id == id) x = true := by
    obtain ⟨x, hx, hid⟩ := h
    exact ⟨x, hx, by simp [hid]⟩
  obtain ⟨y, hy⟩ := list_find?_some_of_exists _ _ hex
  simp only [removeFromWishlist, hy, wishlist_filter_ne_id]

/-- What `removeFromWishlist` returns when no item has the id. -/
theorem removeFromWishlist_absent (state : WishlistState) (id : Option String)
    (h : ∀ item ∈ state.items, item.id ≠ id) :
    removeFromWishlist state { bookId := id } = state := by
  have hnone : state.items.find? (fun item => item.id == id) = none := by
    apply list_find?_none_of_forall
    intro x hx
    simp [h x hx]
  simp only [removeFromWishlist, hnone]

/-- One action other than a snapshot load keeps the ids of the wishlist distinct. -/
theorem wishlistReducer_nodup (s : WishlistState) (a : WishlistAction)
    (hs : (s.items.map (fun item => item.id)).Nodup)
    (ha : ∀ wishlistData, a ≠ WishlistAction.loadWishlistFromBackend wishlistData) :
    ((wishlistReducer s a).items.map (fun item => item.id)).Nodup := by
  cases a with
  | addToWishlist payload now =>
    simp only [wishlistReducer]
    by_cases h : ∃ x ∈ s.items, matchesWishlistBook payload.book x = true
    · rw [addToWishlist_of_match s payload now h]
      exact hs
    · have hno : ∀ x ∈ s.items, matchesWishlistBook payload.book x = false := by
        intro x hx
        cases hb : matchesWishlistBook payload.book x with
        | false => rfl
        | true => exact absurd ⟨x, hx, hb⟩ h
      rw [addToWishlist_of_no_match s payload now hno]
      show ((s.items ++ [newWishlistItem payload.book now]).map (fun item => item.id)).Nodup
      rw [List.map_append]
      apply List.Nodup.append hs (List.nodup_singleton _)
      intro i hi hnew
      simp only [List.map_cons, List.map_nil, List.mem_singleton, newWishlistItem] at hnew
      obtain ⟨x, hx, hxi⟩ := List.mem_map.mp hi
      have hxno := (matchesWishlistBook_false_iff payload.book x).mp (hno x hx)
      have hxid : x.id = jsOr payload.book._id payload.book.id := by
        rw [← hnew]; exact hxi
      rcases jsOr_eq payload.book._id payload.book.id with hj | hj
      · exact hxno (Or.inl (hxid.trans hj))
      · exact hxno (Or.inr (hxid.trans hj))
  | removeFromWishlist payload =>
    simp only [wishlistReducer]
    by_cases h : ∃ item ∈ s.items, item.id = payload.bookId
    · rw [removeFromWishlist_present s payload.bookId h]
      exact List.Nodup.sublist (List.Sublist.map _ (List.filter_sublist s.items)) hs
    · have h' : ∀ item ∈ s.items, item.id ≠ payload.bookId := by
        intro item hitem hid
        exact h ⟨item, hitem, hid⟩
      rw [removeFromWishlist_absent s payload.bookId h']
      exact hs
  | clearWishlist => simp [wishlistReducer, clearWishlist]
  | loadWishlistFromBackend wishlistData => exact absurd rfl (ha wishlistData)
  | setWishlistLoading payload => exact hs
  | setWishlistError payload => exact hs

theorem dispatchAllWishlist_nodup (actions : List WishlistAction) (s : WishlistState)
    (hs : (s.items.map (fun item => item.id)).Nodup)
    (hload : ∀ wishlistData,
      WishlistAction.loadWishlistFromBackend wishlistData ∉ actions) :
    ((dispatchAllWishlist s actions).items.map (fun item => item.id)).Nodup := by
  induction actions generalizing s with
  | nil => exact hs
  | cons a rest ih =>
    apply ih (wishlistReducer s a)
    · apply wishlistReducer_nodup s a hs
      intro wishlistData hEq
      exact hload wishlistData (by rw [hEq]; exact List.mem_cons_self _ _)
    · intro wishlistData hmem
      exact hload wishlistData (List.mem_cons_of_mem _ hmem)

theorem wishlistB2_eq :
    wishlistB2 =
      { items := [{ id := some "b2", title := "Book Two", author := "Author Two", price := 15,
                    coverImageUrl := "", category := some "Fiction", averageRating := none,
                    reviewCount := none, dateAdded := "2024-05-01T10:00:00.000Z" }]
        loading := false, error := none } := by
  simp [wishlistB2, addToWishlist, wishlistInitialState, bookB2, newWishlistItem,
    matchesWishlistBook, jsOr, truthy]

theorem wishlistB2B1_eq :
    wishlistB2B1 =
      { items := [{ id := some "b2", title := "Book Two", author := "Author Two", price := 15,
                    coverImageUrl := "", category := some "Fiction", averageRating := none,
                    reviewCount := none, dateAdded := "2024-05-01T10:00:00.000Z" },
                  { id := some "b1", title := "Book One", author := "Author One", price := 10,
                    coverImageUrl := "", category := none, averageRating := none,
                    reviewCount := none, dateAdded := "2024-05-02T10:00:00.000Z" }]
        loading := false, error := none } := by
  rw [wishlistB2B1, wishlistB2_eq]
  simp [addToWishlist, bookB1, newWishlistItem, matchesWishlistBook, jsOr, truthy]

theorem wishlistActions_no_load (wishlistData : WishlistSnapshot) :
    WishlistAction.loadWishlistFromBackend wishlistData ∉ wishlistActions := by
  simp [wishlistActions]

/-! ## Lemmas on the item count, the selectors and the coupon table -/

theorem foldl_itemCount_eq (items : List CartItem) (acc : Int) :
    items.foldl (fun (total : Int) (item : CartItem) => total + item.quantity) acc
      = acc + sumQuantity items := by
  induction items generalizing acc with
  | nil => simp [sumQuantity]
  | cons x xs ih =>
    rw [List.foldl_cons, ih]
    simp [sumQuantity, add_assoc]

theorem calculateTotals_itemCount (items : List CartItem) :
    (calculateTotals items).itemCount = sumQuantity items := by
  simp [calculateTotals, foldl_itemCount_eq]

/-- Every reducer of the slice keeps `itemCount` equal to the sum of the quantities. -/
theorem cartReducer_itemCount (s : CartState) (a : CartAction)
    (h : s.itemCount = sumQuantity s.items) :
    (cartReducer s a).itemCount = sumQuantity (cartReducer s a).items := by
  cases a with
  | addToCart payload => exact calculateTotals_itemCount _
  | removeFromCart payload =>
    simp only [cartReducer, removeFromCart]
    split
    · exact calculateTotals_itemCount _
    · exact h
  | updateQuantity payload =>
    simp only [cartReducer, updateQuantity]
    split
    · split
      · exact calculateTotals_itemCount _
      · split
        · exact calculateTotals_itemCount _
        · exact h
    · exact h
  | clearCart => simp [cartReducer, clearCart, sumQuantity]
  | applyCoupon payload =>
    simp only [cartReducer, applyCoupon]
    split
    · exact h
    · exact h
  | removeCoupon => exact h
  | loadCartFromBackend cartData => exact calculateTotals_itemCount _
  | setCartLoading payload => exact h
  | setCartError payload => exact h

theorem dispatchAll_itemCount (actions : List CartAction) (s : CartState)
    (h : s.itemCount = sumQuantity s.items) :
    (dispatchAll s actions).itemCount = sumQuantity (dispatchAll s actions).items := by
  induction actions generalizing s with
  | nil => exact h
  | cons a rest ih => exact ih (cartReducer s a) (cartReducer_itemCount s a h)

theorem jsOr_self (a : Option String) : jsOr a a = a := by
  rcases jsOr_eq a a with h | h <;> exact h

/-- The four entries of the coupon table: what the lookup gives, and where the
percentage lies. -/
theorem validCoupons_lookup_of_mem (code : String) (pct : ℚ)
    (hvalid : (code, pct) ∈
      [("NAFIU", (20 : ℚ)), ("WELCOME10", 10), ("SAVE15", 15), ("BOOKBAZAR", 25)]) :
    validCoupons.lookup code = some pct ∧ pct ≠ 0 ∧ 0 < pct ∧ pct < 100 := by
  simp only [List.mem_cons, Prod.mk.injEq, List.mem_singleton, List.not_mem_nil,
    or_false] at hvalid
  rcases hvalid with ⟨hc, hp⟩ | ⟨hc, hp⟩ | ⟨hc, hp⟩ | ⟨hc, hp⟩ <;>
    subst hc <;> subst hp <;>
    exact ⟨by simp [validCoupons, List.lookup], by norm_num, by norm_num, by norm_num⟩

/-! ## Lemmas on the synchronisation hooks -/

theorem syncCartWrite_of_mem (action : String)
    (h : action ∈ ["add", "update", "remove", "clear", "applyCoupon", "removeCoupon"]) :
    ∃ call, syncCartWrite action = some call ∧ call ≠ "cartAPI.getCart" := by
  simp only [List.mem_cons, List.mem_singleton, List.not_mem_nil, or_false] at h
  rcases h with h | h | h | h | h | h <;> subst h <;> simp [syncCartWrite]

theorem syncWishlistWrite_of_mem (action : String)
    (h : action ∈ ["add", "remove", "clear"]) :
    ∃ call, syncWishlistWrite action = some call ∧ call ≠ "wishlistAPI.getWishlist" := by
  simp only [List.mem_cons, List.mem_singleton, List.not_mem_nil, or_false] at h
  rcases h with h | h | h <;> subst h <;> simp [syncWishlistWrite]

/-- The run of `syncCart` when the write it issues is rejected. -/
theorem syncCart_of_write_error (userId : Option String) (action call error : String)
    (remote : Remote) (huser : truthy userId = true)
    (hcall : syncCartWrite action = some call) (hwrite : remote.cartWrite = Except.error error) :
    syncCart userId action remote
      = { effects :=
            [Effect.remoteCall call,
             Effect.consoleError "Failed to sync cart:",
             Effect.toastError "Failed to sync with server"]
          thrown := none } := by
  simp only [syncCart, huser, hcall, hwrite, Bool.not_true, Bool.false_eq_true, if_false]

/-- The run of `syncWishlist` when the write it issues is rejected. -/
theorem syncWishlist_of_write_error (userId : Option String) (action call error : String)
    (remote : Remote) (huser : truthy userId = true)
    (hcall : syncWishlistWrite action = some call)
    (hwrite : remote.wishlistWrite = Except.error error) :
    syncWishlist userId action remote
      = { effects :=
            [Effect.remoteCall call,
             Effect.consoleError "Failed to sync wishlist:",
             Effect.toastError "Failed to sync with server"]
          thrown := none } := by
  simp only [syncWishlist, huser, hcall, hwrite, Bool.not_true, Bool.false_eq_true, if_false]

/-- The store after the effects of `syncCart`, when the write, if one is
issued, is accepted and the pull answers with a snapshot. -/
theorem syncCart_of_success (store : RootState) (userId : Option String) (action : String)
    (remote : Remote) (cartData : CartSnapshot) (huser : truthy userId = true)
    (hwrite : remote.cartWrite = Except.ok ()) (hpull : remote.getCart = Except.ok cartData) :
    applyEffects store (syncCart userId action remote).effects
        = { store with cart := loadCartFromBackend store.cart cartData } ∧
      (syncCart userId action remote).thrown = none := by
  cases hcall : syncCartWrite action with
  | none =>
    simp [syncCart, huser, hcall, loadCartFromBackendAPI, hpull, applyEffects, applyEffect,
      cartReducer]
  | some call =>
    simp [syncCart, huser, hcall, hwrite, loadCartFromBackendAPI, hpull, applyEffects,
      applyEffect, cartReducer]

/-! ## Lemmas on moving the wishlist to the cart -/

theorem matchesBook_wishlistItemAsBook (w : WishlistItem) (x : CartItem) (hx : x.id ≠ none) :
    matchesBook (wishlistItemAsBook w) x = (x.id == w.id) := by
  simp [matchesBook, wishlistItemAsBook, hx]

theorem mutateFirst_congr (p q : CartItem → Bool) (f : CartItem → CartItem)
    (l : List CartItem) (h : ∀ x ∈ l, p x = q x) :
    mutateFirst p f l = mutateFirst q f l := by
  induction l with
  | nil => rfl
  | cons a rest ih =>
    have ha : p a = q a := h a (List.mem_cons_self _ _)
    have hrest : ∀ x ∈ rest, p x = q x := fun x hx => h x (List.mem_cons_of_mem _ hx)
    simp only [mutateFirst, ha, ih hrest]

theorem mutateFirst_eq_addOne (id : Option String) (fresh : CartItem) (l : List CartItem)
    (h : ∃ x ∈ l, x.id = id) :
    mutateFirst (fun x => x.id == id) (fun x => { x with quantity := x.quantity + 1 }) l
      = addOne id fresh l := by
  induction l with
  | nil => simp at h
  | cons a rest ih =>
    by_cases ha : a.id = id
    · simp [mutateFirst, addOne, ha]
    · have hrest : ∃ x ∈ rest, x.id = id := by
        obtain ⟨x, hx, hxid⟩ := h
        rcases List.mem_cons.mp hx with hxa | hx'
        · exact absurd (hxa ▸ hxid) ha
        · exact ⟨x, hx', hxid⟩
      simp [mutateFirst, addOne, ha, ih hrest]

theorem append_eq_addOne (id : Option String) (fresh : CartItem) (l : List CartItem)
    (h : ∀ x ∈ l, x.id ≠ id) :
    l ++ [fresh] = addOne id fresh l := by
  induction l with
  | nil => rfl
  | cons a rest ih =>
    have ha : a.id ≠ id := h a (List.mem_cons_self _ _)
    have hrest : ∀ x ∈ rest, x.id ≠ id := fun x hx => h x (List.mem_cons_of_mem _ hx)
    simp [addOne, ha, ih hrest]

/-- The item list after one wishlist item is moved to a cart whose lines all
have an id. -/
theorem moveToCart_items (cart : CartState) (w : WishlistItem)
    (hcart : ∀ x ∈ cart.items, x.id ≠ none) :
    (moveToCart cart w).items
      = addOne w.id (newCartItem (wishlistItemAsBook w) 1) cart.items := by
  have hpq : ∀ x ∈ cart.items,
      matchesBook (wishlistItemAsBook w) x = (fun x : CartItem => x.id == w.id) x :=
    fun x hx => matchesBook_wishlistItemAsBook w x (hcart x hx)
  by_cases h : ∃ x ∈ cart.items, x.id = w.id
  · have hex : ∃ x ∈ cart.items, matchesBook (wishlistItemAsBook w) x = true := by
      obtain ⟨x, hx, hxid⟩ := h
      exact ⟨x, hx, by rw [hpq x hx]; simp [hxid]⟩
    have hitems := addToCart_items_of_match cart
      { book := wishlistItemAsBook w, quantity := some 1 } hex
    simp only [Option.getD_some] at hitems
    rw [moveToCart, hitems, mutateFirst_congr _ _ _ _ hpq]
    exact mutateFirst_eq_addOne w.id _ cart.items h
  · have hno : ∀ x ∈ cart.items, x.id ≠ w.id := fun x hx hxid => h ⟨x, hx, hxid⟩
    have hnone : ∀ x ∈ cart.items, matchesBook (wishlistItemAsBook w) x = false := by
      intro x hx
      rw [hpq x hx]
      simp [hno x hx]
    have hitems := addToCart_items_of_no_match cart
      { book := wishlistItemAsBook w, quantity := some 1 } hnone
    simp only [Option.getD_some] at hitems
    rw [moveToCart, hitems]
    exact append_eq_addOne w.id _ cart.items hno

theorem newCartItem_wishlistItemAsBook_id (w : WishlistItem) (q : Int) :
    (newCartItem (wishlistItemAsBook w) q).id = w.id := by
  simp [newCartItem, wishlistItemAsBook, jsOr, truthy]

theorem quantityOf_addOne_self (id : Option String) (fresh : CartItem) (l : List CartItem)
    (hid : fresh.id = id) (hq : fresh.quantity = 1) :
    quantityOf (addOne id fresh l) id = quantityOf l id + 1 := by
  induction l with
  | nil => simp [addOne, quantityOf, hid, hq]
  | cons a rest ih =>
    by_cases ha : a.id = id
    · simp [addOne, quantityOf, ha]
    · simp only [quantityOf] at ih
      simp [addOne, quantityOf, ha, ih]

theorem quantityOf_addOne_other (id k : Option String) (fresh : CartItem)
    (l : List CartItem) (hid : fresh.id = id) (hk : id ≠ k) :
    quantityOf (addOne id fresh l) k = quantityOf l k := by
  induction l with
  | nil => simp [addOne, quantityOf, hid, hk]
  | cons a rest ih =>
    by_cases ha : a.id = id
    · have hak : a.id ≠ k := by rw [ha]; exact hk
      simp [addOne, quantityOf, ha, hk]
    · by_cases hak : a.id = k
      · have hki : ¬ k = id := fun h => hk h.symm
        simp [addOne, quantityOf, hak, hki]
      · simp only [quantityOf] at ih
        simp [addOne, quantityOf, ha, hak, ih]

theorem sumQuantity_addOne (id : Option String) (fresh : CartItem) (l : List CartItem)
    (hq : fresh.quantity = 1) :
    sumQuantity (addOne id fresh l) = sumQuantity l + 1 := by
  induction l with
  | nil => simp [addOne, sumQuantity, hq]
  | cons a rest ih =>
    by_cases ha : a.id = id
    · simp [addOne, sumQuantity, ha]
      ring
    · simp only [sumQuantity] at ih
      simp [addOne, sumQuantity, ha, ih]
      ring

theorem filter_addOne (id : Option String) (fresh : CartItem) (l : List CartItem)
    (keep : Option String → Bool) (hid : fresh.id = id) (hkeep : keep id = false) :
    (addOne id fresh l).filter (fun x => keep x.id) = l.filter (fun x => keep x.id) := by
  induction l with
  | nil => simp [addOne, hid, hkeep]
  | cons a rest ih =>
    by_cases ha : a.id = id
    · simp [addOne, ha, hkeep]
    · simp [addOne, ha, List.filter_cons, ih]

theorem mem_ids_addOne (id k : Option String) (fresh : CartItem) (l : List CartItem)
    (hid : fresh.id = id) :
    k ∈ (addOne id fresh l).map (fun x => x.id) ↔ k ∈ l.map (fun x => x.id) ∨ k = id := by
  induction l with
  | nil => simp [addOne, hid]
  | cons a rest ih =>
    by_cases ha : a.id = id
    · simp only [addOne, ha, if_true, List.map_cons, List.mem_cons]
      constructor
      · intro h; exact Or.inl h
      · intro h
        rcases h with h | h
        · exact h
        · exact Or.inl h
    · simp only [addOne, ha, if_false, List.map_cons, List.mem_cons, ih]
      constructor
      · rintro (h | h | h)
        · exact Or.inl (Or.inl h)
        · exact Or.inl (Or.inr h)
        · exact Or.inr h
      · rintro ((h | h) | h)
        · exact Or.inl h
        · exact Or.inr (Or.inl h)
        · exact Or.inr (Or.inr h)

/-- What moving the items of a wishlist, one after the other, does to a cart. -/
theorem foldl_moveToCart (ws : List WishlistItem) (cart : CartState)
    (hdistinct : ws.Pairwise (fun a b => a.id ≠ b.id))
    (hws : ∀ w ∈ ws, w.id ≠ none)
    (hcart : ∀ x ∈ cart.items, x.id ≠ none) :
    (∀ w ∈ ws,
      quantityOf (ws.foldl moveToCart cart).items w.id = quantityOf cart.items w.id + 1) ∧
    (∀ k, (∀ w ∈ ws, w.id ≠ k) →
      quantityOf (ws.foldl moveToCart cart).items k = quantityOf cart.items k) ∧
    (∀ keep : Option String → Bool, (∀ w ∈ ws, keep w.id = false) →
      (ws.foldl moveToCart cart).items.filter (fun x => keep x.id)
        = cart.items.filter (fun x => keep x.id)) ∧
    sumQuantity (ws.foldl moveToCart cart).items = sumQuantity cart.items + ws.length ∧
    (∀ k, k ∈ (ws.foldl moveToCart cart).items.map (fun x => x.id) ↔
      k ∈ cart.items.map (fun x => x.id) ∨ ∃ w ∈ ws, w.id = k) := by
  induction ws generalizing cart with
  | nil => simp
  | cons w rest ih =>
    have hw : w.id ≠ none := hws w (List.mem_cons_self _ _)
    have hrest : ∀ v ∈ rest, v.id ≠ none := fun v hv => hws v (List.mem_cons_of_mem _ hv)
    obtain ⟨hhead, htail⟩ := List.pairwise_cons.mp hdistinct
    have hfresh := newCartItem_wishlistItemAsBook_id w 1
    have hitems := moveToCart_items cart w hcart
    have hcart1 : ∀ x ∈ (moveToCart cart w).items, x.id ≠ none := by
      intro x hx hnone
      have hmem : x.id ∈ (moveToCart cart w).items.map (fun x => x.id) :=
        List.mem_map.mpr ⟨x, hx, rfl⟩
      rw [hitems, mem_ids_addOne w.id x.id _ cart.items hfresh] at hmem
      rcases hmem with hmem | hmem
      · obtain ⟨y, hy, hyx⟩ := List.mem_map.mp hmem
        exact hcart y hy (hyx.trans hnone)
      · exact hw (hmem.symm.trans hnone)
    obtain ⟨ih1, ih2, ih3, ih4, ih5⟩ := ih (moveToCart cart w) htail hrest hcart1
    simp only [List.foldl_cons]
    refine ⟨?_, ?_, ?_, ?_, ?_⟩
    · intro v hv
      rcases List.mem_cons.mp hv with hvw | hvr
      · rw [hvw, ih2 w.id (fun u hu => (hhead u hu).symm), hitems]
        exact quantityOf_addOne_self w.id _ cart.items hfresh rfl
      · rw [ih1 v hvr, hitems,
          quantityOf_addOne_other w.id v.id _ cart.items hfresh (hhead v hvr)]
    · intro k hk
      rw [ih2 k (fun u hu => hk u (List.mem_cons_of_mem _ hu)), hitems]
      exact quantityOf_addOne_other w.id k _ cart.items hfresh (hk w (List.mem_cons_self _ _))
    · intro keep hkeep
      rw [ih3 keep (fun u hu => hkeep u (List.mem_cons_of_mem _ hu)), hitems]
      exact filter_addOne w.id _ cart.items keep hfresh (hkeep w (List.mem_cons_self _ _))
    · rw [ih4, hitems, sumQuantity_addOne w.id _ cart.items rfl]
      simp only [List.length_cons, Nat.cast_add, Nat.cast_one]
      ring
    · intro k
      rw [ih5 k, hitems, mem_ids_addOne w.id k _ cart.items hfresh]
      constructor
      · rintro ((h | h) | ⟨u, hu, huk⟩)
        · exact Or.inl h
        · exact Or.inr ⟨w, List.mem_cons_self _ _, h.symm⟩
        · exact Or.inr ⟨u, List.mem_cons_of_mem _ hu, huk⟩
      · rintro (h | ⟨u, hu, huk⟩)
        · exact Or.inl (Or.inl h)
        · rcases List.mem_cons.mp hu with huw | hur
          · exact Or.inl (Or.inr (by rw [← huk, huw]))
          · exact Or.inr ⟨u, hur, huk⟩

theorem foldl_moveToCart_itemCount (ws : List WishlistItem) (cart : CartState)
    (h : cart.itemCount = sumQuantity cart.items) :
    (ws.foldl moveToCart cart).itemCount = sumQuantity (ws.foldl moveToCart cart).items := by
  induction ws generalizing cart with
  | nil => exact h
  | cons w rest ih => exact ih (moveToCart cart w) (calculateTotals_itemCount _)

theorem applyEffects_moves (ws : List WishlistItem) (store : RootState) :
    applyEffects store
        (ws.map
          (fun book =>
            Effect.dispatchCart
              (CartAction.addToCart { book := wishlistItemAsBook book, quantity := some 1 })))
      = { store with cart := ws.foldl moveToCart store.cart } := by
  induction ws generalizing store with
  | nil => rfl
  | cons w rest ih =>
    simp only [applyEffects, List.map_cons, List.foldl_cons] at ih ⊢
    rw [ih]
    rfl

/-- The store after `handleMoveAllToCart` on a wishlist that is not empty. -/
theorem applyEffects_handleMoveAllToCart (store : RootState)
    (h : store.wishlist.items ≠ []) :
    applyEffects store (handleMoveAllToCart (selectWishlistItems store))
      = { cart := store.wishlist.items.foldl moveToCart store.cart
          wishlist := clearWishlist store.wishlist } := by
  have hlen : store.wishlist.items.length > 0 := List.length_pos.mpr h
  simp only [handleMoveAllToCart, selectWishlistItems, hlen, if_true]
  have happ := applyEffects_moves store.wishlist.items store
  simp only [applyEffects] at happ
  simp only [applyEffects, List.foldl_append, happ]
  rfl

theorem cartNoId_eq :
    cartNoId =
      { items := [{ id := none, title := "Untitled", author := "Unknown", price := 5,
                    coverImageUrl := "", category := none, quantity := 1 }]
        total := 5, itemCount := 1, loading := false, error := none
        discount := none, couponCode := none, finalTotal := none } := by
  simp [cartNoId, addToCart, initialState, bookNoId, newCartItem, matchesBook, jsOr, truthy,
    calculateTotals]

/-! ## Lemmas on the coupon arithmetic in double precision -/

theorem abs_roundHalfEven_sub_le (q : ℚ) : |(roundHalfEven q : ℚ) - q| ≤ 1 / 2 := by
  have h0 := Int.floor_le q
  have h1 := Int.lt_floor_add_one q
  unfold roundHalfEven
  split_ifs with ha hb hc
  · rw [abs_le]; constructor <;> linarith
  · rw [abs_le]; push_cast; constructor <;> linarith
  · rw [abs_le]; constructor <;> linarith
  · rw [abs_le]; push_cast; constructor <;> linarith

theorem roundHalfEven_eq (q : ℚ) (n : ℤ) (h : |q - n| < 1 / 2) : roundHalfEven q = n := by
  have h0 := Int.floor_le q
  have h1 := Int.lt_floor_add_one q
  obtain ⟨hlo, hhi⟩ := abs_lt.mp h
  have hle : ⌊q⌋ ≤ n := by
    have : (⌊q⌋ : ℚ) < n + 1 := by linarith
    have : ⌊q⌋ < n + 1 := by exact_mod_cast this
    omega
  have hge : n - 1 ≤ ⌊q⌋ := by
    have : ((n - 1 : ℤ) : ℚ) < ⌊q⌋ + 1 := by push_cast; linarith
    have : n - 1 < ⌊q⌋ + 1 := by exact_mod_cast this
    omega
  rcases (by omega : ⌊q⌋ = n ∨ ⌊q⌋ = n - 1) with hf | hf
  · have hlt : q - (⌊q⌋ : ℚ) < 1 / 2 := by rw [hf]; linarith
    simp only [roundHalfEven, hlt, if_true]
    exact hf
  · have hfq : (⌊q⌋ : ℚ) = n - 1 := by rw [hf]; push_cast; ring
    have hnot : ¬ q - ⌊q⌋ < 1 / 2 := by rw [hfq]; linarith
    have hgt : 1 / 2 < q - ⌊q⌋ := by rw [hfq]; linarith
    simp only [roundHalfEven, hnot, hgt, if_false, if_true]
    omega

theorem log_two_eq (x : ℚ) (e : ℤ) (hx : 0 < x) (h1 : (2 : ℚ) ^ e ≤ x)
    (h2 : x < (2 : ℚ) ^ (e + 1)) : Int.log 2 x = e := by
  have ha : e ≤ Int.log 2 x := by
    apply (Int.zpow_le_iff_le_log (by norm_num) hx).mp
    simpa using h1
  have hb : Int.log 2 x < e + 1 := by
    apply (Int.lt_zpow_iff_log_lt (by norm_num) hx).mp
    simpa using h2
  omega

theorem roundToDouble_of (x : ℚ) (e k n : ℤ) (hx : 0 < |x|) (h1 : (2 : ℚ) ^ e ≤ |x|)
    (h2 : |x| < (2 : ℚ) ^ (e + 1)) (hk : max e (-1022) - 52 = k)
    (hn : |x / (2 : ℚ) ^ k - n| < 1 / 2) :
    roundToDouble x =
      if |(n : ℚ) * (2 : ℚ) ^ k| < 2 ^ 1024 then Double.finite ((n : ℚ) * (2 : ℚ) ^ k)
      else Double.infinity (decide (x < 0)) := by
  have hq : quantum x = (2 : ℚ) ^ k := by
    unfold quantum
    rw [log_two_eq |x| e hx h1 h2, hk]
  unfold roundToDouble
  rw [hq, roundHalfEven_eq _ n hn]

/-- Rounding a positive number of the normal range moves it by at most one part
in 2^53. -/
theorem roundToDouble_near (x : ℚ) (hlo : (2 : ℚ) ^ (-1022 : ℤ) ≤ x)
    (hhi : x ≤ (2 : ℚ) ^ (1023 : ℤ)) :
    ∃ y, roundToDouble x = Double.finite y ∧ |y - x| ≤ x * (2 : ℚ) ^ (-53 : ℤ) := by
  have hpos : 0 < x := lt_of_lt_of_le (by positivity) hlo
  have habs : |x| = x := abs_of_pos hpos
  have hlog : (-1022 : ℤ) ≤ Int.log 2 x := by
    apply (Int.zpow_le_iff_le_log (by norm_num) hpos).mp
    simpa using hlo
  have hpow : (2 : ℚ) ^ (Int.log 2 x) ≤ x := by
    have := Int.zpow_log_le_self (b := 2) (by norm_num) hpos
    simpa using this
  have hq : quantum x = (2 : ℚ) ^ (Int.log 2 x) * (2 : ℚ) ^ (-52 : ℤ) := by
    unfold quantum
    rw [habs, max_eq_left hlog, sub_eq_add_neg, zpow_add₀ (by norm_num)]
  have hqpos : 0 < quantum x := by rw [hq]; positivity
  have hqle : quantum x ≤ x * (2 : ℚ) ^ (-52 : ℤ) := by
    rw [hq]
    exact mul_le_mul_of_nonneg_right hpow (by positivity)
  have hr := abs_roundHalfEven_sub_le (x / quantum x)
  have herr : |(roundHalfEven (x / quantum x) : ℚ) * quantum x - x| ≤ quantum x / 2 := by
    have hx : x = x / quantum x * quantum x := by field_simp
    have : (roundHalfEven (x / quantum x) : ℚ) * quantum x - x
        = ((roundHalfEven (x / quantum x) : ℚ) - x / quantum x) * quantum x := by
      rw [sub_mul, ← hx]
    rw [this, abs_mul, abs_of_pos hqpos]
    calc |(roundHalfEven (x / quantum x) : ℚ) - x / quantum x| * quantum x
        ≤ 1 / 2 * quantum x := mul_le_mul_of_nonneg_right hr hqpos.le
      _ = quantum x / 2 := by ring
  have hhalf : quantum x / 2 ≤ x * (2 : ℚ) ^ (-53 : ℤ) := by
    have h53 : x * (2 : ℚ) ^ (-53 : ℤ) = x * (2 : ℚ) ^ (-52 : ℤ) / 2 := by
      have : (2 : ℚ) ^ (-53 : ℤ) = (2 : ℚ) ^ (-52 : ℤ) / 2 := by norm_num
      rw [this]; ring
    rw [h53]
    exact (div_le_div_iff_of_pos_right (by norm_num : (0 : ℚ) < 2)).mpr hqle
  have herr2 := le_trans herr hhalf
  refine ⟨(roundHalfEven (x / quantum x) : ℚ) * quantum x, ?_, herr2⟩
  have hfin : |(roundHalfEven (x / quantum x) : ℚ) * quantum x| < 2 ^ 1024 := by
    have hsmall : x * (2 : ℚ) ^ (-53 : ℤ) < x := by
      have h1 : (2 : ℚ) ^ (-53 : ℤ) < 1 := by norm_num
      calc x * (2 : ℚ) ^ (-53 : ℤ) < x * 1 := mul_lt_mul_of_pos_left h1 hpos
        _ = x := mul_one x
    have h1023 : (2 : ℚ) ^ (1023 : ℤ) + (2 : ℚ) ^ (1023 : ℤ) = 2 ^ 1024 := by norm_num
    have hup := (abs_le.mp herr2).2
    have hdown := (abs_le.mp herr2).1
    rw [abs_lt]
    constructor <;> linarith
  unfold roundToDouble
  rw [if_pos hfin]

/-- Rounding a positive number whose binade and nearest multiple of the
quantum are known, below the overflow threshold. -/
theorem roundToDouble_of_pos (x : ℚ) (e k n : ℤ) (hx : 0 < x) (h1 : (2 : ℚ) ^ e ≤ x)
    (h2 : x < (2 : ℚ) ^ (e + 1)) (hk : max e (-1022) - 52 = k)
    (hlo : (n : ℚ) * (2 : ℚ) ^ k - (2 : ℚ) ^ k / 2 < x)
    (hhi : x < (n : ℚ) * (2 : ℚ) ^ k + (2 : ℚ) ^ k / 2)
    (hn : 0 ≤ (n : ℚ) * (2 : ℚ) ^ k) (hfin : (n : ℚ) * (2 : ℚ) ^ k < 2 ^ 1024) :
    roundToDouble x = Double.finite ((n : ℚ) * (2 : ℚ) ^ k) := by
  have hkpos : (0 : ℚ) < (2 : ℚ) ^ k := by positivity
  have hnear : |x / (2 : ℚ) ^ k - n| < 1 / 2 := by
    rw [abs_lt]
    constructor
    · rw [lt_sub_iff_add_lt, lt_div_iff₀ hkpos]
      linarith
    · rw [sub_lt_iff_lt_add, div_lt_iff₀ hkpos]
      linarith
  rw [roundToDouble_of x e k n (by rw [abs_of_pos hx]; exact hx) (by rw [abs_of_pos hx]; exact h1)
    (by rw [abs_of_pos hx]; exact h2) hk hnear, abs_of_nonneg hn, if_pos hfin]

/-- Rounding a positive number whose nearest multiple of the quantum is at or
beyond the overflow threshold. -/
theorem roundToDouble_of_overflow (x : ℚ) (e k n : ℤ) (hx : 0 < x) (h1 : (2 : ℚ) ^ e ≤ x)
    (h2 : x < (2 : ℚ) ^ (e + 1)) (hk : max e (-1022) - 52 = k)
    (hlo : (n : ℚ) * (2 : ℚ) ^ k - (2 : ℚ) ^ k / 2 < x)
    (hhi : x < (n : ℚ) * (2 : ℚ) ^ k + (2 : ℚ) ^ k / 2)
    (hbig : (2 : ℚ) ^ 1024 ≤ (n : ℚ) * (2 : ℚ) ^ k) :
    roundToDouble x = Double.infinity false := by
  have hkpos : (0 : ℚ) < (2 : ℚ) ^ k := by positivity
  have hnear : |x / (2 : ℚ) ^ k - n| < 1 / 2 := by
    rw [abs_lt]
    constructor
    · rw [lt_sub_iff_add_lt, lt_div_iff₀ hkpos]
      linarith
    · rw [sub_lt_iff_lt_add, div_lt_iff₀ hkpos]
      linarith
  have hn : 0 ≤ (n : ℚ) * (2 : ℚ) ^ k := le_trans (by positivity) hbig
  rw [roundToDouble_of x e k n (by rw [abs_of_pos hx]; exact hx) (by rw [abs_of_pos hx]; exact h1)
    (by rw [abs_of_pos hx]; exact h2) hk hnear, abs_of_nonneg hn, if_neg (not_lt.mpr hbig)]
  simp [not_lt.mpr hx.le]

/-- The three roundings of `applyCoupon`, each within one part in 2^53 of the
exact operation, keep the discount and the final total strictly between zero
and the total, and the final total within one part in 2^52 of the total from
the exact value. -/
theorem coupon_rounding_bounds (t p u m d f : ℚ) (hu0 : 0 < u) (hu : u ≤ 1 / 1000)
    (ht : 0 < t) (hp1 : 10 ≤ p) (hp2 : p ≤ 25)
    (hm : |m - t * p| ≤ t * p * u) (hd : |d - m / 100| ≤ m / 100 * u)
    (hf : |f - (t - d)| ≤ (t - d) * u) :
    0 < d ∧ d < t ∧ 0 < f ∧ f < t ∧ |f - t * (100 - p) / 100| ≤ t * (2 * u) := by
  have htp1 : 10 * t ≤ t * p := by nlinarith
  have htp2 : t * p ≤ 25 * t := by nlinarith
  have htu : 0 < t * u := mul_pos ht hu0
  have htpu1 : t * p * u ≤ 25 * (t * u) := by
    have := mul_le_mul_of_nonneg_right htp2 hu0.le
    linarith
  have htpu2 : t * p * u ≤ t * p / 1000 := by
    have := mul_le_mul_of_nonneg_left hu (by linarith : 0 ≤ t * p)
    linarith
  have htu2 : t * u ≤ t / 1000 := by
    have := mul_le_mul_of_nonneg_left hu ht.le
    linarith
  obtain ⟨hm1, hm2⟩ := abs_le.mp hm
  have hmpos : 0 < m := by linarith
  have hmu1 : m / 100 * u ≤ m / 100 / 1000 := by
    have := mul_le_mul_of_nonneg_left hu (by linarith : 0 ≤ m / 100)
    linarith
  have hmu2 : m / 100 * u ≤ 26 / 100 * (t * u) := by
    have := mul_le_mul_of_nonneg_right (by linarith : m / 100 ≤ 26 / 100 * t) hu0.le
    linarith
  obtain ⟨hd1, hd2⟩ := abs_le.mp hd
  have hdpos : 0 < d := by linarith
  have hdlt : d < t := by linarith
  have hdu1 : (t - d) * u ≤ (t - d) / 1000 := by
    have := mul_le_mul_of_nonneg_left hu (by linarith : 0 ≤ t - d)
    linarith
  have hdu2 : (t - d) * u ≤ t * u := by
    have := mul_le_mul_of_nonneg_right (by linarith : t - d ≤ t) hu0.le
    linarith
  obtain ⟨hf1, hf2⟩ := abs_le.mp hf
  refine ⟨hdpos, hdlt, by linarith, by linarith, ?_⟩
  rw [abs_le]
  constructor <;> linarith

/-- The product total × pct stays in the range in which rounding is accurate. -/
theorem coupon_product_range (t p lo hi a b : ℚ) (ha0 : 0 < a) (ha : a * 1000 ≤ lo)
    (hb : hi * 1000 ≤ b) (hlo : lo ≤ t) (hhi : t ≤ hi) (hp1 : 10 ≤ p) (hp2 : p ≤ 25) :
    a ≤ t * p ∧ t * p ≤ b := by
  have ht : 0 < t := by linarith
  have htp1 : 10 * t ≤ t * p := by nlinarith
  have htp2 : t * p ≤ 25 * t := by nlinarith
  constructor <;> linarith

/-- The quotient by 100 of the rounded product stays in that range. -/
theorem coupon_quotient_range (t p u m lo hi a b : ℚ) (hu : u ≤ 1 / 1000) (ha0 : 0 < a)
    (ha : a * 1000 ≤ lo) (hb : hi * 1000 ≤ b) (hlo : lo ≤ t) (hhi : t ≤ hi)
    (hp1 : 10 ≤ p) (hp2 : p ≤ 25) (hm : |m - t * p| ≤ t * p * u) :
    a ≤ m / 100 ∧ m / 100 ≤ b := by
  have ht : 0 < t := by linarith
  have htp1 : 10 * t ≤ t * p := by nlinarith
  have htp2 : t * p ≤ 25 * t := by nlinarith
  have htpu : t * p * u ≤ t * p / 1000 := by
    have := mul_le_mul_of_nonneg_left hu (by linarith : 0 ≤ t * p)
    linarith
  obtain ⟨hm1, hm2⟩ := abs_le.mp hm
  constructor <;> linarith

/-- The difference of the total and the rounded discount stays in that range. -/
theorem coupon_difference_range (t p u m d lo hi a b : ℚ) (hu : u ≤ 1 / 1000) (ha0 : 0 < a)
    (ha : a * 1000 ≤ lo) (hb : hi * 1000 ≤ b) (hlo : lo ≤ t) (hhi : t ≤ hi)
    (hp1 : 10 ≤ p) (hp2 : p ≤ 25) (hm : |m - t * p| ≤ t * p * u)
    (hd : |d - m / 100| ≤ m / 100 * u) :
    a ≤ t - d ∧ t - d ≤ b := by
  have ht : 0 < t := by linarith
  have htp1 : 10 * t ≤ t * p := by nlinarith
  have htp2 : t * p ≤ 25 * t := by nlinarith
  have htpu : t * p * u ≤ t * p / 1000 := by
    have := mul_le_mul_of_nonneg_left hu (by linarith : 0 ≤ t * p)
    linarith
  obtain ⟨hm1, hm2⟩ := abs_le.mp hm
  have hmu : m / 100 * u ≤ m / 100 / 1000 := by
    have := mul_le_mul_of_nonneg_left hu (by linarith : 0 ≤ m / 100)
    linarith
  obtain ⟨hd1, hd2⟩ := abs_le.mp hd
  constructor <;> linarith

/-- The coupon arithmetic in doubles, for a total between 2^-1000 and 2^1000 and
a percentage between 10 and 25. -/
theorem applyCouponDouble_of_range (total pct : ℚ) (discount finalTotal : Option Double)
    (hlo : (2 : ℚ) ^ (-1000 : ℤ) ≤ total) (hhi : total ≤ (2 : ℚ) ^ (1000 : ℤ))
    (hp1 : 10 ≤ pct) (hp2 : pct ≤ 25) :
    ∃ d f : ℚ,
      applyCouponDouble
          { total := Double.finite total, discount := discount, finalTotal := finalTotal }
          (Double.finite pct)
        = { total := Double.finite total, discount := some (Double.finite d),
            finalTotal := some (Double.finite f) } ∧
      0 < d ∧ d < total ∧ 0 < f ∧ f < total ∧
      |f - total * (100 - pct) / 100| ≤ total * (2 : ℚ) ^ (-52 : ℤ) := by
  have ht : 0 < total := lt_of_lt_of_le (by positivity) hlo
  have hu0 : (0 : ℚ) < (2 : ℚ) ^ (-53 : ℤ) := by positivity
  have hu : (2 : ℚ) ^ (-53 : ℤ) ≤ 1 / 1000 := by norm_num
  have hA : (2 : ℚ) ^ (-1022 : ℤ) * 1000 ≤ (2 : ℚ) ^ (-1000 : ℤ) := by norm_num
  have hB : (2 : ℚ) ^ (1000 : ℤ) * 1000 ≤ (2 : ℚ) ^ (1023 : ℤ) := by norm_num
  have hApos : (0 : ℚ) < (2 : ℚ) ^ (-1022 : ℤ) := by positivity
  obtain ⟨hr1, hr2⟩ := coupon_product_range total pct _ _ _ _ hApos hA hB hlo hhi hp1 hp2
  obtain ⟨m, hmeq, hm⟩ := roundToDouble_near (total * pct) hr1 hr2
  obtain ⟨hr3, hr4⟩ :=
    coupon_quotient_range total pct _ m _ _ _ _ hu hApos hA hB hlo hhi hp1 hp2 hm
  obtain ⟨d, hdeq, hd⟩ := roundToDouble_near (m / 100) hr3 hr4
  obtain ⟨hr5, hr6⟩ :=
    coupon_difference_range total pct _ m d _ _ _ _ hu hApos hA hB hlo hhi hp1 hp2 hm hd
  obtain ⟨f, hfeq, hf⟩ := roundToDouble_near (total - d) hr5 hr6
  obtain ⟨h1, h2, h3, h4, h5⟩ :=
    coupon_rounding_bounds total pct ((2 : ℚ) ^ (-53 : ℤ)) m d f hu0 hu ht hp1 hp2 hm hd hf
  refine ⟨d, f, ?_, h1, h2, h3, h4, ?_⟩
  · simp [applyCouponDouble, Double.gt, Double.mul, Double.div, Double.sub, ht, hmeq, hdeq,
      hfeq]
  · have h52 : (2 : ℚ) ^ (-52 : ℤ) = 2 * (2 : ℚ) ^ (-53 : ℤ) := by norm_num
    rw [h52]
    exact h5

/-- The reducer in doubles, given what its three roundings yield. -/
theorem applyCouponDouble_of_roundings (t p m d f : ℚ) (discount finalTotal : Option Double)
    (ht : 0 < t) (hm : roundToDouble (t * p) = Double.finite m)
    (hd : roundToDouble (m / 100) = Double.finite d)
    (hf : roundToDouble (t - d) = Double.finite f) :
    applyCouponDouble
        { total := Double.finite t, discount := discount, finalTotal := finalTotal }
        (Double.finite p)
      = { total := Double.finite t, discount := some (Double.finite d),
          finalTotal := some (Double.finite f) } := by
  simp [applyCouponDouble, Double.gt, Double.mul, Double.div, Double.sub, ht, hm, hd, hf]

/-- The reducer in doubles when the product total × pct overflows. -/
theorem applyCouponDouble_of_overflow (t p : ℚ) (discount finalTotal : Option Double)
    (ht : 0 < t) (hm : roundToDouble (t * p) = Double.infinity false) :
    applyCouponDouble
        { total := Double.finite t, discount := discount, finalTotal := finalTotal }
        (Double.finite p)
      = { total := Double.finite t, discount := some (Double.infinity false),
          finalTotal := some (Double.infinity true) } := by
  simp [applyCouponDouble, Double.gt, Double.mul, Double.div, Double.sub, ht, hm]

/-- The formula of the specification in doubles, given what its three roundings
yield. -/
theorem discountedTotal_of_roundings (t p q m f : ℚ)
    (hq : roundToDouble (100 - p) = Double.finite q)
    (hm : roundToDouble (t * q) = Double.finite m)
    (hf : roundToDouble (m / 100) = Double.finite f) :
    discountedTotal (Double.finite t) (Double.finite p) = Double.finite f := by
  simp [discountedTotal, Double.mul, Double.div, Double.sub, hq, hm, hf]

/-- The literal 9.99 as a double. -/
theorem roundToDouble_999 :
    roundToDouble (999 / 100) = Double.finite (5623870034678907 / 2 ^ 49) := by
  rw [roundToDouble_of_pos (999 / 100) 3 (-49) 5623870034678907 (by norm_num) (by norm_num)
    (by norm_num) (by norm_num) (by norm_num) (by norm_num) (by norm_num) (by norm_num)]
  norm_num

/-- The coupon NAFIU on the total 9.99, in doubles. -/
theorem applyCouponDouble_999 :
    applyCouponDouble
        { total := Double.finite (5623870034678907 / 2 ^ 49), discount := none,
          finalTotal := none }
        (Double.finite 20)
      = { total := Double.finite (5623870034678907 / 2 ^ 49),
          discount := some (Double.finite (8998192055486252 / 2 ^ 52)),
          finalTotal := some (Double.finite (8998192055486251 / 2 ^ 50)) } := by
  apply applyCouponDouble_of_roundings _ _ (7029837543348634 / 2 ^ 45) _ _ _ _ (by norm_num)
  · rw [roundToDouble_of_pos _ 7 (-45) 7029837543348634 (by norm_num) (by norm_num)
      (by norm_num) (by norm_num) (by norm_num) (by norm_num) (by norm_num) (by norm_num)]
    norm_num
  · rw [roundToDouble_of_pos _ 0 (-52) 8998192055486252 (by norm_num) (by norm_num)
      (by norm_num) (by norm_num) (by norm_num) (by norm_num) (by norm_num) (by norm_num)]
    norm_num
  · rw [roundToDouble_of_pos _ 2 (-50) 8998192055486251 (by norm_num) (by norm_num)
      (by norm_num) (by norm_num) (by norm_num) (by norm_num) (by norm_num) (by norm_num)]
    norm_num

/-- The formula total × (100 − 20)/100 on the total 9.99, in doubles. -/
theorem discountedTotal_999 :
    discountedTotal (Double.finite (5623870034678907 / 2 ^ 49)) (Double.finite 20)
      = Double.finite (8998192055486252 / 2 ^ 50) := by
  apply discountedTotal_of_roundings _ _ 80 (7029837543348634 / 2 ^ 43)
  · rw [roundToDouble_of_pos _ 6 (-46) 5629499534213120 (by norm_num) (by norm_num)
      (by norm_num) (by norm_num) (by norm_num) (by norm_num) (by norm_num) (by norm_num)]
    norm_num
  · rw [roundToDouble_of_pos _ 9 (-43) 7029837543348634 (by norm_num) (by norm_num)
      (by norm_num) (by norm_num) (by norm_num) (by norm_num) (by norm_num) (by norm_num)]
    norm_num
  · rw [roundToDouble_of_pos _ 2 (-50) 8998192055486252 (by norm_num) (by norm_num)
      (by norm_num) (by norm_num) (by norm_num) (by norm_num) (by norm_num) (by norm_num)]
    norm_num

/-- The coupon NAFIU on the smallest positive double, 2^-1074. -/
theorem applyCouponDouble_smallest :
    applyCouponDouble
        { total := Double.finite (1 / 2 ^ 1074), discount := none, finalTotal := none }
        (Double.finite 20)
      = { total := Double.finite (1 / 2 ^ 1074), discount := some (Double.finite 0),
          finalTotal := some (Double.finite (1 / 2 ^ 1074)) } := by
  apply applyCouponDouble_of_roundings _ _ (20 / 2 ^ 1074) _ _ _ _ (by norm_num)
  · rw [roundToDouble_of_pos _ (-1070) (-1074) 20 (by norm_num) (by norm_num)
      (by norm_num) (by norm_num) (by norm_num) (by norm_num) (by norm_num) (by norm_num)]
    norm_num
  · rw [roundToDouble_of_pos _ (-1077) (-1074) 0 (by norm_num) (by norm_num)
      (by norm_num) (by norm_num) (by norm_num) (by norm_num) (by norm_num) (by norm_num)]
    norm_num
  · rw [roundToDouble_of_pos _ (-1074) (-1074) 1 (by norm_num) (by norm_num)
      (by norm_num) (by norm_num) (by norm_num) (by norm_num) (by norm_num) (by norm_num)]
    norm_num

/-- The coupon NAFIU on the total 2^1023: the product overflows. -/
theorem applyCouponDouble_large :
    applyCouponDouble
        { total := Double.finite (2 ^ 1023), discount := none, finalTotal := none }
        (Double.finite 20)
      = { total := Double.finite (2 ^ 1023), discount := some (Double.infinity false),
          finalTotal := some (Double.infinity true) } := by
  apply applyCouponDouble_of_overflow _ _ _ _ (by norm_num)
  exact roundToDouble_of_overflow _ 1027 975 5629499534213120 (by norm_num) (by norm_num)
    (by norm_num) (by norm_num) (by norm_num) (by norm_num) (by norm_num)

/-- The coupon NAFIU on the total 100, in doubles. -/
theorem applyCouponDouble_hundred :
    applyCouponDouble
        { total := Double.finite 100, discount := none, finalTotal := none }
        (Double.finite 20)
      = { total := Double.finite 100, discount := some (Double.finite 20),
          finalTotal := some (Double.finite 80) } := by
  apply applyCouponDouble_of_roundings _ _ 2000 _ _ _ _ (by norm_num)
  · rw [roundToDouble_of_pos _ 10 (-42) 8796093022208000 (by norm_num) (by norm_num)
      (by norm_num) (by norm_num) (by norm_num) (by norm_num) (by norm_num) (by norm_num)]
    norm_num
  · rw [roundToDouble_of_pos _ 4 (-48) 5629499534213120 (by norm_num) (by norm_num)
      (by norm_num) (by norm_num) (by norm_num) (by norm_num) (by norm_num) (by norm_num)]
    norm_num
  · rw [roundToDouble_of_pos _ 6 (-46) 5629499534213120 (by norm_num) (by norm_num)
      (by norm_num) (by norm_num) (by norm_num) (by norm_num) (by norm_num) (by norm_num)]
    norm_num

/-- Every percentage of the coupon table lies between 10 and 25. -/
theorem validCoupons_pct_range (code : String) (pct : ℚ)
    (hvalid : (code, pct) ∈
      [("NAFIU", (20 : ℚ)), ("WELCOME10", 10), ("SAVE15", 15), ("BOOKBAZAR", 25)]) :
    10 ≤ pct ∧ pct ≤ 25 := by
  simp only [List.mem_cons, Prod.mk.injEq, List.mem_singleton, List.not_mem_nil,
    or_false] at hvalid
  rcases hvalid with ⟨_, hp⟩ | ⟨_, hp⟩ | ⟨_, hp⟩ | ⟨_, hp⟩ <;>
    subst hp <;> constructor <;> norm_num

/-! ## Theorems -/

/-- C1: for every sequence of cart actions (addToCart, removeFromCart,
updateQuantity and clearCart among them) applied to the initial, empty cart
state, after every action, that is after every prefix of the sequence, `total`
equals the sum over all items of price × quantity. -/
theorem total_is_sum_after_every_action (actions : List CartAction) (k : Nat) :
    (dispatchAll initialState (actions.take k)).total
      = sumPriceQuantity (dispatchAll initialState (actions.take k)).items :=
  dispatchAll_total (actions.take k) initialState (by simp [initialState, sumPriceQuantity])

/-- C2: for every cart state, book and quantity `q`: if some item's id equals
the book's id (its `_id` or its `id`, the two properties the reducer compares
with), `addToCart` increases the quantity of that item (the first such item of
the list) by exactly `q` and leaves every other item and the order unchanged;
otherwise the new list is the old list followed by one new item carrying the
book's id (`_id || id`), title, author, price, category and quantity `q`. -/
theorem addToCart_increments_or_appends (state : CartState) (book : Book) (q : Int) :
    ((∃ item ∈ state.items, item.id = book._id ∨ item.id = book.id) →
      ∃ pre item post,
        state.items = pre ++ item :: post ∧
        (∀ other ∈ pre, ¬ (other.id = book._id ∨ other.id = book.id)) ∧
        (item.id = book._id ∨ item.id = book.id) ∧
        (addToCart state { book := book, quantity := some q }).items
          = pre ++ { item with quantity := item.quantity + q } :: post) ∧
    ((∀ item ∈ state.items, ¬ (item.id = book._id ∨ item.id = book.id)) →
      (addToCart state { book := book, quantity := some q }).items
        = state.items ++
            [{ id := jsOr book._id book.id, title := book.title, author := book.author,
               price := book.price, coverImageUrl := book.coverImageUrl,
               category := book.category, quantity := q }]) := by
  constructor
  · intro h
    have hex : ∃ x ∈ state.items, matchesBook book x = true := by
      obtain ⟨x, hx, hm⟩ := h
      exact ⟨x, hx, (matchesBook_iff book x).mpr hm⟩
    obtain ⟨y, hy⟩ := find?_some_of_exists _ _ hex
    obtain ⟨pre, x, post, hl, hpre, hx, hm⟩ :=
      mutateFirst_split (matchesBook book)
        (fun item => { item with quantity := item.quantity + q }) state.items hex
    refine ⟨pre, x, post, hl, ?_, (matchesBook_iff book x).mp hx, ?_⟩
    · intro other ho hmatch
      have := hpre other ho
      rw [(matchesBook_iff book other).mpr hmatch] at this
      exact Bool.noConfusion this
    · simp only [addToCart, hy, Option.getD_some]
      exact hm
  · intro h
    have hnone : state.items.find? (matchesBook book) = none := by
      apply find?_none_of_forall
      intro x hx
      cases hb : matchesBook book x with
      | false => rfl
      | true => exact absurd ((matchesBook_iff book x).mp hb) (h x hx)
    simp only [addToCart, hnone, Option.getD_some, newCartItem]

/-- Scenarios A and B: the empty cart plus two copies of `b1` (price 10) is one
line of quantity 2 and total 20; one more copy gives quantity 3 and total 30. -/
theorem addToCart_increments_or_appends_witness :
    (∀ item ∈ initialState.items, ¬ (item.id = bookB1._id ∨ item.id = bookB1.id)) ∧
    (addToCart initialState { book := bookB1, quantity := some 2 }).items
      = initialState.items ++
          [{ id := jsOr bookB1._id bookB1.id, title := bookB1.title, author := bookB1.author,
             price := bookB1.price, coverImageUrl := bookB1.coverImageUrl,
             category := bookB1.category, quantity := 2 }] ∧
    (addToCart initialState { book := bookB1, quantity := some 2 }).items
      = [{ id := some "b1", title := "Book One", author := "Author One", price := 10,
           coverImageUrl := "", category := none, quantity := 2 }] ∧
    (addToCart initialState { book := bookB1, quantity := some 2 }).total = 20 ∧
    (∃ item ∈ cartB1.items, item.id = bookB1._id ∨ item.id = bookB1.id) ∧
    (∃ pre item post,
        cartB1.items = pre ++ item :: post ∧
        (∀ other ∈ pre, ¬ (other.id = bookB1._id ∨ other.id = bookB1.id)) ∧
        (item.id = bookB1._id ∨ item.id = bookB1.id) ∧
        (addToCart cartB1 { book := bookB1, quantity := some 1 }).items
          = pre ++ { item with quantity := item.quantity + 1 } :: post) ∧
    (addToCart cartB1 { book := bookB1, quantity := some 1 }).items
      = [{ id := some "b1", title := "Book One", author := "Author One", price := 10,
           coverImageUrl := "", category := none, quantity := 3 }] ∧
    (addToCart cartB1 { book := bookB1, quantity := some 1 }).total = 30 := by
  have hempty : ∀ item ∈ initialState.items,
      ¬ (item.id = bookB1._id ∨ item.id = bookB1.id) := by
    simp [initialState]
  have hpresent : ∃ item ∈ cartB1.items, item.id = bookB1._id ∨ item.id = bookB1.id := by
    simp [cartB1, addToCart, initialState, bookB1, newCartItem, matchesBook, jsOr, truthy]
  refine ⟨hempty, (addToCart_increments_or_appends initialState bookB1 2).2 hempty, ?_, ?_,
    hpresent, (addToCart_increments_or_appends cartB1 bookB1 1).1 hpresent, ?_, ?_⟩
  · simp [addToCart, initialState, bookB1, newCartItem, matchesBook, jsOr, truthy]
  · norm_num [addToCart, initialState, bookB1, newCartItem, matchesBook, jsOr, truthy,
      calculateTotals]
  · simp [cartB1, addToCart, initialState, bookB1, newCartItem, matchesBook, jsOr, truthy,
      mutateFirst]
  · norm_num [cartB1, addToCart, initialState, bookB1, newCartItem, matchesBook, jsOr, truthy,
      mutateFirst, calculateTotals]

/-- C3: for every cart state, id and quantity `q ≤ 0`, after `updateQuantity`
no item with that id is in the cart, every other item is retained unchanged in
its original order (the new list is the old one without the items of that id),
and `total` is recomputed over the remaining items: it is their sum whenever an
item was removed, and the state is untouched when no item has the id, so a
`total` that was the sum of the items before is the sum of the items after. -/
theorem updateQuantity_nonpositive_removes (state : CartState) (id : Option String)
    (q : Int) (hq : q ≤ 0) :
    (∀ item ∈ (updateQuantity state { id := id, quantity := q }).items, item.id ≠ id) ∧
    (updateQuantity state { id := id, quantity := q }).items
      = state.items.filter (fun item => decide (item.id ≠ id)) ∧
    ((∃ item ∈ state.items, item.id = id) →
      (updateQuantity state { id := id, quantity := q }).total
        = sumPriceQuantity (state.items.filter (fun item => decide (item.id ≠ id)))) ∧
    ((∀ item ∈ state.items, item.id ≠ id) →
      updateQuantity state { id := id, quantity := q } = state) ∧
    (state.total = sumPriceQuantity state.items →
      (updateQuantity state { id := id, quantity := q }).total
        = sumPriceQuantity (updateQuantity state { id := id, quantity := q }).items) := by
  have hnot : ¬ q > 0 := not_lt.mpr hq
  have habsent : (∀ item ∈ state.items, item.id ≠ id) →
      updateQuantity state { id := id, quantity := q } = state := by
    intro h
    have hnone := (find?_id_none_iff state.items id).mpr h
    simp only [updateQuantity, hnone]
  have hpresent : (∃ item ∈ state.items, item.id = id) →
      (updateQuantity state { id := id, quantity := q }).items
          = state.items.filter (fun item => decide (item.id ≠ id)) ∧
        (updateQuantity state { id := id, quantity := q }).total
          = sumPriceQuantity (state.items.filter (fun item => decide (item.id ≠ id))) := by
    intro h
    have hex : ∃ x ∈ state.items, (fun item : CartItem => item.id == id) x = true := by
      obtain ⟨x, hx, hid⟩ := h
      exact ⟨x, hx, by simp [hid]⟩
    obtain ⟨y, hy⟩ := find?_some_of_exists _ _ hex
    simp only [updateQuantity, hy, hnot, hq, if_false, if_true, filter_ne_id,
      calculateTotals_total, and_self]
  have hitems : (updateQuantity state { id := id, quantity := q }).items
      = state.items.filter (fun item => decide (item.id ≠ id)) := by
    by_cases h : ∃ item ∈ state.items, item.id = id
    · exact (hpresent h).1
    · have h' : ∀ item ∈ state.items, item.id ≠ id := by
        intro item hitem hid
        exact h ⟨item, hitem, hid⟩
      rw [habsent h', filter_ne_id_self _ _ h']
  refine ⟨?_, hitems, fun h => (hpresent h).2, habsent, ?_⟩
  · intro item hitem
    rw [hitems] at hitem
    simpa using (List.mem_filter.mp hitem).2
  · intro hinv
    by_cases h : ∃ item ∈ state.items, item.id = id
    · rw [(hpresent h).2, (hpresent h).1]
    · have h' : ∀ item ∈ state.items, item.id ≠ id := by
        intro item hitem hid
        exact h ⟨item, hitem, hid⟩
      rw [habsent h']
      exact hinv

/-- Scenario D: setting the quantity of `b1` to 0 in the cart of `b1` and `b2`
leaves the single line `b2` and the total 15. -/
theorem updateQuantity_nonpositive_removes_witness :
    (0 : Int) ≤ 0 ∧
    ((∀ item ∈ (updateQuantity cartB1B2 { id := some "b1", quantity := 0 }).items,
        item.id ≠ some "b1") ∧
      (updateQuantity cartB1B2 { id := some "b1", quantity := 0 }).items
        = cartB1B2.items.filter (fun item => decide (item.id ≠ some "b1")) ∧
      ((∃ item ∈ cartB1B2.items, item.id = some "b1") →
        (updateQuantity cartB1B2 { id := some "b1", quantity := 0 }).total
          = sumPriceQuantity
              (cartB1B2.items.filter (fun item => decide (item.id ≠ some "b1")))) ∧
      ((∀ item ∈ cartB1B2.items, item.id ≠ some "b1") →
        updateQuantity cartB1B2 { id := some "b1", quantity := 0 } = cartB1B2) ∧
      (cartB1B2.total = sumPriceQuantity cartB1B2.items →
        (updateQuantity cartB1B2 { id := some "b1", quantity := 0 }).total
          = sumPriceQuantity
              (updateQuantity cartB1B2 { id := some "b1", quantity := 0 }).items)) ∧
    cartB1B2.total = 35 ∧
    (updateQuantity cartB1B2 { id := some "b1", quantity := 0 }).items
      = [{ id := some "b2", title := "Book Two", author := "Author Two", price := 15,
           coverImageUrl := "", category := some "Fiction", quantity := 1 }] ∧
    (updateQuantity cartB1B2 { id := some "b1", quantity := 0 }).total = 15 := by
  refine ⟨le_refl 0,
    updateQuantity_nonpositive_removes cartB1B2 (some "b1") 0 (le_refl 0), ?_, ?_, ?_⟩
  · rw [cartB1B2_eq]
  · rw [cartB1B2_eq]
    simp [updateQuantity]
  · rw [cartB1B2_eq]
    simp [updateQuantity, calculateTotals]

/-- C4: for every cart state, id and quantity `q > 0`: if an item with that id
is present, `updateQuantity` sets the quantity of that item (the first such
item of the list) to exactly `q` and leaves every other item and the order
unchanged; if no item has that id, the entire cart state (items, total,
itemCount, coupon fields) is unchanged. -/
theorem updateQuantity_positive_sets (state : CartState) (id : Option String)
    (q : Int) (hq : q > 0) :
    ((∃ item ∈ state.items, item.id = id) →
      ∃ pre item post,
        state.items = pre ++ item :: post ∧
        (∀ other ∈ pre, other.id ≠ id) ∧
        item.id = id ∧
        (updateQuantity state { id := id, quantity := q }).items
          = pre ++ { item with quantity := q } :: post) ∧
    ((∀ item ∈ state.items, item.id ≠ id) →
      updateQuantity state { id := id, quantity := q } = state) := by
  constructor
  · intro h
    have hex : ∃ x ∈ state.items, (fun item : CartItem => item.id == id) x = true := by
      obtain ⟨x, hx, hid⟩ := h
      exact ⟨x, hx, by simp [hid]⟩
    obtain ⟨y, hy⟩ := find?_some_of_exists _ _ hex
    obtain ⟨pre, x, post, hl, hpre, hx, hm⟩ :=
      mutateFirst_split (fun item : CartItem => item.id == id)
        (fun item => { item with quantity := q }) state.items hex
    refine ⟨pre, x, post, hl, ?_, by simpa using hx, ?_⟩
    · intro other ho
      simpa using hpre other ho
    · simp only [updateQuantity, hy, hq, if_true]
      exact hm
  · intro h
    have hnone := (find?_id_none_iff state.items id).mpr h
    simp only [updateQuantity, hnone]

/-- Setting the quantity of `b1` to 5 in the cart of `b1` and `b2` changes that
line only; setting the quantity of the unknown `b9` changes nothing. -/
theorem updateQuantity_positive_sets_witness :
    (5 : Int) > 0 ∧
    (∃ item ∈ cartB1B2.items, item.id = some "b1") ∧
    (∃ pre item post,
        cartB1B2.items = pre ++ item :: post ∧
        (∀ other ∈ pre, other.id ≠ some "b1") ∧
        item.id = some "b1" ∧
        (updateQuantity cartB1B2 { id := some "b1", quantity := 5 }).items
          = pre ++ { item with quantity := 5 } :: post) ∧
    (updateQuantity cartB1B2 { id := some "b1", quantity := 5 }).items
      = [{ id := some "b1", title := "Book One", author := "Author One", price := 10,
           coverImageUrl := "", category := none, quantity := 5 },
         { id := some "b2", title := "Book Two", author := "Author Two", price := 15,
           coverImageUrl := "", category := some "Fiction", quantity := 1 }] ∧
    (∀ item ∈ cartB1B2.items, item.id ≠ some "b9") ∧
    updateQuantity cartB1B2 { id := some "b9", quantity := 5 } = cartB1B2 := by
  have hpos : (5 : Int) > 0 := by decide
  have hpresent : ∃ item ∈ cartB1B2.items, item.id = some "b1" := by
    rw [cartB1B2_eq]; simp
  have habsent : ∀ item ∈ cartB1B2.items, item.id ≠ some "b9" := by
    rw [cartB1B2_eq]; simp
  refine ⟨hpos, hpresent,
    (updateQuantity_positive_sets cartB1B2 (some "b1") 5 hpos).1 hpresent, ?_, habsent,
    (updateQuantity_positive_sets cartB1B2 (some "b9") 5 hpos).2 habsent⟩
  rw [cartB1B2_eq]
  simp [updateQuantity, mutateFirst]

/-- C5: for every cart state and id: if an item with that id is present,
`removeFromCart` yields exactly the old item list with the items of that id
deleted (other items unchanged, order preserved) and `total` recomputed as the
sum of price × quantity over the remaining items; if absent, the entire cart
state is unchanged. -/
theorem removeFromCart_deletes_or_keeps (state : CartState) (id : Option String) :
    ((∃ item ∈ state.items, item.id = id) →
      (removeFromCart state { bookId := id }).items
          = state.items.filter (fun item => decide (item.id ≠ id)) ∧
        (removeFromCart state { bookId := id }).total
          = sumPriceQuantity (removeFromCart state { bookId := id }).items) ∧
    ((∀ item ∈ state.items, item.id ≠ id) →
      removeFromCart state { bookId := id } = state) := by
  constructor
  · intro h
    rw [removeFromCart_present state id h]
    exact ⟨rfl, rfl⟩
  · exact removeFromCart_absent state id

/-- Removing `b1` from the cart of `b1` and `b2` leaves the line `b2` and the
total 15; removing the unknown `b9` changes nothing. -/
theorem removeFromCart_deletes_or_keeps_witness :
    (∃ item ∈ cartB1B2.items, item.id = some "b1") ∧
    ((removeFromCart cartB1B2 { bookId := some "b1" }).items
        = cartB1B2.items.filter (fun item => decide (item.id ≠ some "b1")) ∧
      (removeFromCart cartB1B2 { bookId := some "b1" }).total
        = sumPriceQuantity (removeFromCart cartB1B2 { bookId := some "b1" }).items) ∧
    (removeFromCart cartB1B2 { bookId := some "b1" }).items
      = [{ id := some "b2", title := "Book Two", author := "Author Two", price := 15,
           coverImageUrl := "", category := some "Fiction", quantity := 1 }] ∧
    (removeFromCart cartB1B2 { bookId := some "b1" }).total = 15 ∧
    (∀ item ∈ cartB1B2.items, item.id ≠ some "b9") ∧
    removeFromCart cartB1B2 { bookId := some "b9" } = cartB1B2 := by
  have hpresent : ∃ item ∈ cartB1B2.items, item.id = some "b1" := by
    rw [cartB1B2_eq]; simp
  have habsent : ∀ item ∈ cartB1B2.items, item.id ≠ some "b9" := by
    rw [cartB1B2_eq]; simp
  refine ⟨hpresent, (removeFromCart_deletes_or_keeps cartB1B2 (some "b1")).1 hpresent,
    ?_, ?_, habsent, (removeFromCart_deletes_or_keeps cartB1B2 (some "b9")).2 habsent⟩
  · rw [cartB1B2_eq]
    simp [removeFromCart]
  · rw [cartB1B2_eq]
    simp [removeFromCart, calculateTotals]

/-- C6: `removeFromCart` is idempotent: for every cart state and id, removing
the id twice gives the same state as removing it once. -/
theorem removeFromCart_idempotent (state : CartState) (id : Option String) :
    removeFromCart (removeFromCart state { bookId := id }) { bookId := id }
      = removeFromCart state { bookId := id } := by
  by_cases h : ∃ item ∈ state.items, item.id = id
  · apply removeFromCart_absent
    intro item hitem
    rw [removeFromCart_present state id h] at hitem
    simpa using (List.mem_filter.mp hitem).2
  · have h' : ∀ item ∈ state.items, item.id ≠ id := by
      intro item hitem hid
      exact h ⟨item, hitem, hid⟩
    rw [removeFromCart_absent state id h', removeFromCart_absent state id h']

/-- C7, as stated, fails on a cart whose total is 0: with one free book in the
cart, the input `nafiu` is a valid code, yet after the handler and the reducer
no coupon code, discount or final total is recorded. -/
theorem applyCoupon_every_state_counterexample :
    toUpperCase "nafiu" = "NAFIU" ∧
    cartFree.items ≠ [] ∧
    cartFree.total = 0 ∧
    (dispatchAll cartFree
      (handleApplyCoupon toUpperCase { couponInput := "nafiu", couponMessage := "" }).dispatched)
      = cartFree ∧
    ¬ ((dispatchAll cartFree
          (handleApplyCoupon toUpperCase
              { couponInput := "nafiu", couponMessage := "" }).dispatched).discount
          = some (cartFree.total * 20 / 100) ∧
        (dispatchAll cartFree
          (handleApplyCoupon toUpperCase
              { couponInput := "nafiu", couponMessage := "" }).dispatched).couponCode
          = some "NAFIU" ∧
        (dispatchAll cartFree
          (handleApplyCoupon toUpperCase
              { couponInput := "nafiu", couponMessage := "" }).dispatched).finalTotal
          = some (cartFree.total - cartFree.total * 20 / 100)) := by
  have hrun : dispatchAll cartFree
      (handleApplyCoupon toUpperCase { couponInput := "nafiu", couponMessage := "" }).dispatched
      = cartFree := by
    rw [handleApplyCoupon_nafiu, cartFree_eq]
    simp [dispatchAll, cartReducer, applyCoupon]
  refine ⟨by decide, ?_, ?_, hrun, ?_⟩
  · rw [cartFree_eq]; simp
  · rw [cartFree_eq]
  · rw [hrun, cartFree_eq]
    simp

/-- C7, amended: for every cart state whose total is positive and every coupon
input that equals, ignoring letter case, one of NAFIU, WELCOME10, SAVE15,
BOOKBAZAR, applying the coupon (`handleApplyCoupon` followed by the
`applyCoupon` reducer) sets discount = total × pct/100 with pct 20, 10, 15, 25
respectively, sets couponCode to the upper-cased code, and sets
finalTotal = total − discount. -/
theorem applyCoupon_valid_code (upper : String → String) (state : CartState)
    (page : CartPageState) (code : String) (pct : ℚ)
    (hvalid : (code, pct) ∈
      [("NAFIU", (20 : ℚ)), ("WELCOME10", 10), ("SAVE15", 15), ("BOOKBAZAR", 25)])
    (hinput : upper page.couponInput = code)
    (htotal : state.total > 0) :
    (dispatchAll state (handleApplyCoupon upper page).dispatched).discount
      = some (state.total * pct / 100) ∧
    (dispatchAll state (handleApplyCoupon upper page).dispatched).couponCode = some code ∧
    (dispatchAll state (handleApplyCoupon upper page).dispatched).finalTotal
      = some (state.total - state.total * pct / 100) := by
  have hlookup : validCoupons.lookup (upper page.couponInput) = some pct ∧ pct ≠ 0 := by
    rw [hinput]
    simp only [List.mem_cons, Prod.mk.injEq, List.mem_singleton, List.not_mem_nil,
      or_false] at hvalid
    rcases hvalid with ⟨hc, hp⟩ | ⟨hc, hp⟩ | ⟨hc, hp⟩ | ⟨hc, hp⟩ <;>
      subst hc <;> subst hp <;> simp [validCoupons, List.lookup]
  rw [handleApplyCoupon_of_lookup_some upper page pct hlookup.1 hlookup.2, hinput]
  simp [dispatchAll, cartReducer, applyCoupon, htotal]

/-- Scenario C: with total 100 the input `nafiu` gives discount 20, coupon code
NAFIU and final total 80. -/
theorem applyCoupon_valid_code_witness :
    ("NAFIU", (20 : ℚ)) ∈
      [("NAFIU", (20 : ℚ)), ("WELCOME10", 10), ("SAVE15", 15), ("BOOKBAZAR", 25)] ∧
    toUpperCase "nafiu" = "NAFIU" ∧
    cartHundred.total > 0 ∧
    ((dispatchAll cartHundred
        (handleApplyCoupon toUpperCase
            { couponInput := "nafiu", couponMessage := "" }).dispatched).discount
        = some (cartHundred.total * 20 / 100) ∧
      (dispatchAll cartHundred
        (handleApplyCoupon toUpperCase
            { couponInput := "nafiu", couponMessage := "" }).dispatched).couponCode
        = some "NAFIU" ∧
      (dispatchAll cartHundred
        (handleApplyCoupon toUpperCase
            { couponInput := "nafiu", couponMessage := "" }).dispatched).finalTotal
        = some (cartHundred.total - cartHundred.total * 20 / 100)) ∧
    cartHundred.total = 100 ∧
    cartHundredNafiu.discount = some 20 ∧
    cartHundredNafiu.finalTotal = some 80 := by
  have hmem : ("NAFIU", (20 : ℚ)) ∈
      [("NAFIU", (20 : ℚ)), ("WELCOME10", 10), ("SAVE15", 15), ("BOOKBAZAR", 25)] := by
    simp
  have hup : toUpperCase "nafiu" = "NAFIU" := by decide
  have hpos : cartHundred.total > 0 := by
    rw [cartHundred_eq]; norm_num
  refine ⟨hmem, hup, hpos,
    applyCoupon_valid_code toUpperCase cartHundred
      { couponInput := "nafiu", couponMessage := "" } "NAFIU" 20 hmem hup hpos, ?_, ?_, ?_⟩
  · rw [cartHundred_eq]
  · rw [cartHundredNafiu_eq]
  · rw [cartHundredNafiu_eq]

/-- C8: for every cart state and every coupon input whose upper-cased form is
not one of NAFIU, WELCOME10, SAVE15, BOOKBAZAR, `handleApplyCoupon` dispatches
nothing, so the cart state (any discount already present included) is
unchanged, and the outcome is the message `Invalid coupon code`, returned as
the page state and not raised. The upper-cased form is what the upper-casing
function of the engine returns, whatever that function is: an input such as
`ſave15`, which the engine upper-cases to SAVE15, is a valid code and not in
the scope of this statement. -/
theorem handleApplyCoupon_invalid_code (upper : String → String) (state : CartState)
    (page : CartPageState)
    (hinvalid : upper page.couponInput ∉ ["NAFIU", "WELCOME10", "SAVE15", "BOOKBAZAR"]) :
    (handleApplyCoupon upper page).dispatched = [] ∧
    dispatchAll state (handleApplyCoupon upper page).dispatched = state ∧
    (handleApplyCoupon upper page).page.couponMessage = "Invalid coupon code" ∧
    (handleApplyCoupon upper page).page.couponInput = page.couponInput := by
  have hlookup : validCoupons.lookup (upper page.couponInput) = none := by
    simp only [List.mem_cons, List.mem_singleton, List.not_mem_nil, or_false, not_or]
      at hinvalid
    obtain ⟨h1, h2, h3, h4⟩ := hinvalid
    have b1 : (upper page.couponInput == "NAFIU") = false := beq_false_of_ne h1
    have b2 : (upper page.couponInput == "WELCOME10") = false := beq_false_of_ne h2
    have b3 : (upper page.couponInput == "SAVE15") = false := beq_false_of_ne h3
    have b4 : (upper page.couponInput == "BOOKBAZAR") = false := beq_false_of_ne h4
    simp only [validCoupons, List.lookup, b1, b2, b3, b4]
  rw [handleApplyCoupon_of_lookup_none upper page hlookup]
  exact ⟨rfl, rfl, rfl, rfl⟩

/-- Scenario C, second half: with the coupon NAFIU active on a total of 100,
the input `bogus` is rejected and the discount is still 20. The input made of
a long s (U+017F) and `ave15` upper-cases to SAVE15 and is not an invalid
code. -/
theorem handleApplyCoupon_invalid_code_witness :
    toUpperCase "bogus" ∉ ["NAFIU", "WELCOME10", "SAVE15", "BOOKBAZAR"] ∧
    ((handleApplyCoupon toUpperCase
        { couponInput := "bogus", couponMessage := "" }).dispatched = [] ∧
      dispatchAll cartHundredNafiu
        (handleApplyCoupon toUpperCase { couponInput := "bogus", couponMessage := "" }).dispatched
        = cartHundredNafiu ∧
      (handleApplyCoupon toUpperCase
          { couponInput := "bogus", couponMessage := "" }).page.couponMessage
        = "Invalid coupon code" ∧
      (handleApplyCoupon toUpperCase
          { couponInput := "bogus", couponMessage := "" }).page.couponInput
        = "bogus") ∧
    cartHundredNafiu.discount = some 20 ∧
    toUpperCase (String.mk [Char.ofNat 0x17F, 'a', 'v', 'e', '1', '5']) = "SAVE15" := by
  have hbogus : toUpperCase "bogus" ∉ ["NAFIU", "WELCOME10", "SAVE15", "BOOKBAZAR"] := by
    decide
  refine ⟨hbogus,
    handleApplyCoupon_invalid_code toUpperCase cartHundredNafiu
      { couponInput := "bogus", couponMessage := "" } hbogus, ?_, by decide⟩
  rw [cartHundredNafiu_eq]

/-- C9, as stated, fails on a run that loads a snapshot: the snapshot carrying
a discount and no coupon code leaves the cart with a discount that is defined
and a coupon code that is not. -/
theorem coupon_pairing_counterexample :
    (dispatchAll initialState
      [CartAction.loadCartFromBackend snapshotDiscountOnly]).discount = some 5 ∧
    (dispatchAll initialState
      [CartAction.loadCartFromBackend snapshotDiscountOnly]).couponCode = none ∧
    ¬ ((dispatchAll initialState
          [CartAction.loadCartFromBackend snapshotDiscountOnly]).discount ≠ none ↔
        (dispatchAll initialState
          [CartAction.loadCartFromBackend snapshotDiscountOnly]).couponCode ≠ none) := by
  simp [dispatchAll, cartReducer, loadCartFromBackend, snapshotDiscountOnly]

/-- C9, amended: in every cart state reachable from the initial state by any
sequence of cart actions (addToCart, removeFromCart, updateQuantity, clearCart,
applyCoupon, removeCoupon, loadCartFromBackend) in which every snapshot loaded
carries a discount if and only if it carries a coupon code, discount is
defined if and only if couponCode is defined. -/
theorem coupon_pairing_reachable (actions : List CartAction)
    (hload : ∀ cartData, CartAction.loadCartFromBackend cartData ∈ actions →
      (cartData.discount ≠ none ↔ cartData.couponCode ≠ none)) :
    (dispatchAll initialState actions).discount ≠ none ↔
      (dispatchAll initialState actions).couponCode ≠ none :=
  dispatchAll_paired actions initialState (by simp [initialState]) hload

/-- A run over the seven actions, and its first five actions, which end on the
loaded snapshot with discount 3 and code SAVE15. -/
theorem coupon_pairing_reachable_witness :
    (∀ cartData, CartAction.loadCartFromBackend cartData ∈ actionsWithPairedSnapshot →
      (cartData.discount ≠ none ↔ cartData.couponCode ≠ none)) ∧
    ((dispatchAll initialState actionsWithPairedSnapshot).discount ≠ none ↔
      (dispatchAll initialState actionsWithPairedSnapshot).couponCode ≠ none) ∧
    (∀ cartData,
      CartAction.loadCartFromBackend cartData ∈ actionsWithPairedSnapshot.take 5 →
      (cartData.discount ≠ none ↔ cartData.couponCode ≠ none)) ∧
    ((dispatchAll initialState (actionsWithPairedSnapshot.take 5)).discount ≠ none ↔
      (dispatchAll initialState (actionsWithPairedSnapshot.take 5)).couponCode ≠ none) ∧
    (dispatchAll initialState (actionsWithPairedSnapshot.take 5)).discount = some 3 ∧
    (dispatchAll initialState (actionsWithPairedSnapshot.take 5)).couponCode = some "SAVE15" := by
  have hall : ∀ cartData,
      CartAction.loadCartFromBackend cartData ∈ actionsWithPairedSnapshot →
      (cartData.discount ≠ none ↔ cartData.couponCode ≠ none) := by
    intro cartData hmem
    simp [actionsWithPairedSnapshot] at hmem
    subst hmem
    simp [snapshotWithCoupon]
  have hfive : ∀ cartData,
      CartAction.loadCartFromBackend cartData ∈ actionsWithPairedSnapshot.take 5 →
      (cartData.discount ≠ none ↔ cartData.couponCode ≠ none) := by
    intro cartData hmem
    exact hall cartData (List.mem_of_mem_take hmem)
  refine ⟨hall, coupon_pairing_reachable actionsWithPairedSnapshot hall, hfive,
    coupon_pairing_reachable (actionsWithPairedSnapshot.take 5) hfive, ?_, ?_⟩
  · simp [actionsWithPairedSnapshot, dispatchAll, cartReducer, loadCartFromBackend,
      snapshotWithCoupon]
  · simp [actionsWithPairedSnapshot, dispatchAll, cartReducer, loadCartFromBackend,
      snapshotWithCoupon]

/-- C10, as stated, fails on a cart edited while a coupon is active: two copies
of `b1` (total 20), coupon NAFIU (discount 4, final total 16), one more copy
(total 30): the discount is present and the final total is still 16, not 26. -/
theorem finalTotal_stale_counterexample :
    (dispatchAll initialState actionsEditAfterCoupon).discount = some 4 ∧
    (dispatchAll initialState actionsEditAfterCoupon).total = 30 ∧
    (dispatchAll initialState actionsEditAfterCoupon).finalTotal = some 16 ∧
    ¬ (∀ d, (dispatchAll initialState actionsEditAfterCoupon).discount = some d →
        (dispatchAll initialState actionsEditAfterCoupon).finalTotal
          = some ((dispatchAll initialState actionsEditAfterCoupon).total - d)) := by
  rw [dispatchAll_actionsEditAfterCoupon]
  refine ⟨rfl, rfl, rfl, ?_⟩
  intro h
  have h4 := h 4 rfl
  simp only [Option.some.injEq] at h4
  norm_num at h4

/-- C10, amended: in every cart state reachable from the initial state by any
sequence of addToCart, removeFromCart, updateQuantity, clearCart, applyCoupon
and removeCoupon actions in which the cart is edited (addToCart,
removeFromCart, updateQuantity, clearCart) only while no discount is present,
whenever discount is present finalTotal equals total − discount. -/
theorem finalTotal_when_edits_precede_coupon (actions : List CartAction)
    (hrun : editsOnlyWithoutDiscount initialState actions = true) (d : ℚ)
    (hd : (dispatchAll initialState actions).discount = some d) :
    (dispatchAll initialState actions).finalTotal
      = some ((dispatchAll initialState actions).total - d) :=
  dispatchAll_finalTotal actions initialState
    (by intro d hd; simp [initialState] at hd) hrun d hd

/-- The coupon is removed before the third copy of `b1` is added and a coupon
is applied again: total 30, discount 3, final total 27. -/
theorem finalTotal_when_edits_precede_coupon_witness :
    editsOnlyWithoutDiscount initialState actionsCouponRemovedBeforeEdit = true ∧
    (dispatchAll initialState actionsCouponRemovedBeforeEdit).discount = some 3 ∧
    (dispatchAll initialState actionsCouponRemovedBeforeEdit).finalTotal
      = some ((dispatchAll initialState actionsCouponRemovedBeforeEdit).total - 3) ∧
    (dispatchAll initialState actionsCouponRemovedBeforeEdit).total = 30 ∧
    (dispatchAll initialState actionsCouponRemovedBeforeEdit).finalTotal = some 27 := by
  have hrun : editsOnlyWithoutDiscount initialState actionsCouponRemovedBeforeEdit = true := by
    simp [actionsCouponRemovedBeforeEdit, editsOnlyWithoutDiscount, cartReducer, addToCart,
      applyCoupon, removeCoupon, initialState]
  have hd : (dispatchAll initialState actionsCouponRemovedBeforeEdit).discount = some 3 := by
    rw [dispatchAll_actionsCouponRemovedBeforeEdit]
  refine ⟨hrun, hd,
    finalTotal_when_edits_precede_coupon actionsCouponRemovedBeforeEdit hrun 3 hd, ?_, ?_⟩
  · rw [dispatchAll_actionsCouponRemovedBeforeEdit]
  · rw [dispatchAll_actionsCouponRemovedBeforeEdit]

/-- C11: after `clearCart` the item list is empty and total and itemCount are
0, but the coupon is not cleared: on the cart of total 100 with the coupon
NAFIU active, discount, couponCode and finalTotal are still 20, NAFIU and 80
once the cart is cleared, where the claim has all three absent. -/
theorem clearCart_keeps_coupon :
    (clearCart cartHundredNafiu).items = [] ∧
    (clearCart cartHundredNafiu).total = 0 ∧
    (clearCart cartHundredNafiu).itemCount = 0 ∧
    (clearCart cartHundredNafiu).discount = some 20 ∧
    (clearCart cartHundredNafiu).couponCode = some "NAFIU" ∧
    (clearCart cartHundredNafiu).finalTotal = some 80 ∧
    ¬ ((clearCart cartHundredNafiu).discount = none ∧
        (clearCart cartHundredNafiu).couponCode = none ∧
        (clearCart cartHundredNafiu).finalTotal = none) := by
  rw [clearCart_cartHundredNafiu]
  simp

/-- C12: for every cart state, with or without an active coupon, after
`removeCoupon` the fields discount, couponCode and finalTotal are all absent,
and items, total and itemCount (and loading and error) are unchanged. -/
theorem removeCoupon_clears_coupon_only (state : CartState) :
    (removeCoupon state).discount = none ∧
    (removeCoupon state).couponCode = none ∧
    (removeCoupon state).finalTotal = none ∧
    (removeCoupon state).items = state.items ∧
    (removeCoupon state).total = state.total ∧
    (removeCoupon state).itemCount = state.itemCount ∧
    (removeCoupon state).loading = state.loading ∧
    (removeCoupon state).error = state.error :=
  ⟨rfl, rfl, rfl, rfl, rfl, rfl, rfl, rfl⟩

/-- C13: for every prior cart state and every snapshot that carries an item
list, after `loadCartFromBackend` the items of the cart are the items of the
snapshot exactly (same ids, quantities, order) and total is the sum of price ×
quantity over them, whatever total the snapshot carries and whatever the prior
state held; when the snapshot has no item list the cart is empty with total 0. -/
theorem loadCartFromBackend_replaces_items (state : CartState) (items : List CartItem)
    (discount : Option ℚ) (couponCode : Option String) (finalTotal total : Option ℚ) :
    (loadCartFromBackend state
      { items := some items, discount := discount, couponCode := couponCode,
        finalTotal := finalTotal, total := total }).items = items ∧
    (loadCartFromBackend state
      { items := some items, discount := discount, couponCode := couponCode,
        finalTotal := finalTotal, total := total }).total = sumPriceQuantity items ∧
    (loadCartFromBackend state
      { items := none, discount := discount, couponCode := couponCode,
        finalTotal := finalTotal, total := total }).items = [] ∧
    (loadCartFromBackend state
      { items := none, discount := discount, couponCode := couponCode,
        finalTotal := finalTotal, total := total }).total = 0 := by
  refine ⟨rfl, calculateTotals_total items, rfl, ?_⟩
  simp [loadCartFromBackend, calculateTotals]

/-- C14: in every cart state reachable from the empty cart by any sequence of
addToCart, removeFromCart, updateQuantity and clearCart actions (the coupon,
loading and error actions may be among them as well; only snapshot loads are
excluded), for arbitrary books, books whose `_id` and `id` differ included, no
two items share the same id. -/
theorem cart_ids_distinct (actions : List CartAction)
    (hload : ∀ cartData, CartAction.loadCartFromBackend cartData ∉ actions) :
    (dispatchAll initialState actions).items.Pairwise (fun a b => a.id ≠ b.id) := by
  have h := dispatchAll_nodup actions initialState (by simp [initialState]) hload
  exact List.pairwise_map.mp h

/-- A run of eleven edits, one of them adding a book whose `_id` and `id`
differ while both ids are in the cart, and its first three actions. -/
theorem cart_ids_distinct_witness :
    (∀ cartData, CartAction.loadCartFromBackend cartData ∉ actionsEditsOnly) ∧
    (dispatchAll initialState actionsEditsOnly).items.Pairwise (fun a b => a.id ≠ b.id) ∧
    (∀ cartData, CartAction.loadCartFromBackend cartData ∉ actionsEditsOnly.take 3) ∧
    (dispatchAll initialState (actionsEditsOnly.take 3)).items.Pairwise
      (fun a b => a.id ≠ b.id) ∧
    (dispatchAll initialState (actionsEditsOnly.take 3)).items.map (fun item => item.id)
      = [some "b1", some "b2"] ∧
    (dispatchAll initialState (actionsEditsOnly.take 3)).items.map (fun item => item.quantity)
      = [3, 1] := by
  have hthree : ∀ cartData,
      CartAction.loadCartFromBackend cartData ∉ actionsEditsOnly.take 3 :=
    fun cartData hmem => actionsEditsOnly_no_load cartData (List.mem_of_mem_take hmem)
  refine ⟨actionsEditsOnly_no_load, cart_ids_distinct actionsEditsOnly actionsEditsOnly_no_load,
    hthree, cart_ids_distinct (actionsEditsOnly.take 3) hthree, ?_, ?_⟩
  · simp [actionsEditsOnly, dispatchAll, cartReducer, addToCart, initialState, bookB1, bookB2,
      bookDual, newCartItem, matchesBook, jsOr, truthy, mutateFirst]
  · simp [actionsEditsOnly, dispatchAll, cartReducer, addToCart, initialState, bookB1, bookB2,
      bookDual, newCartItem, matchesBook, jsOr, truthy, mutateFirst]

/-- C15: in every cart state reachable from the empty cart by any sequence of
addToCart (called with quantity ≥ 1, a quantity left out counting as 1),
removeFromCart, updateQuantity (called with any integer quantity) and clearCart
actions, every item present has quantity ≥ 1. -/
theorem cart_quantities_at_least_one (actions : List CartAction)
    (hload : ∀ cartData, CartAction.loadCartFromBackend cartData ∉ actions)
    (hadd : ∀ payload, CartAction.addToCart payload ∈ actions →
      payload.quantity.getD 1 ≥ 1) :
    ∀ item ∈ (dispatchAll initialState actions).items, item.quantity ≥ 1 :=
  dispatchAll_quantity actions initialState (by simp [initialState]) hload hadd

/-- The run of eleven edits, with updateQuantity called with 4, 0 and −2, ends
on one line of quantity 3. -/
theorem cart_quantities_at_least_one_witness :
    (∀ cartData, CartAction.loadCartFromBackend cartData ∉ actionsEditsOnly) ∧
    (∀ payload, CartAction.addToCart payload ∈ actionsEditsOnly →
      payload.quantity.getD 1 ≥ 1) ∧
    (∀ item ∈ (dispatchAll initialState actionsEditsOnly).items, item.quantity ≥ 1) ∧
    (dispatchAll initialState actionsEditsOnly).items.map (fun item => item.quantity) = [3] := by
  have hadd : ∀ payload, CartAction.addToCart payload ∈ actionsEditsOnly →
      payload.quantity.getD 1 ≥ 1 := by
    intro payload hmem
    simp only [actionsEditsOnly, List.mem_cons, CartAction.addToCart.injEq, List.mem_singleton,
      List.not_mem_nil, or_false, reduceCtorEq, false_or] at hmem
    rcases hmem with h | h | h | h | h | h <;> subst h <;> simp
  refine ⟨actionsEditsOnly_no_load, hadd,
    cart_quantities_at_least_one actionsEditsOnly actionsEditsOnly_no_load hadd, ?_⟩
  rw [dispatchAll_actionsEditsOnly]
  rfl

/-- C16, as stated, fails: nothing is clamped. Adding `b1` with quantity 0 to
the empty cart stores a line of quantity 0, and adding `b1` with quantity −5 to
the cart holding two copies of it leaves that line with quantity −3. -/
theorem addToCart_clamp_counterexample :
    (0 : Int) ≤ 0 ∧
    (addToCart initialState { book := bookB1, quantity := some 0 }).items
      = [{ id := some "b1", title := "Book One", author := "Author One", price := 10,
           coverImageUrl := "", category := none, quantity := 0 }] ∧
    ¬ (∀ item ∈ (addToCart initialState { book := bookB1, quantity := some 0 }).items,
        item.quantity ≥ 1) ∧
    (-5 : Int) ≤ 0 ∧
    (addToCart cartB1 { book := bookB1, quantity := some (-5) }).items
      = [{ id := some "b1", title := "Book One", author := "Author One", price := 10,
           coverImageUrl := "", category := none, quantity := -3 }] ∧
    ¬ (∀ item ∈ (addToCart cartB1 { book := bookB1, quantity := some (-5) }).items,
        item.quantity ≥ 1) := by
  have h0 : (addToCart initialState { book := bookB1, quantity := some 0 }).items
      = [{ id := some "b1", title := "Book One", author := "Author One", price := 10,
           coverImageUrl := "", category := none, quantity := 0 }] := by
    simp [addToCart, initialState, bookB1, newCartItem, matchesBook, jsOr, truthy]
  have h5 : (addToCart cartB1 { book := bookB1, quantity := some (-5) }).items
      = [{ id := some "b1", title := "Book One", author := "Author One", price := 10,
           coverImageUrl := "", category := none, quantity := -3 }] := by
    rw [cartB1_eq]
    simp [addToCart, bookB1, matchesBook, mutateFirst]
  refine ⟨by decide, h0, ?_, by decide, h5, ?_⟩
  · rw [h0]; simp
  · rw [h5]; simp

/-- C16, amended: `addToCart` stores a malformed quantity as it is given. For
every cart state, book and quantity `q ≤ 0`: when no item matches the book, the
item appended has quantity `q` itself; and after `addToCart` every item of the
cart has quantity ≥ 1 if and only if some item matches the book, the first such
item had a quantity of at least `1 − q`, and every other item had quantity ≥ 1. -/
theorem addToCart_stores_quantity_unclamped (state : CartState) (book : Book) (q : Int)
    (hq : q ≤ 0) :
    ((∀ item ∈ state.items, ¬ (item.id = book._id ∨ item.id = book.id)) →
      (addToCart state { book := book, quantity := some q }).items
        = state.items ++
            [{ id := jsOr book._id book.id, title := book.title, author := book.author,
               price := book.price, coverImageUrl := book.coverImageUrl,
               category := book.category, quantity := q }]) ∧
    ((∀ item ∈ (addToCart state { book := book, quantity := some q }).items,
        item.quantity ≥ 1) ↔
      ∃ pre item post,
        state.items = pre ++ item :: post ∧
        (∀ other ∈ pre, ¬ (other.id = book._id ∨ other.id = book.id)) ∧
        (item.id = book._id ∨ item.id = book.id) ∧
        item.quantity + q ≥ 1 ∧
        (∀ other ∈ pre, other.quantity ≥ 1) ∧
        (∀ other ∈ post, other.quantity ≥ 1)) := by
  have hno : (∀ item ∈ state.items, ¬ (item.id = book._id ∨ item.id = book.id)) →
      (addToCart state { book := book, quantity := some q }).items
        = state.items ++ [newCartItem book q] := by
    intro h
    apply addToCart_items_of_no_match state { book := book, quantity := some q }
    intro x hx
    cases hb : matchesBook book x with
    | false => rfl
    | true => exact absurd ((matchesBook_iff book x).mp hb) (h x hx)
  refine ⟨hno, ?_, ?_⟩
  · intro hall
    rcases exists_or_forall_matchesBook book state.items with h | h
    · obtain ⟨pre, x, post, hl, hpre, hx, hm⟩ :=
        mutateFirst_split (matchesBook book)
          (fun item => { item with quantity := item.quantity + q }) state.items h
      have hitems := addToCart_items_of_match state { book := book, quantity := some q } h
      simp only [Option.getD_some] at hitems
      rw [hitems, hm] at hall
      refine ⟨pre, x, post, hl, ?_, (matchesBook_iff book x).mp hx, ?_, ?_, ?_⟩
      · intro other ho hmatch
        have := hpre other ho
        rw [(matchesBook_iff book other).mpr hmatch] at this
        exact Bool.noConfusion this
      · exact hall _ (List.mem_append_right _ (List.mem_cons_self _ _))
      · intro other ho
        exact hall other (List.mem_append_left _ ho)
      · intro other ho
        exact hall other (List.mem_append_right _ (List.mem_cons_of_mem _ ho))
    · have hitems := addToCart_items_of_no_match state { book := book, quantity := some q } h
      simp only [Option.getD_some] at hitems
      rw [hitems] at hall
      have hlast := hall (newCartItem book q)
        (List.mem_append_right _ (List.mem_singleton.mpr rfl))
      have hlast' : q ≥ 1 := hlast
      omega
  · rintro ⟨pre, x, post, hl, hpre, hx, hsum, hpreq, hpostq⟩
    have hxb : matchesBook book x = true := (matchesBook_iff book x).mpr hx
    have hex : ∃ y ∈ state.items, matchesBook book y = true :=
      ⟨x, by rw [hl]; exact List.mem_append_right _ (List.mem_cons_self _ _), hxb⟩
    have hpreb : ∀ y ∈ pre, matchesBook book y = false := by
      intro y hy
      cases hb : matchesBook book y with
      | false => rfl
      | true => exact absurd ((matchesBook_iff book y).mp hb) (hpre y hy)
    have hitems := addToCart_items_of_match state { book := book, quantity := some q } hex
    simp only [Option.getD_some] at hitems
    rw [hitems, hl, mutateFirst_of_split _ _ pre x post hpreb hxb]
    intro item hitem
    rcases List.mem_append.mp hitem with hp | hrest
    · exact hpreq item hp
    · rcases List.mem_cons.mp hrest with hnew | hpost
      · rw [hnew]; exact hsum
      · exact hpostq item hpost

/-- Adding `b1` with quantity 0 to the empty cart appends a line of quantity 0;
adding it with quantity −1 to the cart of two copies of `b1` and one of `b2`
keeps every quantity at 1 or more, the line of `b1` going from 2 to 1. -/
theorem addToCart_stores_quantity_unclamped_witness :
    (0 : Int) ≤ 0 ∧
    (∀ item ∈ initialState.items, ¬ (item.id = bookB1._id ∨ item.id = bookB1.id)) ∧
    (addToCart initialState { book := bookB1, quantity := some 0 }).items
      = initialState.items ++
          [{ id := jsOr bookB1._id bookB1.id, title := bookB1.title, author := bookB1.author,
             price := bookB1.price, coverImageUrl := bookB1.coverImageUrl,
             category := bookB1.category, quantity := 0 }] ∧
    (-1 : Int) ≤ 0 ∧
    (∃ pre item post,
      cartB1B2.items = pre ++ item :: post ∧
      (∀ other ∈ pre, ¬ (other.id = bookB1._id ∨ other.id = bookB1.id)) ∧
      (item.id = bookB1._id ∨ item.id = bookB1.id) ∧
      item.quantity + (-1) ≥ 1 ∧
      (∀ other ∈ pre, other.quantity ≥ 1) ∧
      (∀ other ∈ post, other.quantity ≥ 1)) ∧
    (∀ item ∈ (addToCart cartB1B2 { book := bookB1, quantity := some (-1) }).items,
      item.quantity ≥ 1) ∧
    (addToCart cartB1B2 { book := bookB1, quantity := some (-1) }).items.map
      (fun item => item.quantity) = [1, 1] := by
  have hzero : (0 : Int) ≤ 0 := le_refl 0
  have hneg : (-1 : Int) ≤ 0 := by decide
  have hempty : ∀ item ∈ initialState.items,
      ¬ (item.id = bookB1._id ∨ item.id = bookB1.id) := by
    simp [initialState]
  have hsplit : ∃ pre item post,
      cartB1B2.items = pre ++ item :: post ∧
      (∀ other ∈ pre, ¬ (other.id = bookB1._id ∨ other.id = bookB1.id)) ∧
      (item.id = bookB1._id ∨ item.id = bookB1.id) ∧
      item.quantity + (-1) ≥ 1 ∧
      (∀ other ∈ pre, other.quantity ≥ 1) ∧
      (∀ other ∈ post, other.quantity ≥ 1) := by
    refine ⟨[], { id := some "b1", title := "Book One", author := "Author One", price := 10,
                  coverImageUrl := "", category := none, quantity := 2 },
      [{ id := some "b2", title := "Book Two", author := "Author Two", price := 15,
         coverImageUrl := "", category := some "Fiction", quantity := 1 }],
      ?_, ?_, ?_, ?_, ?_, ?_⟩
    · rw [cartB1B2_eq]; rfl
    · simp
    · simp [bookB1]
    · decide
    · simp
    · simp
  refine ⟨hzero, hempty,
    (addToCart_stores_quantity_unclamped initialState bookB1 0 hzero).1 hempty, hneg, hsplit,
    (addToCart_stores_quantity_unclamped cartB1B2 bookB1 (-1) hneg).2.mpr hsplit, ?_⟩
  rw [cartB1B2_eq]
  simp [addToCart, bookB1, matchesBook, mutateFirst]

/-- C17: the discount is fixed at apply time: for every cart state (one with an
active coupon in particular), `addToCart`, `removeFromCart` and
`updateQuantity` leave discount and couponCode exactly as they were, even when
total changes: one more copy of `b1` in the cart of total 100 with NAFIU active
gives total 110 and leaves the discount at 20. -/
theorem edits_keep_discount_and_code (state : CartState) (add : AddToCartPayload)
    (remove : RemoveFromCartPayload) (update : UpdateQuantityPayload) :
    (addToCart state add).discount = state.discount ∧
    (addToCart state add).couponCode = state.couponCode ∧
    (removeFromCart state remove).discount = state.discount ∧
    (removeFromCart state remove).couponCode = state.couponCode ∧
    (updateQuantity state update).discount = state.discount ∧
    (updateQuantity state update).couponCode = state.couponCode ∧
    cartHundredNafiu.total = 100 ∧
    cartHundredNafiu.discount = some 20 ∧
    (addToCart cartHundredNafiu { book := bookB1, quantity := some 1 }).total = 110 ∧
    (addToCart cartHundredNafiu { book := bookB1, quantity := some 1 }).discount = some 20 ∧
    (addToCart cartHundredNafiu { book := bookB1, quantity := some 1 }).couponCode
      = some "NAFIU" := by
  refine ⟨rfl, rfl, (removeFromCart_discount state remove).1,
    (removeFromCart_discount state remove).2, (updateQuantity_discount state update).1,
    (updateQuantity_discount state update).2, ?_, ?_, ?_, ?_, ?_⟩
  · rw [cartHundredNafiu_eq]
  · rw [cartHundredNafiu_eq]
  · rw [addToCart_cartHundredNafiu]
  · rw [addToCart_cartHundredNafiu]
  · rw [addToCart_cartHundredNafiu]

/-- C18: for every wishlist state and book: if an item with the book's id (its
`_id` or its `id`, the two properties the reducer compares with) is already
present, `addToWishlist` leaves the item list unchanged (no duplicate, count
unchanged; the whole state is unchanged); otherwise the new list is the old
list followed by one new item with the book's id (`_id || id`), its other
properties copied from the book and the date of the call. -/
theorem addToWishlist_keeps_or_appends (state : WishlistState) (book : Book)
    (now : String) :
    ((∃ item ∈ state.items, item.id = book._id ∨ item.id = book.id) →
      (addToWishlist state { book := book } now).items = state.items ∧
      (addToWishlist state { book := book } now).items.length = state.items.length ∧
      addToWishlist state { book := book } now = state) ∧
    ((∀ item ∈ state.items, ¬ (item.id = book._id ∨ item.id = book.id)) →
      (addToWishlist state { book := book } now).items
        = state.items ++
            [{ id := jsOr book._id book.id, title := book.title, author := book.author,
               price := book.price, coverImageUrl := book.coverImageUrl,
               category := book.category, averageRating := book.averageRating,
               reviewCount := book.reviewCount, dateAdded := now }]) := by
  constructor
  · intro h
    have hex : ∃ x ∈ state.items, matchesWishlistBook book x = true := by
      obtain ⟨x, hx, hm⟩ := h
      exact ⟨x, hx, (matchesWishlistBook_iff book x).mpr hm⟩
    have hsame := addToWishlist_of_match state { book := book } now hex
    rw [hsame]
    exact ⟨rfl, rfl, rfl⟩
  · intro h
    have hno : ∀ x ∈ state.items, matchesWishlistBook book x = false :=
      fun x hx => (matchesWishlistBook_false_iff book x).mpr (h x hx)
    rw [addToWishlist_of_no_match state { book := book } now hno]
    rfl

/-- Scenario E: the wishlist holds `b2`; adding `{ id: "b2" }` again makes no
duplicate and the count stays 1; adding `b1` appends it. -/
theorem addToWishlist_keeps_or_appends_witness :
    (∃ item ∈ wishlistB2.items, item.id = bookB2ById._id ∨ item.id = bookB2ById.id) ∧
    ((addToWishlist wishlistB2 { book := bookB2ById } "2024-06-01T10:00:00.000Z").items
        = wishlistB2.items ∧
      (addToWishlist wishlistB2 { book := bookB2ById } "2024-06-01T10:00:00.000Z").items.length
        = wishlistB2.items.length ∧
      addToWishlist wishlistB2 { book := bookB2ById } "2024-06-01T10:00:00.000Z"
        = wishlistB2) ∧
    wishlistB2.items.length = 1 ∧
    (addToWishlist wishlistB2 { book := bookB2ById } "2024-06-01T10:00:00.000Z").items.length
      = 1 ∧
    (∀ item ∈ wishlistB2.items, ¬ (item.id = bookB1._id ∨ item.id = bookB1.id)) ∧
    (addToWishlist wishlistB2 { book := bookB1 } "2024-05-02T10:00:00.000Z").items
      = wishlistB2.items ++
          [{ id := jsOr bookB1._id bookB1.id, title := bookB1.title, author := bookB1.author,
             price := bookB1.price, coverImageUrl := bookB1.coverImageUrl,
             category := bookB1.category, averageRating := bookB1.averageRating,
             reviewCount := bookB1.reviewCount, dateAdded := "2024-05-02T10:00:00.000Z" }] ∧
    (addToWishlist wishlistB2 { book := bookB1 } "2024-05-02T10:00:00.000Z").items.map
      (fun item => item.id) = [some "b2", some "b1"] := by
  have hpresent : ∃ item ∈ wishlistB2.items,
      item.id = bookB2ById._id ∨ item.id = bookB2ById.id := by
    rw [wishlistB2_eq]; simp [bookB2ById]
  have habsent : ∀ item ∈ wishlistB2.items,
      ¬ (item.id = bookB1._id ∨ item.id = bookB1.id) := by
    rw [wishlistB2_eq]; simp [bookB1]
  have hkeep :=
    (addToWishlist_keeps_or_appends wishlistB2 bookB2ById "2024-06-01T10:00:00.000Z").1 hpresent
  have hone : wishlistB2.items.length = 1 := by
    rw [wishlistB2_eq]; rfl
  refine ⟨hpresent, hkeep, hone, hkeep.2.1.trans hone, habsent,
    (addToWishlist_keeps_or_appends wishlistB2 bookB1 "2024-05-02T10:00:00.000Z").2 habsent, ?_⟩
  have h := wishlistB2B1_eq
  rw [wishlistB2B1] at h
  rw [h]
  rfl

/-- C19: in every wishlist state reachable from the empty wishlist by any
sequence of addToWishlist, removeFromWishlist and clearWishlist actions (the
loading and error actions may be among them as well; only snapshot loads are
excluded), no two items share the same id. -/
theorem wishlist_ids_distinct (actions : List WishlistAction)
    (hload : ∀ wishlistData,
      WishlistAction.loadWishlistFromBackend wishlistData ∉ actions) :
    (dispatchAllWishlist wishlistInitialState actions).items.Pairwise
      (fun a b => a.id ≠ b.id) := by
  have h := dispatchAllWishlist_nodup actions wishlistInitialState
    (by simp [wishlistInitialState]) hload
  exact List.pairwise_map.mp h

/-- A run of nine wishlist actions with repeated adds, and its first four
actions, after which the wishlist holds `b2` and `b1` once each. -/
theorem wishlist_ids_distinct_witness :
    (∀ wishlistData,
      WishlistAction.loadWishlistFromBackend wishlistData ∉ wishlistActions) ∧
    (dispatchAllWishlist wishlistInitialState wishlistActions).items.Pairwise
      (fun a b => a.id ≠ b.id) ∧
    (∀ wishlistData,
      WishlistAction.loadWishlistFromBackend wishlistData ∉ wishlistActions.take 4) ∧
    (dispatchAllWishlist wishlistInitialState (wishlistActions.take 4)).items.Pairwise
      (fun a b => a.id ≠ b.id) ∧
    (dispatchAllWishlist wishlistInitialState (wishlistActions.take 4)).items.map
      (fun item => item.id) = [some "b2", some "b1"] := by
  have hfour : ∀ wishlistData,
      WishlistAction.loadWishlistFromBackend wishlistData ∉ wishlistActions.take 4 :=
    fun wishlistData hmem => wishlistActions_no_load wishlistData (List.mem_of_mem_take hmem)
  refine ⟨wishlistActions_no_load, wishlist_ids_distinct wishlistActions wishlistActions_no_load,
    hfour, wishlist_ids_distinct (wishlistActions.take 4) hfour, ?_⟩
  simp [wishlistActions, dispatchAllWishlist, wishlistReducer, addToWishlist,
    wishlistInitialState, bookB1, bookB2, bookDual, bookB2ById, newWishlistItem,
    matchesWishlistBook, jsOr, truthy]

/-- C20: for every wishlist state and id: `removeFromWishlist` deletes exactly
the items with that id (others unchanged, order preserved, the rest of the
state unchanged) when one is present, leaves the state unchanged when none is,
and is idempotent (applying it twice equals applying it once). -/
theorem removeFromWishlist_deletes_keeps_idempotent (state : WishlistState)
    (id : Option String) :
    ((∃ item ∈ state.items, item.id = id) →
      removeFromWishlist state { bookId := id }
        = { state with items := state.items.filter (fun item => decide (item.id ≠ id)) }) ∧
    ((∀ item ∈ state.items, item.id ≠ id) →
      removeFromWishlist state { bookId := id } = state) ∧
    removeFromWishlist (removeFromWishlist state { bookId := id }) { bookId := id }
      = removeFromWishlist state { bookId := id } := by
  refine ⟨removeFromWishlist_present state id, removeFromWishlist_absent state id, ?_⟩
  by_cases h : ∃ item ∈ state.items, item.id = id
  · apply removeFromWishlist_absent
    intro item hitem
    rw [removeFromWishlist_present state id h] at hitem
    simpa using (List.mem_filter.mp hitem).2
  · have h' : ∀ item ∈ state.items, item.id ≠ id := by
      intro item hitem hid
      exact h ⟨item, hitem, hid⟩
    rw [removeFromWishlist_absent state id h', removeFromWishlist_absent state id h']

/-- Removing `b2` from the wishlist of `b2` and `b1` leaves `b1`; removing the
unknown `b9` changes nothing; removing `b2` twice is removing it once. -/
theorem removeFromWishlist_deletes_keeps_idempotent_witness :
    (∃ item ∈ wishlistB2B1.items, item.id = some "b2") ∧
    removeFromWishlist wishlistB2B1 { bookId := some "b2" }
      = { wishlistB2B1 with
          items := wishlistB2B1.items.filter (fun item => decide (item.id ≠ some "b2")) } ∧
    (removeFromWishlist wishlistB2B1 { bookId := some "b2" }).items.map (fun item => item.id)
      = [some "b1"] ∧
    (∀ item ∈ wishlistB2B1.items, item.id ≠ some "b9") ∧
    removeFromWishlist wishlistB2B1 { bookId := some "b9" } = wishlistB2B1 ∧
    removeFromWishlist (removeFromWishlist wishlistB2B1 { bookId := some "b2" })
        { bookId := some "b2" }
      = removeFromWishlist wishlistB2B1 { bookId := some "b2" } := by
  have hpresent : ∃ item ∈ wishlistB2B1.items, item.id = some "b2" := by
    rw [wishlistB2B1_eq]; simp
  have habsent : ∀ item ∈ wishlistB2B1.items, item.id ≠ some "b9" := by
    rw [wishlistB2B1_eq]; simp
  refine ⟨hpresent,
    (removeFromWishlist_deletes_keeps_idempotent wishlistB2B1 (some "b2")).1 hpresent, ?_,
    habsent,
    (removeFromWishlist_deletes_keeps_idempotent wishlistB2B1 (some "b9")).2.1 habsent,
    (removeFromWishlist_deletes_keeps_idempotent wishlistB2B1 (some "b2")).2.2⟩
  rw [wishlistB2B1_eq]
  simp [removeFromWishlist]

/-- C21: the wishlist queries agree with the mutations. For every store state
and book with id `i`, `selectIsInWishlist(i)` is true after
`addToWishlist(book)`: when both `_id` and `id` of the book are `i`, as the
book card builds it, and when the book has the property `id` alone and every
item of the wishlist has an id; for every book at all, one of its two ids is in
the wishlist after it is added. For every id `i`, `selectIsInWishlist(i)` is
false after `removeFromWishlist(i)`. `selectWishlistCount` is the length of the
item list, and is 0 after `clearWishlist`. -/
theorem wishlist_queries_agree (store : RootState) (book : Book) (i : Option String)
    (now : String) :
    selectIsInWishlist
        (applyEffect store
          (Effect.dispatchWishlist
            (WishlistAction.addToWishlist { book := { book with _id := i, id := i } } now)))
        i = true ∧
    ((∀ item ∈ store.wishlist.items, item.id ≠ none) →
      selectIsInWishlist
          (applyEffect store
            (Effect.dispatchWishlist
              (WishlistAction.addToWishlist
                { book := { book with _id := none, id := i } } now)))
          i = true) ∧
    (selectIsInWishlist
        (applyEffect store
          (Effect.dispatchWishlist (WishlistAction.addToWishlist { book := book } now)))
        book._id = true ∨
      selectIsInWishlist
        (applyEffect store
          (Effect.dispatchWishlist (WishlistAction.addToWishlist { book := book } now)))
        book.id = true) ∧
    selectIsInWishlist
        (applyEffect store
          (Effect.dispatchWishlist (WishlistAction.removeFromWishlist { bookId := i })))
        i = false ∧
    selectWishlistCount store = (selectWishlistItems store).length ∧
    selectWishlistCount
        (applyEffect store (Effect.dispatchWishlist WishlistAction.clearWishlist)) = 0 := by
  have hadd : ∀ b : Book, ∃ x ∈ (addToWishlist store.wishlist { book := b } now).items,
      x.id = b._id ∨ x.id = b.id := by
    intro b
    by_cases h : ∃ x ∈ store.wishlist.items, matchesWishlistBook b x = true
    · rw [addToWishlist_of_match store.wishlist { book := b } now h]
      obtain ⟨x, hx, hm⟩ := h
      exact ⟨x, hx, (matchesWishlistBook_iff b x).mp hm⟩
    · have hno : ∀ x ∈ store.wishlist.items, matchesWishlistBook b x = false := by
        intro x hx
        cases hb : matchesWishlistBook b x with
        | false => rfl
        | true => exact absurd ⟨x, hx, hb⟩ h
      rw [addToWishlist_of_no_match store.wishlist { book := b } now hno]
      refine ⟨newWishlistItem b now, List.mem_append_right _ (List.mem_singleton.mpr rfl), ?_⟩
      exact jsOr_eq b._id b.id
  refine ⟨?_, ?_, ?_, ?_, rfl, rfl⟩
  · obtain ⟨x, hx, hid⟩ := hadd { book with _id := i, id := i }
    have hxi : x.id = i := by
      rcases hid with h | h <;> exact h
    simp only [selectIsInWishlist, applyEffect, wishlistReducer, List.any_eq_true]
    exact ⟨x, hx, by simp [hxi]⟩
  · intro hids
    simp only [selectIsInWishlist, applyEffect, wishlistReducer, List.any_eq_true]
    by_cases h : ∃ x ∈ store.wishlist.items,
        matchesWishlistBook { book with _id := none, id := i } x = true
    · rw [addToWishlist_of_match store.wishlist _ now h]
      obtain ⟨x, hx, hm⟩ := h
      rcases (matchesWishlistBook_iff _ x).mp hm with hnone | hxi
      · exact absurd hnone (hids x hx)
      · exact ⟨x, hx, by simp [hxi]⟩
    · have hno : ∀ x ∈ store.wishlist.items,
          matchesWishlistBook { book with _id := none, id := i } x = false := by
        intro x hx
        cases hb : matchesWishlistBook { book with _id := none, id := i } x with
        | false => rfl
        | true => exact absurd ⟨x, hx, hb⟩ h
      rw [addToWishlist_of_no_match store.wishlist _ now hno]
      refine ⟨newWishlistItem { book with _id := none, id := i } now,
        List.mem_append_right _ (List.mem_singleton.mpr rfl), ?_⟩
      simp [newWishlistItem, jsOr, truthy]
  · obtain ⟨x, hx, hid⟩ := hadd book
    rcases hid with h | h
    · left
      simp only [selectIsInWishlist, applyEffect, wishlistReducer, List.any_eq_true]
      exact ⟨x, hx, by simp [h]⟩
    · right
      simp only [selectIsInWishlist, applyEffect, wishlistReducer, List.any_eq_true]
      exact ⟨x, hx, by simp [h]⟩
  · simp only [selectIsInWishlist, applyEffect, wishlistReducer, List.any_eq_false]
    intro x hx
    by_cases h : ∃ item ∈ store.wishlist.items, item.id = i
    · rw [removeFromWishlist_present store.wishlist i h] at hx
      simpa using (List.mem_filter.mp hx).2
    · rw [removeFromWishlist_absent store.wishlist i
        (fun item hitem hid => h ⟨item, hitem, hid⟩)] at hx
      simpa using fun hid => h ⟨x, hx, hid⟩

/-- Scenario E, queried: the wishlist holds `b2`; once `{ id: "b1" }` is added
`selectIsInWishlist("b1")` is true and the count is 2. -/
theorem wishlist_queries_agree_witness :
    (∀ item ∈ ({ cart := cartB1, wishlist := wishlistB2 } : RootState).wishlist.items,
      item.id ≠ none) ∧
    selectIsInWishlist
        (applyEffect { cart := cartB1, wishlist := wishlistB2 }
          (Effect.dispatchWishlist
            (WishlistAction.addToWishlist
              { book := { bookB1 with _id := none, id := some "b1" } }
              "2024-05-02T10:00:00.000Z")))
        (some "b1") = true ∧
    selectIsInWishlist { cart := cartB1, wishlist := wishlistB2 } (some "b1") = false ∧
    selectWishlistCount
        (applyEffect { cart := cartB1, wishlist := wishlistB2 }
          (Effect.dispatchWishlist
            (WishlistAction.addToWishlist
              { book := { bookB1 with _id := none, id := some "b1" } }
              "2024-05-02T10:00:00.000Z"))) = 2 := by
  have hids : ∀ item ∈ ({ cart := cartB1, wishlist := wishlistB2 } : RootState).wishlist.items,
      item.id ≠ none := by
    show ∀ item ∈ wishlistB2.items, item.id ≠ none
    rw [wishlistB2_eq]; simp
  refine ⟨hids,
    (wishlist_queries_agree { cart := cartB1, wishlist := wishlistB2 } bookB1 (some "b1")
      "2024-05-02T10:00:00.000Z").2.1 hids, ?_, ?_⟩
  · rw [wishlistB2_eq]
    simp [selectIsInWishlist]
  · rw [wishlistB2_eq]
    simp [selectWishlistCount, applyEffect, wishlistReducer, addToWishlist, bookB1,
      matchesWishlistBook, newWishlistItem]

/-- C26: the reducer of `isInWishlist` returns its boolean instead of leaving
the state alone, and `createSlice` takes a returned value as the next state: on
the wishlist that holds `b2`, dispatching `isInWishlist("b2")` leaves the
boolean `true` where the wishlist state was, and `isInWishlist("b9")` leaves
`false`; the state of items, loading and error is gone, where the claim has it
unchanged. -/
theorem isInWishlist_replaces_state :
    dispatchIsInWishlist wishlistB2 (some "b2") = WishlistSliceValue.boolean true ∧
    dispatchIsInWishlist wishlistB2 (some "b9") = WishlistSliceValue.boolean false ∧
    dispatchIsInWishlist wishlistB2 (some "b2") ≠ WishlistSliceValue.state wishlistB2 ∧
    dispatchIsInWishlist wishlistB2 (some "b9") ≠ WishlistSliceValue.state wishlistB2 := by
  rw [wishlistB2_eq]
  simp [dispatchIsInWishlist, nextSliceValue, isInWishlist]

/-- C27: for every sequence of cart actions (addToCart, removeFromCart,
updateQuantity, clearCart and loadCartFromBackend among them) applied to the
initial cart state, after every action, that is after every prefix of the
sequence, `itemCount` equals the sum of the quantities of all items. -/
theorem itemCount_is_sum_after_every_action (actions : List CartAction) (k : Nat) :
    (dispatchAll initialState (actions.take k)).itemCount
      = sumQuantity (dispatchAll initialState (actions.take k)).items :=
  dispatchAll_itemCount (actions.take k) initialState (by simp [initialState, sumQuantity])

/-- C28: the `applyCoupon` reducer is guarded by `total > 0`: for every cart
state with total ≤ 0 and every couponCode and discountPercent, `applyCoupon`
leaves the entire cart state unchanged, so no couponCode, discount or
finalTotal is recorded. -/
theorem applyCoupon_guarded_by_total (state : CartState) (payload : ApplyCouponPayload)
    (htotal : state.total ≤ 0) :
    applyCoupon state payload = state ∧
    (applyCoupon state payload).couponCode = state.couponCode ∧
    (applyCoupon state payload).discount = state.discount ∧
    (applyCoupon state payload).finalTotal = state.finalTotal := by
  have h : applyCoupon state payload = state := by
    simp only [applyCoupon, gt_iff_lt, not_lt.mpr htotal, if_false]
  rw [h]
  exact ⟨rfl, rfl, rfl, rfl⟩

/-- On the empty cart, and on the cart of one free book, a coupon of 20 percent
records nothing. -/
theorem applyCoupon_guarded_by_total_witness :
    initialState.total ≤ 0 ∧
    (applyCoupon initialState { couponCode := "NAFIU", discountPercent := 20 } = initialState ∧
      (applyCoupon initialState { couponCode := "NAFIU", discountPercent := 20 }).couponCode
        = initialState.couponCode ∧
      (applyCoupon initialState { couponCode := "NAFIU", discountPercent := 20 }).discount
        = initialState.discount ∧
      (applyCoupon initialState { couponCode := "NAFIU", discountPercent := 20 }).finalTotal
        = initialState.finalTotal) ∧
    (applyCoupon initialState { couponCode := "NAFIU", discountPercent := 20 }).couponCode
      = none ∧
    (applyCoupon initialState { couponCode := "NAFIU", discountPercent := 20 }).discount
      = none ∧
    (applyCoupon initialState { couponCode := "NAFIU", discountPercent := 20 }).finalTotal
      = none := by
  have hzero : initialState.total ≤ 0 := by simp [initialState]
  have h := applyCoupon_guarded_by_total initialState
    { couponCode := "NAFIU", discountPercent := 20 } hzero
  refine ⟨hzero, h, ?_, ?_, ?_⟩
  · rw [h.2.1]; rfl
  · rw [h.2.2.1]; rfl
  · rw [h.2.2.2]; rfl

/-- C22: when the remote write issued by `syncCart` (or `syncWishlist`) is
rejected, for any of the sync actions, no snapshot pull is made and no store
action is dispatched, so the local cart and wishlist state is exactly what it
was before the call; the failure is reported as the notification
`Failed to sync with server` and the call completes without throwing. -/
theorem sync_write_failure_keeps_state (store : RootState) (userId : Option String)
    (action error : String) (remote : Remote) (huser : truthy userId = true) :
    (action ∈ ["add", "update", "remove", "clear", "applyCoupon", "removeCoupon"] →
      remote.cartWrite = Except.error error →
      Effect.remoteCall "cartAPI.getCart" ∉ (syncCart userId action remote).effects ∧
      (∀ a, Effect.dispatchCart a ∉ (syncCart userId action remote).effects) ∧
      (∀ a, Effect.dispatchWishlist a ∉ (syncCart userId action remote).effects) ∧
      applyEffects store (syncCart userId action remote).effects = store ∧
      Effect.toastError "Failed to sync with server"
        ∈ (syncCart userId action remote).effects ∧
      (syncCart userId action remote).thrown = none) ∧
    (action ∈ ["add", "remove", "clear"] →
      remote.wishlistWrite = Except.error error →
      Effect.remoteCall "wishlistAPI.getWishlist"
        ∉ (syncWishlist userId action remote).effects ∧
      (∀ a, Effect.dispatchCart a ∉ (syncWishlist userId action remote).effects) ∧
      (∀ a, Effect.dispatchWishlist a ∉ (syncWishlist userId action remote).effects) ∧
      applyEffects store (syncWishlist userId action remote).effects = store ∧
      Effect.toastError "Failed to sync with server"
        ∈ (syncWishlist userId action remote).effects ∧
      (syncWishlist userId action remote).thrown = none) := by
  constructor
  · intro haction hwrite
    obtain ⟨call, hcall, hne⟩ := syncCartWrite_of_mem action haction
    rw [syncCart_of_write_error userId action call error remote huser hcall hwrite]
    simp [applyEffects, applyEffect, hne.symm]
  · intro haction hwrite
    obtain ⟨call, hcall, hne⟩ := syncWishlistWrite_of_mem action haction
    rw [syncWishlist_of_write_error userId action call error remote huser hcall hwrite]
    simp [applyEffects, applyEffect, hne.symm]

/-- Scenario F: the push of a removal is rejected; the store of `b1` and `b2`
is left as it was and the notification is raised. -/
theorem sync_write_failure_keeps_state_witness :
    truthy (some "user_1") = true ∧
    "remove" ∈ ["add", "update", "remove", "clear", "applyCoupon", "removeCoupon"] ∧
    remoteDown.cartWrite = Except.error "API Error: 500 Internal Server Error" ∧
    (Effect.remoteCall "cartAPI.getCart"
        ∉ (syncCart (some "user_1") "remove" remoteDown).effects ∧
      (∀ a, Effect.dispatchCart a ∉ (syncCart (some "user_1") "remove" remoteDown).effects) ∧
      (∀ a,
        Effect.dispatchWishlist a ∉ (syncCart (some "user_1") "remove" remoteDown).effects) ∧
      applyEffects storeB1B2 (syncCart (some "user_1") "remove" remoteDown).effects
        = storeB1B2 ∧
      Effect.toastError "Failed to sync with server"
        ∈ (syncCart (some "user_1") "remove" remoteDown).effects ∧
      (syncCart (some "user_1") "remove" remoteDown).thrown = none) ∧
    "remove" ∈ ["add", "remove", "clear"] ∧
    remoteDown.wishlistWrite = Except.error "API Error: 500 Internal Server Error" ∧
    (Effect.remoteCall "wishlistAPI.getWishlist"
        ∉ (syncWishlist (some "user_1") "remove" remoteDown).effects ∧
      (∀ a,
        Effect.dispatchCart a ∉ (syncWishlist (some "user_1") "remove" remoteDown).effects) ∧
      (∀ a,
        Effect.dispatchWishlist a
          ∉ (syncWishlist (some "user_1") "remove" remoteDown).effects) ∧
      applyEffects storeB1B2 (syncWishlist (some "user_1") "remove" remoteDown).effects
        = storeB1B2 ∧
      Effect.toastError "Failed to sync with server"
        ∈ (syncWishlist (some "user_1") "remove" remoteDown).effects ∧
      (syncWishlist (some "user_1") "remove" remoteDown).thrown = none) ∧
    (syncCart (some "user_1") "remove" remoteDown).effects
      = [Effect.remoteCall "cartAPI.removeFromCart",
         Effect.consoleError "Failed to sync cart:",
         Effect.toastError "Failed to sync with server"] := by
  have huser : truthy (some "user_1") = true := by decide
  have hcart :
      "remove" ∈ ["add", "update", "remove", "clear", "applyCoupon", "removeCoupon"] := by
    decide
  have hwish : "remove" ∈ ["add", "remove", "clear"] := by decide
  refine ⟨huser, hcart, rfl,
    (sync_write_failure_keeps_state storeB1B2 (some "user_1") "remove"
      "API Error: 500 Internal Server Error" remoteDown huser).1 hcart rfl,
    hwish, rfl,
    (sync_write_failure_keeps_state storeB1B2 (some "user_1") "remove"
      "API Error: 500 Internal Server Error" remoteDown huser).2 hwish rfl, ?_⟩
  rw [syncCart_of_write_error (some "user_1") "remove" "cartAPI.removeFromCart"
    "API Error: 500 Internal Server Error" remoteDown huser (by simp [syncCartWrite]) rfl]

/-- C23: when the remote write issued by `syncCart` succeeds and the pull that
follows returns the snapshot `s`, the resulting cart state equals the prior
state with `loadCartFromBackend(s)` applied: the items are those of `s` (none
when `s` has no item list) and the coupon fields are those of `s`, whatever the
local state held; the wishlist is not touched. -/
theorem sync_write_success_loads_snapshot (store : RootState) (userId : Option String)
    (action : String) (remote : Remote) (s : CartSnapshot)
    (huser : truthy userId = true)
    (hwrite : remote.cartWrite = Except.ok ())
    (hpull : remote.getCart = Except.ok s) :
    (applyEffects store (syncCart userId action remote).effects).cart
      = loadCartFromBackend store.cart s ∧
    (applyEffects store (syncCart userId action remote).effects).cart.items
      = s.items.getD [] ∧
    (applyEffects store (syncCart userId action remote).effects).cart.discount = s.discount ∧
    (applyEffects store (syncCart userId action remote).effects).cart.couponCode
      = s.couponCode ∧
    (applyEffects store (syncCart userId action remote).effects).cart.finalTotal
      = s.finalTotal ∧
    (applyEffects store (syncCart userId action remote).effects).wishlist = store.wishlist ∧
    (syncCart userId action remote).thrown = none := by
  obtain ⟨hstore, hthrown⟩ :=
    syncCart_of_success store userId action remote s huser hwrite hpull
  rw [hstore]
  exact ⟨rfl, rfl, rfl, rfl, rfl, rfl, hthrown⟩

/-- The push of an added item is accepted and the pull returns the snapshot of
the coupon SAVE15: the local cart of `b1` and `b2` is replaced by it. -/
theorem sync_write_success_loads_snapshot_witness :
    truthy (some "user_1") = true ∧
    remoteUp.cartWrite = Except.ok () ∧
    remoteUp.getCart = Except.ok snapshotWithCoupon ∧
    ((applyEffects storeB1B2 (syncCart (some "user_1") "add" remoteUp).effects).cart
        = loadCartFromBackend storeB1B2.cart snapshotWithCoupon ∧
      (applyEffects storeB1B2 (syncCart (some "user_1") "add" remoteUp).effects).cart.items
        = snapshotWithCoupon.items.getD [] ∧
      (applyEffects storeB1B2 (syncCart (some "user_1") "add" remoteUp).effects).cart.discount
        = snapshotWithCoupon.discount ∧
      (applyEffects storeB1B2 (syncCart (some "user_1") "add" remoteUp).effects).cart.couponCode
        = snapshotWithCoupon.couponCode ∧
      (applyEffects storeB1B2 (syncCart (some "user_1") "add" remoteUp).effects).cart.finalTotal
        = snapshotWithCoupon.finalTotal ∧
      (applyEffects storeB1B2 (syncCart (some "user_1") "add" remoteUp).effects).wishlist
        = storeB1B2.wishlist ∧
      (syncCart (some "user_1") "add" remoteUp).thrown = none) ∧
    snapshotWithCoupon.items.getD [] = [] ∧
    snapshotWithCoupon.couponCode = some "SAVE15" ∧
    storeB1B2.cart.items.length = 2 := by
  have huser : truthy (some "user_1") = true := by decide
  refine ⟨huser, rfl, rfl,
    sync_write_success_loads_snapshot storeB1B2 (some "user_1") "add" remoteUp
      snapshotWithCoupon huser rfl rfl, rfl, rfl, ?_⟩
  show cartB1B2.items.length = 2
  rw [cartB1B2_eq]
  rfl

/-- C24: when the snapshot pull at session start fails (`getCart` or
`getWishlist` rejects), the loader dispatches no store action and does not
throw (the failure is logged to the console): a failed `getCart` leaves the
cart unchanged, a failed `getWishlist` leaves the wishlist unchanged, and when
both fail the whole store is unchanged. The same holds of the loaders of
`useCartSync` and `useWishlistSync`. -/
theorem initial_pull_failure_keeps_state (store : RootState) (isLoaded : Bool)
    (userId : Option String) (remote : Remote) (error : String) :
    (remote.getCart = Except.error error →
      (∀ a, Effect.dispatchCart a ∉ (loadUserCart remote).effects) ∧
      applyEffects store (loadUserCart remote).effects = store ∧
      (loadUserCart remote).thrown = none ∧
      Effect.consoleError "Failed to load cart:" ∈ (loadUserCart remote).effects ∧
      (∀ a, Effect.dispatchCart a ∉ (loadCartFromBackendAPI remote).effects) ∧
      applyEffects store (loadCartFromBackendAPI remote).effects = store ∧
      (loadCartFromBackendAPI remote).thrown = none ∧
      (∀ a,
        Effect.dispatchCart a ∉ (useInitializeUserData isLoaded userId remote).effects) ∧
      (applyEffects store (useInitializeUserData isLoaded userId remote).effects).cart
        = store.cart) ∧
    (remote.getWishlist = Except.error error →
      (∀ a, Effect.dispatchWishlist a ∉ (loadUserWishlist remote).effects) ∧
      applyEffects store (loadUserWishlist remote).effects = store ∧
      (loadUserWishlist remote).thrown = none ∧
      Effect.consoleError "Failed to load wishlist:" ∈ (loadUserWishlist remote).effects ∧
      (∀ a, Effect.dispatchWishlist a ∉ (loadWishlistFromBackendAPI remote).effects) ∧
      applyEffects store (loadWishlistFromBackendAPI remote).effects = store ∧
      (loadWishlistFromBackendAPI remote).thrown = none ∧
      (∀ a,
        Effect.dispatchWishlist a ∉ (useInitializeUserData isLoaded userId remote).effects) ∧
      (applyEffects store (useInitializeUserData isLoaded userId remote).effects).wishlist
        = store.wishlist) ∧
    (remote.getCart = Except.error error → remote.getWishlist = Except.error error →
      applyEffects store (useInitializeUserData isLoaded userId remote).effects = store) ∧
    (useInitializeUserData isLoaded userId remote).thrown = none := by
  refine ⟨?_, ?_, ?_, ?_⟩
  · intro hcart
    refine ⟨?_, ?_, ?_, ?_, ?_, ?_, ?_, ?_, ?_⟩
    · simp [loadUserCart, hcart]
    · simp [loadUserCart, hcart, applyEffects, applyEffect]
    · simp [loadUserCart, hcart]
    · simp [loadUserCart, hcart]
    · simp [loadCartFromBackendAPI, hcart]
    · simp [loadCartFromBackendAPI, hcart, applyEffects, applyEffect]
    · simp [loadCartFromBackendAPI, hcart]
    · intro a
      simp only [useInitializeUserData]
      split
      · cases hw : remote.getWishlist <;> simp [loadUserCart, loadUserWishlist, hcart, hw]
      · simp
    · simp only [useInitializeUserData]
      split
      · cases hw : remote.getWishlist <;>
          simp [loadUserCart, loadUserWishlist, hcart, hw, applyEffects, applyEffect]
      · simp [applyEffects]
  · intro hwish
    refine ⟨?_, ?_, ?_, ?_, ?_, ?_, ?_, ?_, ?_⟩
    · simp [loadUserWishlist, hwish]
    · simp [loadUserWishlist, hwish, applyEffects, applyEffect]
    · simp [loadUserWishlist, hwish]
    · simp [loadUserWishlist, hwish]
    · simp [loadWishlistFromBackendAPI, hwish]
    · simp [loadWishlistFromBackendAPI, hwish, applyEffects, applyEffect]
    · simp [loadWishlistFromBackendAPI, hwish]
    · intro a
      simp only [useInitializeUserData]
      split
      · cases hc : remote.getCart <;> simp [loadUserCart, loadUserWishlist, hwish, hc]
      · simp
    · simp only [useInitializeUserData]
      split
      · cases hc : remote.getCart <;>
          simp [loadUserCart, loadUserWishlist, hwish, hc, applyEffects, applyEffect]
      · simp [applyEffects]
  · intro hcart hwish
    simp only [useInitializeUserData]
    split
    · simp [loadUserCart, loadUserWishlist, hcart, hwish, applyEffects, applyEffect]
    · simp [applyEffects]
  · simp only [useInitializeUserData]
    split <;> rfl

/-- The session starts while the remote service rejects every call: the store
of `b1` and `b2` is left as it was, and the two failures are logged. -/
theorem initial_pull_failure_keeps_state_witness :
    remoteDown.getCart = Except.error "API Error: 500 Internal Server Error" ∧
    remoteDown.getWishlist = Except.error "API Error: 500 Internal Server Error" ∧
    applyEffects storeB1B2 (useInitializeUserData true (some "user_1") remoteDown).effects
      = storeB1B2 ∧
    (useInitializeUserData true (some "user_1") remoteDown).thrown = none ∧
    (useInitializeUserData true (some "user_1") remoteDown).effects
      = [Effect.remoteCall "cartAPI.getCart",
         Effect.consoleError "Failed to load cart:",
         Effect.remoteCall "wishlistAPI.getWishlist",
         Effect.consoleError "Failed to load wishlist:"] := by
  have h := initial_pull_failure_keeps_state storeB1B2 true (some "user_1") remoteDown
    "API Error: 500 Internal Server Error"
  refine ⟨rfl, rfl, h.2.2.1 rfl rfl, h.2.2.2, ?_⟩
  simp [useInitializeUserData, truthy, loadUserCart, loadUserWishlist, remoteDown]

/-- C25, as stated, fails: nothing resets the stores on sign-out. With two
lines in the cart and two books in the wishlist, the effects of
`useInitializeUserData`, `useCartSync` and `useWishlistSync` run with the user
absent do nothing, and the cart and the wishlist are as full as before. -/
theorem sign_out_reset_counterexample :
    (useInitializeUserData true none remoteUp).effects = [] ∧
    (useCartSync none remoteUp).effects = [] ∧
    (useWishlistSync none remoteUp).effects = [] ∧
    applyEffects storeB1B2
        ((useInitializeUserData true none remoteUp).effects
          ++ (useCartSync none remoteUp).effects ++ (useWishlistSync none remoteUp).effects)
      = storeB1B2 ∧
    storeB1B2.cart.items.length = 2 ∧
    storeB1B2.wishlist.items.length = 2 ∧
    ¬ ((applyEffects storeB1B2
            ((useInitializeUserData true none remoteUp).effects
              ++ (useCartSync none remoteUp).effects
              ++ (useWishlistSync none remoteUp).effects)).cart.items = [] ∧
        (applyEffects storeB1B2
            ((useInitializeUserData true none remoteUp).effects
              ++ (useCartSync none remoteUp).effects
              ++ (useWishlistSync none remoteUp).effects)).wishlist.items = []) := by
  have hinit : (useInitializeUserData true none remoteUp).effects = [] := by
    simp [useInitializeUserData, truthy]
  have hcart : (useCartSync none remoteUp).effects = [] := by
    simp [useCartSync, truthy]
  have hwish : (useWishlistSync none remoteUp).effects = [] := by
    simp [useWishlistSync, truthy]
  have hc : storeB1B2.cart.items.length = 2 := by
    show cartB1B2.items.length = 2
    rw [cartB1B2_eq]; rfl
  have hw : storeB1B2.wishlist.items.length = 2 := by
    show wishlistB2B1.items.length = 2
    rw [wishlistB2B1_eq]; rfl
  rw [hinit, hcart, hwish]
  refine ⟨rfl, rfl, rfl, rfl, hc, hw, ?_⟩
  rintro ⟨hempty, _⟩
  have hstore : applyEffects storeB1B2 ([] ++ [] ++ []) = storeB1B2 := rfl
  rw [hstore] at hempty
  rw [hempty] at hc
  exact absurd hc (by decide)

/-- C25, amended: on sign-out (the user session changing from present to
absent) no remote call is made and no store action is dispatched: the effects
of `useInitializeUserData`, `useCartSync` and `useWishlistSync` do nothing when
the user is absent, so the cart and the wishlist keep the state they had. -/
theorem sign_out_keeps_state (store : RootState) (isLoaded : Bool) (remote : Remote) :
    (useInitializeUserData isLoaded none remote).effects = [] ∧
    (useCartSync none remote).effects = [] ∧
    (useWishlistSync none remote).effects = [] ∧
    applyEffects store
        ((useInitializeUserData isLoaded none remote).effects
          ++ (useCartSync none remote).effects ++ (useWishlistSync none remote).effects)
      = store ∧
    (useInitializeUserData isLoaded none remote).thrown = none := by
  have hinit : useInitializeUserData isLoaded none remote
      = { effects := [], thrown := none } := by
    simp [useInitializeUserData, truthy]
  have hcart : useCartSync none remote = { effects := [], thrown := none } := by
    simp [useCartSync, truthy]
  have hwish : useWishlistSync none remote = { effects := [], thrown := none } := by
    simp [useWishlistSync, truthy]
  rw [hinit, hcart, hwish]
  exact ⟨rfl, rfl, rfl, rfl, rfl⟩

/-- C30, as stated, fails on a cart that holds a line without an id, which
`addToCart` builds from a book that has neither `_id` nor `id`: the wishlist
holds `b2` alone (non-empty, ids distinct), and since the wishlist item has no
`_id` the `find` of `addToCart` matches the line whose id is `undefined`.
After `handleMoveAllToCart` the cart is that one line with quantity 2, and no
item of the cart has the id `b2`, where the claim has an item `b2` of
quantity 1 and the other line unchanged. -/
theorem handleMoveAllToCart_counterexample :
    storeNoId.wishlist.items ≠ [] ∧
    storeNoId.wishlist.items.Pairwise (fun a b => a.id ≠ b.id) ∧
    storeNoId.wishlist.items.map (fun item => item.id) = [some "b2"] ∧
    storeNoId.cart.items.map (fun item => (item.id, item.quantity)) = [(none, 1)] ∧
    (applyEffects storeNoId
        (handleMoveAllToCart (selectWishlistItems storeNoId))).cart.items.map
        (fun item => (item.id, item.quantity))
      = [(none, 2)] ∧
    ¬ (∃ item ∈
        (applyEffects storeNoId (handleMoveAllToCart (selectWishlistItems storeNoId))).cart.items,
        item.id = some "b2") ∧
    ¬ ((applyEffects storeNoId
          (handleMoveAllToCart (selectWishlistItems storeNoId))).cart.items.filter
          (fun item => decide (item.id ∉ storeNoId.wishlist.items.map (fun w => w.id)))
        = storeNoId.cart.items.filter
            (fun item => decide (item.id ∉ storeNoId.wishlist.items.map (fun w => w.id)))) := by
  have hw : storeNoId.wishlist = wishlistB2 := rfl
  have hc : storeNoId.cart = cartNoId := rfl
  have hne : storeNoId.wishlist.items ≠ [] := by
    rw [hw, wishlistB2_eq]; simp
  have hafter :
      (applyEffects storeNoId (handleMoveAllToCart (selectWishlistItems storeNoId))).cart.items
        = [{ id := none, title := "Untitled", author := "Unknown", price := 5,
             coverImageUrl := "", category := none, quantity := 2 }] := by
    rw [applyEffects_handleMoveAllToCart storeNoId hne, hw, hc, wishlistB2_eq, cartNoId_eq]
    simp [moveToCart, addToCart, wishlistItemAsBook, matchesBook, mutateFirst]
  rw [hafter, hw, hc, wishlistB2_eq, cartNoId_eq]
  simp

/-- C30, amended: for every cart state in which every line has an id and
itemCount is the sum of the quantities (as it is in every state the reducers
produce), and every non-empty wishlist whose items all have an id and whose
item ids are pairwise distinct, after `handleMoveAllToCart` the wishlist is
empty and, for each former wishlist item, the cart contains an item with that
id whose quantity (that of the first line with the id) is exactly one more than
before, 1 if it was absent; the cart items whose ids were not in the wishlist
are unchanged, and itemCount has grown by the number of wishlist items. -/
theorem handleMoveAllToCart_moves_every_item (store : RootState)
    (hne : store.wishlist.items ≠ [])
    (hdistinct : store.wishlist.items.Pairwise (fun a b => a.id ≠ b.id))
    (hwishIds : ∀ w ∈ store.wishlist.items, w.id ≠ none)
    (hcartIds : ∀ item ∈ store.cart.items, item.id ≠ none)
    (hcount : store.cart.itemCount = sumQuantity store.cart.items) :
    (applyEffects store (handleMoveAllToCart (selectWishlistItems store))).wishlist.items
      = [] ∧
    (∀ w ∈ store.wishlist.items,
      (∃ item ∈
          (applyEffects store (handleMoveAllToCart (selectWishlistItems store))).cart.items,
        item.id = w.id) ∧
      quantityOf
          (applyEffects store (handleMoveAllToCart (selectWishlistItems store))).cart.items w.id
        = quantityOf store.cart.items w.id + 1 ∧
      ((∀ item ∈ store.cart.items, item.id ≠ w.id) →
        quantityOf
            (applyEffects store (handleMoveAllToCart (selectWishlistItems store))).cart.items
            w.id
          = 1)) ∧
    (applyEffects store (handleMoveAllToCart (selectWishlistItems store))).cart.items.filter
        (fun item => decide (item.id ∉ store.wishlist.items.map (fun w => w.id)))
      = store.cart.items.filter
          (fun item => decide (item.id ∉ store.wishlist.items.map (fun w => w.id))) ∧
    (applyEffects store (handleMoveAllToCart (selectWishlistItems store))).cart.itemCount
      = store.cart.itemCount + store.wishlist.items.length := by
  obtain ⟨hq, _, hkeep, hsum, hids⟩ :=
    foldl_moveToCart store.wishlist.items store.cart hdistinct hwishIds hcartIds
  have hitemCount := foldl_moveToCart_itemCount store.wishlist.items store.cart hcount
  rw [applyEffects_handleMoveAllToCart store hne]
  refine ⟨rfl, ?_, ?_, ?_⟩
  · intro w hw
    refine ⟨?_, hq w hw, ?_⟩
    · have hmem := (hids w.id).mpr (Or.inr ⟨w, hw, rfl⟩)
      obtain ⟨item, hitem, hid⟩ := List.mem_map.mp hmem
      exact ⟨item, hitem, hid⟩
    · intro habsent
      have hzero : quantityOf store.cart.items w.id = 0 := by
        have hnone : store.cart.items.find? (fun item => item.id == w.id) = none :=
          (find?_id_none_iff store.cart.items w.id).mpr habsent
        simp only [quantityOf, hnone]
      have := hq w hw
      rw [hzero] at this
      simpa using this
  · apply hkeep (fun id => decide (id ∉ store.wishlist.items.map (fun w => w.id)))
    intro w hw
    have hmem : w.id ∈ store.wishlist.items.map (fun w => w.id) :=
      List.mem_map.mpr ⟨w, hw, rfl⟩
    simp [hmem]
  · show (store.wishlist.items.foldl moveToCart store.cart).itemCount
      = store.cart.itemCount + store.wishlist.items.length
    rw [hitemCount, hsum, hcount]

/-- The wishlist holds `b2` and `b1`, the cart two copies of `b1`: after the
move the wishlist is empty, the cart holds three copies of `b1` and one of
`b2`, and itemCount went from 2 to 4. -/
theorem handleMoveAllToCart_moves_every_item_witness :
    storeB1W.wishlist.items ≠ [] ∧
    storeB1W.wishlist.items.Pairwise (fun a b => a.id ≠ b.id) ∧
    (∀ w ∈ storeB1W.wishlist.items, w.id ≠ none) ∧
    (∀ item ∈ storeB1W.cart.items, item.id ≠ none) ∧
    storeB1W.cart.itemCount = sumQuantity storeB1W.cart.items ∧
    (applyEffects storeB1W (handleMoveAllToCart (selectWishlistItems storeB1W))).wishlist.items
      = [] ∧
    (applyEffects storeB1W (handleMoveAllToCart (selectWishlistItems storeB1W))).cart.itemCount
      = storeB1W.cart.itemCount + storeB1W.wishlist.items.length ∧
    storeB1W.cart.itemCount = 2 ∧
    (applyEffects storeB1W
        (handleMoveAllToCart (selectWishlistItems storeB1W))).cart.items.map
        (fun item => (item.id, item.quantity))
      = [(some "b1", 3), (some "b2", 1)] := by
  have hw : storeB1W.wishlist = wishlistB2B1 := rfl
  have hc : storeB1W.cart = cartB1 := rfl
  have hne : storeB1W.wishlist.items ≠ [] := by
    rw [hw, wishlistB2B1_eq]; simp
  have hdistinct : storeB1W.wishlist.items.Pairwise (fun a b => a.id ≠ b.id) := by
    rw [hw, wishlistB2B1_eq]; simp
  have hwishIds : ∀ w ∈ storeB1W.wishlist.items, w.id ≠ none := by
    rw [hw, wishlistB2B1_eq]; simp
  have hcartIds : ∀ item ∈ storeB1W.cart.items, item.id ≠ none := by
    rw [hc, cartB1_eq]; simp
  have hcount : storeB1W.cart.itemCount = sumQuantity storeB1W.cart.items := by
    rw [hc, cartB1_eq]; simp [sumQuantity]
  have h := handleMoveAllToCart_moves_every_item storeB1W hne hdistinct hwishIds hcartIds hcount
  refine ⟨hne, hdistinct, hwishIds, hcartIds, hcount, h.1, h.2.2.2, ?_, ?_⟩
  · rw [hc, cartB1_eq]
  · rw [applyEffects_handleMoveAllToCart storeB1W hne, hw, hc, wishlistB2B1_eq, cartB1_eq]
    simp [moveToCart, addToCart, wishlistItemAsBook, matchesBook, newCartItem, jsOr, truthy,
      mutateFirst]

/-- C29, as stated, fails in the arithmetic of the engine, where every number is
a double and every operation rounds. With the coupon NAFIU (20 %): on the total
9.99 the recorded finalTotal is 7.992, which is neither the double
7.992000000000001 that total × (100 − 20)/100 evaluates to nor the exact value
of that expression; on the smallest positive total, 2^-1074, the discount is 0
and finalTotal is the total itself; on the total 2^1023 the product overflows,
the discount is +∞ and finalTotal is −∞, which `finalTotal || total` keeps. -/
theorem applyCouponDouble_counterexample :
    (handleApplyCoupon toUpperCase { couponInput := "nafiu", couponMessage := "" }).dispatched
      = [CartAction.applyCoupon { couponCode := "NAFIU", discountPercent := 20 }] ∧
    roundToDouble (999 / 100) = Double.finite (5623870034678907 / 2 ^ 49) ∧
    Double.gt (Double.finite (5623870034678907 / 2 ^ 49)) (Double.finite 0) = true ∧
    applyCouponDouble
        { total := Double.finite (5623870034678907 / 2 ^ 49), discount := none,
          finalTotal := none }
        (Double.finite 20)
      = { total := Double.finite (5623870034678907 / 2 ^ 49),
          discount := some (Double.finite (8998192055486252 / 2 ^ 52)),
          finalTotal := some (Double.finite (8998192055486251 / 2 ^ 50)) } ∧
    discountedTotal (Double.finite (5623870034678907 / 2 ^ 49)) (Double.finite 20)
      = Double.finite (8998192055486252 / 2 ^ 50) ∧
    Double.finite (8998192055486251 / 2 ^ 50) ≠ Double.finite (8998192055486252 / 2 ^ 50) ∧
    (8998192055486251 / 2 ^ 50 : ℚ) ≠ 5623870034678907 / 2 ^ 49 * (100 - 20) / 100 ∧
    Double.gt (Double.finite (1 / 2 ^ 1074)) (Double.finite 0) = true ∧
    applyCouponDouble
        { total := Double.finite (1 / 2 ^ 1074), discount := none, finalTotal := none }
        (Double.finite 20)
      = { total := Double.finite (1 / 2 ^ 1074), discount := some (Double.finite 0),
          finalTotal := some (Double.finite (1 / 2 ^ 1074)) } ∧
    Double.gt (Double.finite (2 ^ 1023)) (Double.finite 0) = true ∧
    applyCouponDouble
        { total := Double.finite (2 ^ 1023), discount := none, finalTotal := none }
        (Double.finite 20)
      = { total := Double.finite (2 ^ 1023), discount := some (Double.infinity false),
          finalTotal := some (Double.infinity true) } ∧
    finalTotalOrTotal
        { total := Double.finite (2 ^ 1023), discount := some (Double.infinity false),
          finalTotal := some (Double.infinity true) }
      = Double.infinity true := by
  refine ⟨?_, roundToDouble_999, ?_, applyCouponDouble_999, discountedTotal_999, ?_, ?_, ?_,
    applyCouponDouble_smallest, ?_, applyCouponDouble_large, ?_⟩
  · exact handleApplyCoupon_of_lookup_some toUpperCase
      { couponInput := "nafiu", couponMessage := "" } 20
      (by simp [validCoupons, List.lookup, show toUpperCase "nafiu" = "NAFIU" by decide])
      (by norm_num)
  · simp [Double.gt]
  · intro h
    injection h with h
    norm_num at h
  · norm_num
  · simp [Double.gt]
  · simp [Double.gt]
  · simp [finalTotalOrTotal, Double.or, Double.truthy]

/-- C29, amended: for every total between 2^-1000 and 2^1000 and each of the
four valid coupon codes, the handler dispatches `applyCoupon` with the
percentage of the code and, right after the reducer ran in the arithmetic of
the engine (doubles, every operation rounded), discount and finalTotal are
finite, 0 < discount < total, 0 < finalTotal < total, finalTotal is within
total × 2^-52 of total × (100 − pct)/100, and the fallback
`finalTotal || total` yields finalTotal. -/
theorem applyCouponDouble_discount_bounds (upper : String → String) (page : CartPageState)
    (code : String) (pct total : ℚ) (discount finalTotal : Option Double)
    (hvalid : (code, pct) ∈
      [("NAFIU", (20 : ℚ)), ("WELCOME10", 10), ("SAVE15", 15), ("BOOKBAZAR", 25)])
    (hinput : upper page.couponInput = code)
    (hlo : (2 : ℚ) ^ (-1000 : ℤ) ≤ total) (hhi : total ≤ (2 : ℚ) ^ (1000 : ℤ)) :
    (handleApplyCoupon upper page).dispatched
      = [CartAction.applyCoupon { couponCode := code, discountPercent := pct }] ∧
    ∃ d f : ℚ,
      applyCouponDouble
          { total := Double.finite total, discount := discount, finalTotal := finalTotal }
          (Double.finite pct)
        = { total := Double.finite total, discount := some (Double.finite d),
            finalTotal := some (Double.finite f) } ∧
      0 < d ∧ d < total ∧ 0 < f ∧ f < total ∧
      |f - total * (100 - pct) / 100| ≤ total * (2 : ℚ) ^ (-52 : ℤ) ∧
      finalTotalOrTotal
          { total := Double.finite total, discount := some (Double.finite d),
            finalTotal := some (Double.finite f) }
        = Double.finite f := by
  obtain ⟨hlookup, hne, _, _⟩ := validCoupons_lookup_of_mem code pct hvalid
  obtain ⟨hp1, hp2⟩ := validCoupons_pct_range code pct hvalid
  rw [← hinput] at hlookup
  constructor
  · rw [handleApplyCoupon_of_lookup_some upper page pct hlookup hne, hinput]
  · obtain ⟨d, f, hrun, hd0, hdt, hf0, hft, herr⟩ :=
      applyCouponDouble_of_range total pct discount finalTotal hlo hhi hp1 hp2
    refine ⟨d, f, hrun, hd0, hdt, hf0, hft, herr, ?_⟩
    simp [finalTotalOrTotal, Double.or, Double.truthy, ne_of_gt hf0]

/-- Scenario C in doubles: with total 100 the input `nafiu` gives discount 20
and final total 80, exactly. -/
theorem applyCouponDouble_discount_bounds_witness :
    ("NAFIU", (20 : ℚ)) ∈
      [("NAFIU", (20 : ℚ)), ("WELCOME10", 10), ("SAVE15", 15), ("BOOKBAZAR", 25)] ∧
    toUpperCase "nafiu" = "NAFIU" ∧
    (2 : ℚ) ^ (-1000 : ℤ) ≤ 100 ∧ (100 : ℚ) ≤ (2 : ℚ) ^ (1000 : ℤ) ∧
    ((handleApplyCoupon toUpperCase { couponInput := "nafiu", couponMessage := "" }).dispatched
        = [CartAction.applyCoupon { couponCode := "NAFIU", discountPercent := 20 }] ∧
      ∃ d f : ℚ,
        applyCouponDouble
            { total := Double.finite 100, discount := none, finalTotal := none }
            (Double.finite 20)
          = { total := Double.finite 100, discount := some (Double.finite d),
              finalTotal := some (Double.finite f) } ∧
        0 < d ∧ d < 100 ∧ 0 < f ∧ f < 100 ∧
        |f - 100 * (100 - 20) / 100| ≤ 100 * (2 : ℚ) ^ (-52 : ℤ) ∧
        finalTotalOrTotal
            { total := Double.finite 100, discount := some (Double.finite d),
              finalTotal := some (Double.finite f) }
          = Double.finite f) ∧
    applyCouponDouble
        { total := Double.finite 100, discount := none, finalTotal := none }
        (Double.finite 20)
      = { total := Double.finite 100, discount := some (Double.finite 20),
          finalTotal := some (Double.finite 80) } := by
  have hmem : ("NAFIU", (20 : ℚ)) ∈
      [("NAFIU", (20 : ℚ)), ("WELCOME10", 10), ("SAVE15", 15), ("BOOKBAZAR", 25)] := by
    simp
  have hup : toUpperCase "nafiu" = "NAFIU" := by decide
  have hlo : (2 : ℚ) ^ (-1000 : ℤ) ≤ 100 := by norm_num
  have hhi : (100 : ℚ) ≤ (2 : ℚ) ^ (1000 : ℤ) := by norm_num
  exact ⟨hmem, hup, hlo, hhi,
    applyCouponDouble_discount_bounds toUpperCase
      { couponInput := "nafiu", couponMessage := "" } "NAFIU" 20 100 none none hmem hup hlo hhi,
    applyCouponDouble_hundred⟩

end BookBazar
